import Mathlib

/-!
# IntelliSight presence tracking: entry / exit ledger, validation and live-tracking filters

A shallow embedding of

* `src/controllers/zone1.controller.js` (`logRecognizedPerson`, `getCurrentPersons`,
  `markExit`, `logUnknownPerson`, `updateUnknownFaceStatus`, `deleteUnknownFace`,
  `getUnknownFaces`),
* `src/validators/timetable.validator.js` (`entrySchema`, `exitSchema`),
* `src/middlewares/errorHandler.js`, `src/utils/errors.js`, `src/utils/response.js`,
  `src/config/constants.js`,
* the mount effect, the interval callback and the per-detection loop of
  `admin-dashboard/src/pages/Zone1.jsx` (`initializeFaceRecognition`, `startFaceDetection`,
  `handleRecognizedPerson`, `handleUnknownPerson`),
* the crop rectangle of `extractFaceImage` in `admin-dashboard/src/utils/faceRecognition.js`.

The handler behind `POST /api/timetable/exit` is not among the sources; `recordExit` is
modelled from the specification and marked so.

Times are integers (milliseconds, as `Date.now()` / `new Date()` deliver them).
The database is explicit state that every handler receives and returns.
-/

namespace Intellisight

/-! ## JavaScript values -/

/-- A value found in a parsed JSON request body (or `undefined` for a missing property).
`num n` is a number with the integer value `n`; `float repr` is a number that is not an
integer, given by the decimal text JavaScript prints for it; `obj` is a plain object and
`arr joined` an array, given by its string conversion (the elements joined by commas). -/
inductive JsVal where
  | undefined
  | null
  | bool (b : Bool)
  | num (n : Int)
  | float (repr : String)
  | str (s : String)
  | obj
  | arr (joined : String)
  deriving DecidableEq, Repr

/-- JavaScript truthiness: `!v` is `!(v.truthy)`. -/
def JsVal.truthy : JsVal → Bool
  | .undefined => false
  | .null => false
  | .bool b => b
  | .num n => n != 0
  | .float _ => true
  | .str s => s != ""
  | .obj => true
  | .arr _ => true

/-- The `StrWhiteSpaceChar` class that `parseInt` skips at the start of its input. -/
def isStrWhiteSpace (c : Char) : Bool :=
  c.toNat ∈ [0x09, 0x0A, 0x0B, 0x0C, 0x0D, 0x20, 0xA0, 0x1680, 0x2028, 0x2029,
    0x202F, 0x205F, 0x3000, 0xFEFF] || (0x2000 ≤ c.toNat && c.toNat ≤ 0x200A)

/-- The value of a character as a digit (`0-9`, `a-z`, `A-Z`), if it is one. -/
def digitValue (c : Char) : Option Nat :=
  if 48 ≤ c.toNat ∧ c.toNat ≤ 57 then some (c.toNat - 48)
  else if 97 ≤ c.toNat ∧ c.toNat ≤ 122 then some (c.toNat - 87)
  else if 65 ≤ c.toNat ∧ c.toNat ≤ 90 then some (c.toNat - 55)
  else none

/-- The longest prefix of characters that are digits of the given radix, as digit values. -/
def takeDigits (radix : Nat) : List Char → List Nat
  | [] => []
  | c :: cs =>
    match digitValue c with
    | some d => if d < radix then d :: takeDigits radix cs else []
    | none => []

/-- `parseInt(s)` on a string, without a radix argument: leading white space is skipped, a sign
is read, a `0x`/`0X` prefix selects radix 16, and the longest run of digits is converted.
`none` is `NaN` (no digit could be read). -/
def parseIntStr (s : String) : Option Int :=
  let cs := s.toList.dropWhile isStrWhiteSpace
  let signed : Bool × List Char :=
    match cs with
    | '-' :: r => (true, r)
    | '+' :: r => (false, r)
    | _ => (false, cs)
  let based : Nat × List Char :=
    match signed.2 with
    | '0' :: 'x' :: r => (16, r)
    | '0' :: 'X' :: r => (16, r)
    | r => (10, r)
  let ds := takeDigits based.1 based.2
  if ds.isEmpty then none
  else
    let v : Int := (ds.foldl (fun a d => a * based.1 + d) 0 : Nat)
    some (if signed.1 then -v else v)

/-- `parseInt(v)`: the argument is converted to a string and parsed. An integer-valued number
prints as its digits and parses back to itself (numbers of magnitude `10^21` and more, which
print in exponent form, are outside the model; no id comes near them); `undefined`, `null`,
booleans and plain objects print as text that starts with no digit. -/
def parseInt : JsVal → Option Int
  | .num n => some n
  | .str s => parseIntStr s
  | .float r => parseIntStr r
  | .arr j => parseIntStr j
  | .undefined => none
  | .null => none
  | .bool _ => none
  | .obj => none

/-- The parsed JSON body of a request: an object with its properties, or an array. -/
inductive ReqBody where
  | object (props : List (String × JsVal))
  | array
  deriving DecidableEq, Repr

/-- Property access `body.name` (`undefined` when the property is missing). -/
def ReqBody.get (b : ReqBody) (name : String) : JsVal :=
  match b with
  | .object props => (props.lookup name).getD .undefined
  | .array => .undefined

/-! ## `src/config/constants.js` -/

/-- `PERSON_TYPES.TEACHER`. -/
def PERSON_TYPES_TEACHER : String := "TEACHER"

/-- `PERSON_TYPES.STUDENT`. -/
def PERSON_TYPES_STUDENT : String := "STUDENT"

/-- `HTTP_STATUS.OK`. -/
def HTTP_STATUS_OK : Nat := 200

/-- `HTTP_STATUS.CREATED`. -/
def HTTP_STATUS_CREATED : Nat := 201

/-- `HTTP_STATUS.BAD_REQUEST`. -/
def HTTP_STATUS_BAD_REQUEST : Nat := 400

/-- `HTTP_STATUS.UNAUTHORIZED`. -/
def HTTP_STATUS_UNAUTHORIZED : Nat := 401

/-- `HTTP_STATUS.NOT_FOUND`. -/
def HTTP_STATUS_NOT_FOUND : Nat := 404

/-- `HTTP_STATUS.CONFLICT`. -/
def HTTP_STATUS_CONFLICT : Nat := 409

/-- `HTTP_STATUS.UNPROCESSABLE_ENTITY`. -/
def HTTP_STATUS_UNPROCESSABLE_ENTITY : Nat := 422

/-- `HTTP_STATUS.INTERNAL_SERVER_ERROR`. -/
def HTTP_STATUS_INTERNAL_SERVER_ERROR : Nat := 500

/-! ## The presence ledger (`prisma.timeTable`) -/

/-- One row of the `TimeTable` table, with the columns the handlers and the seed script use.
Times are milliseconds; `none` is SQL `NULL`. -/
structure TimeTable where
  TimeTable_ID : Int
  PersonType : String
  Teacher_ID : Option Int
  Student_ID : Option Int
  Admin_ID : Option Int
  Zone_id : Int
  EntryTime : Option Int
  ExitTime : Option Int
  deriving DecidableEq, Repr

/-- The database state the Zone 1 handlers work on: the ledger rows, the next value of the
`TimeTable_ID` sequence, and the keys of the tables the ledger refers to. -/
structure Db where
  timeTable : List TimeTable
  nextTimeTableId : Int
  students : List Int
  teachers : List Int
  zones : List Int
  deriving DecidableEq, Repr

/-- The two person columns of a ledger row. -/
inductive PersonColumn where
  | Teacher_ID
  | Student_ID
  deriving DecidableEq, Repr

/-- The value a row holds in a person column. -/
def TimeTable.column (r : TimeTable) : PersonColumn → Option Int
  | .Teacher_ID => r.Teacher_ID
  | .Student_ID => r.Student_ID

/-- The errors the database client throws in the modelled calls. -/
inductive PrismaError where
  | validation
  | P2003
  | P2025
  deriving DecidableEq, Repr

/-- The JSON answer of a Zone 1 handler: `res.status(status).json({success, message, data, error})`.
`error` is the caught error whose message the `catch` block echoes. -/
structure Response where
  status : Nat
  success : Bool
  message : String
  data : Option TimeTable
  error : Option PrismaError
  deriving DecidableEq, Repr

/-- The column chosen by `personType === 'TEACHER' ? { Teacher_ID: … } : { Student_ID: … }`. -/
def personColumn (personType : JsVal) : PersonColumn :=
  if personType = .str "TEACHER" then .Teacher_ID else .Student_ID

/-- How the database client takes the number `parseInt` returned. An integer is passed on.
For `NaN` (`none`) the client either rejects the call, or sends it as JSON `null`
(`JSON.stringify(NaN)`); which of the two it does depends on the client version and is the
parameter `nanIsNull`. -/
def prismaIntArg (nanIsNull : Bool) : Option Int → Except PrismaError (Option Int)
  | some n => .ok (some n)
  | none => if nanIsNull then .ok none else .error .validation

/-- The filter of `findFirst({ where: { Zone_id: 1, ExitTime: null, <column>: v } })`. -/
def openInZone1Filter (col : PersonColumn) (v : Option Int) (r : TimeTable) : Bool :=
  r.Zone_id == 1 && r.ExitTime == none && r.column col == v

/-- The query `prisma.timeTable.findFirst({ where: { Zone_id: 1, ExitTime: null, <column>: v } })`. -/
def findFirstOpenInZone1 (db : Db) (col : PersonColumn) (v : Option Int) : Option TimeTable :=
  db.timeTable.find? (openInZone1Filter col v)

/-- The foreign keys of a ledger row point at existing rows. -/
def foreignKeysOk (db : Db) (r : TimeTable) : Bool :=
  db.zones.contains r.Zone_id &&
  (match r.Teacher_ID with
   | some t => db.teachers.contains t
   | none => true) &&
  (match r.Student_ID with
   | some s => db.students.contains s
   | none => true)

/-- The call `prisma.timeTable.create({ data: { Zone_id: 1, PersonType, EntryTime: new Date(),
<column>: v } })`: the row gets the next id of the sequence. The ledger is related to the
`Zone`, `Teacher` and `Students` tables (the `include` of the call joins them), and the
database refuses a row whose zone, teacher or student does not exist: error `P2003`, the
'Foreign key constraint failed' of `errorHandler.js`. -/
def createEntry (db : Db) (now : Int) (personType : String) (col : PersonColumn)
    (v : Option Int) : Except PrismaError (Db × TimeTable) :=
  let row : TimeTable :=
    { TimeTable_ID := db.nextTimeTableId
      PersonType := personType
      Teacher_ID := if col = .Teacher_ID then v else none
      Student_ID := if col = .Student_ID then v else none
      Admin_ID := none
      Zone_id := 1
      EntryTime := some now
      ExitTime := none }
  if foreignKeysOk db row then
    .ok ({ db with timeTable := db.timeTable ++ [row],
                   nextTimeTableId := db.nextTimeTableId + 1 }, row)
  else .error .P2003

/-- The answer of the `catch` block of `logRecognizedPerson`. -/
def entryFailed (e : PrismaError) : Response :=
  { status := 500, success := false, message := "Failed to log person entry",
    data := none, error := some e }

/-- The handler `logRecognizedPerson` (`POST /api/zones/1/recognize`) of
`zone1.controller.js`. `now` is the value of `new Date()`. -/
def logRecognizedPerson (nanIsNull : Bool) (now : Int) (db : Db) (body : ReqBody) :
    Db × Response :=
  let personId := body.get "personId"
  let personType := body.get "personType"
  if !personId.truthy || !personType.truthy then
    (db, { status := 400, success := false,
           message := "Person ID and Person Type are required", data := none, error := none })
  else
    match prismaIntArg nanIsNull (parseInt personId) with
    | .error e => (db, entryFailed e)
    | .ok v =>
      match findFirstOpenInZone1 db (personColumn personType) v with
      | some existingEntry =>
        (db, { status := 200, success := true, message := "Person already in zone",
               data := some existingEntry, error := none })
      | none =>
        match personType with
        | .str pt =>
          match createEntry db now pt (personColumn personType) v with
          | .ok (db1, entry) =>
            (db1, { status := 201, success := true,
                    message := "Person entry logged successfully",
                    data := some entry, error := none })
          | .error e => (db, entryFailed e)
        | _ => (db, entryFailed .validation)

/-- The call `prisma.timeTable.update({ where: { TimeTable_ID: id }, data: { ExitTime: now } })`:
the row with that id gets the exit time; `P2025` when no row has the id. -/
def updateExitTime (db : Db) (id : Int) (now : Int) : Except PrismaError (Db × TimeTable) :=
  match db.timeTable.find? (fun r => r.TimeTable_ID == id) with
  | none => .error .P2025
  | some r =>
    let rows := db.timeTable.map
      (fun x => if x.TimeTable_ID = id then { x with ExitTime := some now } else x)
    .ok ({ db with timeTable := rows }, { r with ExitTime := some now })

/-- The answer of the `catch` block of `markExit`. -/
def exitFailed (e : PrismaError) : Response :=
  { status := 500, success := false, message := "Failed to mark exit",
    data := none, error := some e }

/-- The handler `markExit` (`PUT /api/zones/1/exit/:timetableId`) of `zone1.controller.js`.
The route parameter is a string; `now` is the value of `new Date()`. A `NaN` id is refused by
the database client (a unique `where` takes no `null`). -/
def markExit (now : Int) (db : Db) (timetableId : String) : Db × Response :=
  match parseIntStr timetableId with
  | none => (db, exitFailed .validation)
  | some id =>
    match updateExitTime db id now with
    | .ok (db1, updated) =>
      (db1, { status := 200, success := true, message := "Exit time recorded",
              data := some updated, error := none })
    | .error e => (db, exitFailed e)

/-- The open records (`ExitTime = null`) of a person, counted across all zones. -/
def openRecords (db : Db) (col : PersonColumn) (id : Int) : List TimeTable :=
  db.timeTable.filter (fun r => r.ExitTime == none && r.column col == some id)

/-- Invariant I1 as the specification words it: every person has at most one open record,
counted across all zones. -/
def singleOpenRecord (db : Db) : Prop :=
  ∀ (col : PersonColumn) (id : Int), (openRecords db col id).length ≤ 1

/-- The open records of a person in zone 1: the rows the duplicate check of
`logRecognizedPerson` looks for. -/
def openRecordsZone1 (db : Db) (col : PersonColumn) (id : Int) : List TimeTable :=
  db.timeTable.filter (openInZone1Filter col (some id))

/-- The invariant scoped to zone 1: every person has at most one open record in zone 1. -/
def singleOpenRecordZone1 (db : Db) : Prop :=
  ∀ (col : PersonColumn) (id : Int), (openRecordsZone1 db col id).length ≤ 1

/-! ## Request validation (`timetable.validator.js`, `zod`) -/

/-- A segment of a validation issue path: a property name or an array index. -/
inductive PathSeg where
  | key (s : String)
  | index (n : Nat)
  deriving DecidableEq, Repr

/-- The text of a path segment inside `path.join('.')`. -/
def PathSeg.toStr : PathSeg → String
  | .key s => s
  | .index n => toString n

/-- The expression `e.path.join('.')`. -/
def joinPath (path : List PathSeg) : String :=
  ".".intercalate (path.map PathSeg.toStr)

/-- One entry of `ZodError.errors`. -/
structure ZodIssue where
  path : List PathSeg
  message : String
  deriving DecidableEq, Repr

/-- The type name zod reports for a value (`getParsedType`). -/
def JsVal.parsedType : JsVal → String
  | .undefined => "undefined"
  | .null => "null"
  | .bool _ => "boolean"
  | .num _ => "number"
  | .float _ => "number"
  | .str _ => "string"
  | .obj => "object"
  | .arr _ => "array"

/-- The default message of an `invalid_type` issue. -/
def invalidTypeMessage (expected : String) (v : JsVal) : String :=
  if v = .undefined then "Required" else "Expected " ++ expected ++ ", received " ++ v.parsedType

/-- The schema `z.enum([PERSON_TYPES.TEACHER, PERSON_TYPES.STUDENT], { errorMap: () =>
({ message: 'personType must be TEACHER or STUDENT' }) })`: a value that is not one of the two
strings gives one issue, whose message comes from the error map whatever the value is. -/
def personTypeIssues (path : List PathSeg) (v : JsVal) : List ZodIssue :=
  if v = .str PERSON_TYPES_TEACHER ∨ v = .str PERSON_TYPES_STUDENT then []
  else [{ path := path, message := "personType must be TEACHER or STUDENT" }]

/-- The schema `z.number().int().positive(message)` (optional when `optional` is set): a value
that is no number gives one type issue; a number gives an issue for each failed check, the
integer check first. `message` is the text passed to `positive`, if any. -/
def positiveIntIssues (path : List PathSeg) (message : Option String) (optional : Bool)
    (v : JsVal) : List ZodIssue :=
  let tooSmall : ZodIssue :=
    { path := path, message := message.getD "Number must be greater than 0" }
  match v with
  | .undefined =>
    if optional then [] else [{ path := path, message := invalidTypeMessage "number" v }]
  | .num n => if 0 < n then [] else [tooSmall]
  | .float repr =>
    { path := path, message := "Expected integer, received float" } ::
      (if repr.toList.head? = some '-' then [tooSmall] else [])
  | _ => [{ path := path, message := invalidTypeMessage "number" v }]

/-- The schema `z.string().datetime().optional()`; `isDatetime` is zod's ISO 8601 test. -/
def datetimeIssues (isDatetime : String → Bool) (path : List PathSeg) (v : JsVal) :
    List ZodIssue :=
  match v with
  | .undefined => []
  | .str s => if isDatetime s then [] else [{ path := path, message := "Invalid datetime" }]
  | _ => [{ path := path, message := invalidTypeMessage "string" v }]

/-- The keys of the `body` shape of `entrySchema`, in the order of the source. -/
def entrySchemaKeys : List String :=
  ["personType", "personId", "zoneId", "cameraId", "timestamp"]

/-- The issues the `body` shape of `entrySchema` raises on the properties of an object, in the
order of the shape; the paths start at the `body` key of the validated object. -/
def entrySchemaIssues (isDatetime : String → Bool) (body : ReqBody) : List ZodIssue :=
  let under (k : String) : List PathSeg := [.key "body", .key k]
  personTypeIssues (under "personType") (body.get "personType") ++
  positiveIntIssues (under "personId") (some "personId must be a positive integer") false
    (body.get "personId") ++
  positiveIntIssues (under "zoneId") (some "zoneId must be a positive integer") false
    (body.get "zoneId") ++
  positiveIntIssues (under "cameraId") none true (body.get "cameraId") ++
  datetimeIssues isDatetime (under "timestamp") (body.get "timestamp")

/-- The schema `entrySchema`, applied as `validateRequest` applies it (to
`{ body: req.body, query, params }`): the validated body, with unknown keys stripped, or
the issues of the thrown `ZodError`. -/
def entrySchema (isDatetime : String → Bool) (body : ReqBody) : Except (List ZodIssue) ReqBody :=
  match body with
  | .array => .error [{ path := [.key "body"], message := "Expected object, received array" }]
  | .object props =>
    if (entrySchemaIssues isDatetime body).isEmpty then
      .ok (.object (entrySchemaKeys.filterMap (fun k => (props.lookup k).map (fun v => (k, v)))))
    else .error (entrySchemaIssues isDatetime body)

/-! ## Error responses (`errorHandler.js`, `response.js`) -/

/-- The value `err` that reaches `errorHandler`, by the properties the handler reads:
`zodIssues` is `err.errors` when `err instanceof ZodError`; `code` is `err.code`;
`appStatusCode` is `err.statusCode` when `err instanceof AppError`. -/
structure ErrorInfo where
  zodIssues : Option (List ZodIssue)
  code : Option String
  appStatusCode : Option Nat
  name : String
  message : String
  deriving DecidableEq, Repr

/-- One item of the `errors` array of a validation response. -/
structure FieldError where
  field : String
  message : String
  deriving DecidableEq, Repr

/-- The JSON answer built by `errorResponse`; `errors` is absent (`none`) when not set. -/
structure ErrorResponse where
  status : Nat
  success : Bool
  message : String
  errors : Option (List FieldError)
  deriving DecidableEq, Repr

/-- The function `errorResponse(res, message, statusCode, errors)`: `errors` is attached when it
is truthy, which every array is (`null` is not). -/
def errorResponse (message : String) (statusCode : Nat) (errors : Option (List FieldError)) :
    ErrorResponse :=
  { status := statusCode, success := false, message := message, errors := errors }

/-- The middleware `errorHandler(err, req, res, next)`; `nodeEnv` is `process.env.NODE_ENV`. -/
def errorHandler (nodeEnv : String) (err : ErrorInfo) : ErrorResponse :=
  match err.zodIssues with
  | some issues =>
    errorResponse "Validation failed" HTTP_STATUS_UNPROCESSABLE_ENTITY
      (some (issues.map (fun e => { field := joinPath e.path, message := e.message })))
  | none =>
    if err.code = some "P2002" then
      errorResponse "A record with this value already exists" HTTP_STATUS_CONFLICT none
    else if err.code = some "P2025" then
      errorResponse "Record not found" HTTP_STATUS_NOT_FOUND none
    else if err.code = some "P2003" then
      errorResponse "Foreign key constraint failed" HTTP_STATUS_BAD_REQUEST none
    else
      match err.appStatusCode with
      | some statusCode => errorResponse err.message statusCode none
      | none =>
        if err.name = "JsonWebTokenError" then
          errorResponse "Invalid token" HTTP_STATUS_UNAUTHORIZED none
        else if err.name = "TokenExpiredError" then
          errorResponse "Token expired" HTTP_STATUS_UNAUTHORIZED none
        else
          errorResponse
            (if nodeEnv = "development" then err.message else "Internal server error")
            HTTP_STATUS_INTERNAL_SERVER_ERROR none

/-! ## The live tracking loop (`admin-dashboard/src/pages/Zone1.jsx`)

The loop is modelled on a logical clock in milliseconds. A `setTimeout` callback runs as soon
as its time has come: moving the clock to `now` runs every pending callback due at or before
`now`. Every call to a collaborator is recorded, in order, with the time it was started. -/

/-- A match returned by `matchFace`: a person of the face database. -/
structure FaceMatch where
  id : Int
  type : String
  name : String
  confidence : String
  deriving DecidableEq, Repr

/-- The calls the loop makes to its collaborators. `logRecognizedPerson` is the entry call
`zone1API.logRecognizedPerson(match.id, match.type, …)`, recorded with the time it was started
and the time at which `await handleRecognizedPerson(match)` resumed. -/
inductive Call where
  | detectFaces
  | logRecognizedPerson (id : Int) (type : String) (startedAt resumedAt : Int)
  | fetchCurrentPersons
  | fetchLogs
  | extractFaceImage (startedAt : Int)
  | logUnknownPerson (startedAt : Int)
  deriving DecidableEq, Repr

/-- The refs of the `Zone1` component that the loop reads and writes, the pending
`setTimeout` callbacks of the dedup set (due time and key to delete), and the calls made. -/
structure TrackingState where
  processing : Bool
  recognizedPersons : List String
  timers : List (Int × String)
  lastUnknownDetection : Int
  calls : List Call
  deriving DecidableEq, Repr

/-- The state after mount: `processingRef = false`, `recognizedPersonsRef = new Set()`,
`lastUnknownDetectionRef = 0`, nothing scheduled, nothing called. -/
def initialTracking : TrackingState :=
  { processing := false, recognizedPersons := [], timers := [],
    lastUnknownDetection := 0, calls := [] }

/-- The method `Set.prototype.add`. -/
def setAdd (set : List String) (key : String) : List String :=
  if set.contains key then set else set ++ [key]

/-- The method `Set.prototype.delete`. -/
def setDelete (set : List String) (key : String) : List String :=
  set.filter (fun k => k != key)

/-- Moving the clock to `now`: every pending callback `() => recognizedPersonsRef.current
.delete(personKey)` that is due runs and is no longer pending. -/
def runTimers (now : Int) (s : TrackingState) : TrackingState :=
  { s with
    recognizedPersons :=
      (s.timers.filter (fun t => decide (t.1 ≤ now))).foldl (fun set t => setDelete set t.2)
        s.recognizedPersons
    timers := s.timers.filter (fun t => decide (now < t.1)) }

/-- The template string that is the dedup key of a match: type, a dash, id. -/
def personKey (m : FaceMatch) : String :=
  m.type ++ "-" ++ toString m.id

/-- The function `handleRecognizedPerson(match)`, as the calls it makes: the entry call, and
after a successful one the two refreshes. A failed call is caught and logged; nothing is
rethrown. -/
def handleRecognizedPerson (m : FaceMatch) (startedAt resumedAt : Int) (entryOk : Bool) :
    List Call :=
  .logRecognizedPerson m.id m.type startedAt resumedAt ::
    (if entryOk then [.fetchCurrentPersons, .fetchLogs] else [])

/-- The function `handleUnknownPerson(videoElement, detection)`, as the calls it makes: the
image extraction, then, when an image came back, the persistence call and after a successful
one the refresh of the logs. Failures are caught; nothing is rethrown. -/
def handleUnknownPerson (now : Int) (faceImage : Option String) (saved : Bool) : List Call :=
  .extractFaceImage now ::
    (match faceImage with
     | some _ => .logUnknownPerson now :: (if saved then [.fetchLogs] else [])
     | none => [])

/-- The branch `if (match) { … }` of the loop body, on the state at the time `checkedAt` of the
`has` test. When the key is absent, `handleRecognizedPerson` is awaited; at `resumedAt` the
loop goes on (callbacks that came due meanwhile have run), adds the key and schedules its
removal `5 * 60 * 1000` ms later. -/
def recognizedStep (s : TrackingState) (m : FaceMatch) (checkedAt : Int) (entryOk : Bool)
    (resumedAt : Int) : TrackingState :=
  if s.recognizedPersons.contains (personKey m) then s
  else
    let s1 := runTimers resumedAt
      { s with calls := s.calls ++ handleRecognizedPerson m checkedAt resumedAt entryOk }
    { s1 with
      recognizedPersons := setAdd s1.recognizedPersons (personKey m)
      timers := s1.timers ++ [(resumedAt + 5 * 60 * 1000, personKey m)] }

/-- The admission test of the `else` branch:
`lastUnknownDetectionRef.current === 0 || timeSinceLastUnknown > 10000`. -/
def unknownAdmitted (s : TrackingState) (now : Int) : Bool :=
  let timeSinceLastUnknown := now - s.lastUnknownDetection
  s.lastUnknownDetection == 0 || decide (timeSinceLastUnknown > 10000)

/-- The `else` branch of the loop body (no match); `now` is the value of `Date.now()`. -/
def unknownStep (s : TrackingState) (now : Int) (faceImage : Option String) (saved : Bool) :
    TrackingState :=
  if unknownAdmitted s now then
    { s with
      calls := s.calls ++ handleUnknownPerson now faceImage saved
      lastUnknownDetection := now }
  else s

/-- One detected face as the loop body meets it, with what its collaborators answer.
For a match: the time of the `has` test, whether the entry call succeeds and the time at which
`await handleRecognizedPerson` resumes when it is called. For an unmatched face: `Date.now()`,
the image `extractFaceImage` returns and whether the persistence call succeeds. -/
inductive Detection where
  | recognized (m : FaceMatch) (checkedAt : Int) (entryOk : Bool) (resumedAt : Int)
  | unknown (now : Int) (faceImage : Option String) (saved : Bool)
  deriving DecidableEq, Repr

/-- One pass of the loop body `for (let i = 0; i < matched.length; i++) { … }`; the clock is
moved to the time of the pass first. -/
def detectionStep (s : TrackingState) : Detection → TrackingState
  | .recognized m checkedAt entryOk resumedAt =>
    recognizedStep (runTimers checkedAt s) m checkedAt entryOk resumedAt
  | .unknown now faceImage saved => unknownStep (runTimers now s) now faceImage saved

/-- The loop over a stream of detections, in order. -/
def runDetections (s : TrackingState) (ds : List Detection) : TrackingState :=
  ds.foldl detectionStep s

/-- What one firing of the interval finds: whether a video element exists, the value of
`modelsLoaded` the callback reads, whether the video is ready (`readyState === 4` and both
dimensions non-zero), and the detections of the frame. -/
structure TickInput where
  webcam : Bool
  modelsLoaded : Bool
  videoReady : Bool
  detections : List Detection
  deriving DecidableEq, Repr

/-- The callback of `setInterval(async () => { … }, 3000)` in `startFaceDetection`. -/
def detectionTick (s : TrackingState) (i : TickInput) : TrackingState :=
  if s.processing then s
  else if !i.webcam then s
  else if !i.modelsLoaded then s
  else if !i.videoReady then s
  else
    let s1 := { s with processing := true, calls := s.calls ++ [.detectFaces] }
    let s2 := runDetections s1 i.detections
    { s2 with processing := false }

/-- The entry calls among the calls made: key of the person, start time, time of return. -/
def entryCalls (s : TrackingState) : List (String × Int × Int) :=
  s.calls.filterMap (fun c =>
    match c with
    | .logRecognizedPerson id type startedAt resumedAt =>
      some (type ++ "-" ++ toString id, startedAt, resumedAt)
    | _ => none)

/-- A stream of detections is in time order from `t0` on: every pass starts no earlier than
`t0` and than the end of the pass before it, and an awaited call returns no earlier than it
started. -/
def timeOrdered : Int → List Detection → Prop
  | _, [] => True
  | t0, .recognized _ checkedAt _ resumedAt :: ds =>
    t0 ≤ checkedAt ∧ checkedAt ≤ resumedAt ∧ timeOrdered resumedAt ds
  | t0, .unknown now _ _ :: ds => t0 ≤ now ∧ timeOrdered now ds


/-- The keys of the table a person column refers to. -/
def registry (db : Db) : PersonColumn → List Int
  | .Teacher_ID => db.teachers
  | .Student_ID => db.students

/-! ## Fixtures -/

/-- A ledger in which student 5 has one open record, in zone 2. -/
def ledgerOpenInZone2 : Db :=
  { timeTable := [{ TimeTable_ID := 1, PersonType := "STUDENT", Teacher_ID := none,
                    Student_ID := some 5, Admin_ID := none, Zone_id := 2,
                    EntryTime := some 0, ExitTime := none }]
    nextTimeTableId := 2
    students := [5]
    teachers := []
    zones := [1, 2] }

/-- A ledger in which student 5 has one open record, in zone 1. -/
def ledgerOpenInZone1 : Db :=
  { timeTable := [{ TimeTable_ID := 1, PersonType := "STUDENT", Teacher_ID := none,
                    Student_ID := some 5, Admin_ID := none, Zone_id := 1,
                    EntryTime := some 0, ExitTime := none }]
    nextTimeTableId := 2
    students := [5]
    teachers := []
    zones := [1, 2] }

/-- An empty ledger over a registry with student 5 and zones 1 and 2. -/
def ledgerEmpty : Db :=
  { timeTable := [], nextTimeTableId := 1, students := [5], teachers := [], zones := [1, 2] }

/-- The request body with `personId: 5` and `personType: 'STUDENT'`. -/
def bodyStudent5 : ReqBody :=
  .object [("personId", .num 5), ("personType", .str "STUDENT")]

/-- The request body with `personId: 999999` and `personType: 'STUDENT'`. -/
def bodyStudent999999 : ReqBody :=
  .object [("personId", .num 999999), ("personType", .str "STUDENT")]

/-- The request body of the test 'should reject invalid person type'. -/
def bodyInvalidKind : ReqBody :=
  .object [("personType", .str "INVALID"), ("personId", .num 2), ("zoneId", .num 1)]

/-- A match of the face database: student 7. -/
def matchStudent7 : FaceMatch :=
  { id := 7, type := "STUDENT", name := "Alice", confidence := "0.90" }

/-! ## Bookkeeping for the dedup set -/

/-- The time at which a stream of detections that started at `t0` has been worked off. -/
def endTime : Int → List Detection → Int
  | t0, [] => t0
  | _, .recognized _ _ _ resumedAt :: ds => endTime resumedAt ds
  | _, .unknown now _ _ :: ds => endTime now ds

/-- The shape of the dedup state at clock time `now`: the keys of the set are the keys with a
pending removal, every pending removal stems from an entry call and is due `5 * 60 * 1000` ms
after that call returned, every entry call has its removal pending or past, and a key has
one due time. -/
structure DedupInv (s : TrackingState) (now : Int) : Prop where
  timerKey : ∀ p ∈ s.timers, p.2 ∈ s.recognizedPersons
  keyTimer : ∀ k ∈ s.recognizedPersons, ∃ p ∈ s.timers, p.2 = k
  timerCall : ∀ p ∈ s.timers, ∃ c ∈ entryCalls s, c.1 = p.2 ∧ p.1 = c.2.2 + 300000
  callTimer : ∀ c ∈ entryCalls s, (c.2.2 + 300000, c.1) ∈ s.timers ∨ c.2.2 + 300000 ≤ now
  oneDue : ∀ p ∈ s.timers, ∀ q ∈ s.timers, p.2 = q.2 → p.1 = q.1

/-! ## The unknown-face store (`prisma.unknownFaces`) -/

/-- One row of the `UnknownFaces` table. `Captured_Image` is the stored buffer, kept as the
base64 text it was decoded from; `Confidence` is a number. -/
structure UnknownFaces where
  Unknown_ID : Int
  Captured_Image : Option String
  Zone_id : Int
  Confidence : JsVal
  DetectedTime : Int
  Status : String
  Notes : Option String
  deriving DecidableEq, Repr

/-- The state of the unknown-face table: its rows and the next value of the `Unknown_ID`
sequence. -/
structure UnknownStore where
  unknownFaces : List UnknownFaces
  nextUnknownId : Int
  deriving DecidableEq, Repr

/-- What a `try` block of the unknown-face handlers can throw: an error of the database client,
or the `TypeError` of calling `.replace` on a value that is no string. -/
inductive Thrown where
  | prisma (e : PrismaError)
  | typeError
  deriving DecidableEq, Repr

/-- The JSON answer of an unknown-face handler:
`res.status(status).json({ success, message, count, data, error })`, absent keys being `none`. -/
structure Reply (α : Type) where
  status : Nat
  success : Bool
  message : Option String
  count : Option Nat
  data : Option α
  error : Option Thrown
  deriving DecidableEq, Repr

/-- A value is a JavaScript number. -/
def JsVal.isNumber : JsVal → Bool
  | .num _ => true
  | .float _ => true
  | _ => false

/-- A word character `\w` of a regular expression. -/
def isWordChar (c : Char) : Bool :=
  c.isAlphanum || c == '_'

/-- The rest of `cs` after the leading characters `lead`, if `cs` starts with them. -/
def dropLeading : List Char → List Char → Option (List Char)
  | [], cs => some cs
  | _ :: _, [] => none
  | l :: ls, c :: cs => if l = c then dropLeading ls cs else none

/-- The expression `capturedImage.replace(/^data:image\/\w+;base64,/, '')`. -/
def stripDataUrlHeader (s : String) : String :=
  match dropLeading "data:image/".toList s.toList with
  | none => s
  | some rest =>
    if (rest.takeWhile isWordChar).isEmpty then s
    else
      match dropLeading ";base64,".toList (rest.dropWhile isWordChar) with
      | none => s
      | some tail => String.mk tail

/-- The call `prisma.unknownFaces.create({ data: { Captured_Image, Zone_id: 1, Confidence,
DetectedTime: new Date(), Status: 'PENDING', Notes } })`: the row gets the next id of the
sequence; a `Confidence` that is no number or `Notes` that is no string is refused by the
client. -/
def createUnknownFace (store : UnknownStore) (image : String) (confidence : JsVal) (now : Int)
    (notes : JsVal) : Except PrismaError (UnknownStore × UnknownFaces) :=
  match confidence.isNumber, notes with
  | true, .str n =>
    let row : UnknownFaces :=
      { Unknown_ID := store.nextUnknownId
        Captured_Image := some image
        Zone_id := 1
        Confidence := confidence
        DetectedTime := now
        Status := "PENDING"
        Notes := some n }
    .ok ({ unknownFaces := store.unknownFaces ++ [row],
           nextUnknownId := store.nextUnknownId + 1 }, row)
  | _, _ => .error .validation

/-- The `data` of the `201` answer of `logUnknownPerson`. -/
structure LoggedUnknown where
  Unknown_ID : Int
  DetectedTime : Int
  Status : String
  deriving DecidableEq, Repr

/-- The answer of the `catch` block of an unknown-face handler, with its message. -/
def unknownFailed {α : Type} (message : String) (e : Thrown) : Reply α :=
  { status := 500, success := false, message := some message, count := none, data := none,
    error := some e }

/-- The handler `logUnknownPerson` (`POST /api/zones/1/unknown`) of `zone1.controller.js`.
`now` is the value of `new Date()`. -/
def logUnknownPerson (now : Int) (store : UnknownStore) (body : ReqBody) :
    UnknownStore × Reply LoggedUnknown :=
  let capturedImage := body.get "capturedImage"
  let confidence := body.get "confidence"
  let notes := body.get "notes"
  if !capturedImage.truthy then
    (store, { status := 400, success := false, message := some "Captured image is required",
              count := none, data := none, error := none })
  else
    match capturedImage with
    | .str image =>
      let imageBuffer := stripDataUrlHeader image
      match createUnknownFace store imageBuffer (if confidence.truthy then confidence else .num 0)
          now (if notes.truthy then notes else .str "Unknown person detected") with
      | .ok (store1, unknownFace) =>
        (store1, { status := 201, success := true,
                   message := some "Unknown person logged successfully", count := none,
                   data := some { Unknown_ID := unknownFace.Unknown_ID,
                                  DetectedTime := unknownFace.DetectedTime,
                                  Status := unknownFace.Status },
                   error := none })
      | .error e => (store, unknownFailed "Failed to log unknown person" (.prisma e))
    | _ => (store, unknownFailed "Failed to log unknown person" .typeError)

/-- The list `validStatuses` of `updateUnknownFaceStatus`. -/
def validStatuses : List String := ["PENDING", "IDENTIFIED", "IGNORED"]

/-- The `data` of the `200` answer of `updateUnknownFaceStatus`. -/
structure UpdatedUnknown where
  Unknown_ID : Int
  Status : String
  Notes : Option String
  deriving DecidableEq, Repr

/-- The row after `data: { Status: status, ...(notes && { Notes: notes }) }`: `newNotes` is
`none` when `notes` was falsy and `Notes` stays as it is. -/
def UnknownFaces.withStatus (r : UnknownFaces) (status : String) (newNotes : Option String) :
    UnknownFaces :=
  { r with Status := status, Notes := (match newNotes with
                                       | some n => some n
                                       | none => r.Notes) }

/-- The part `...(notes && { Notes: notes })` of the update: nothing for falsy `notes`, the
new text for a string; truthy `notes` that are no string are refused by the client. -/
def notesUpdate (notes : JsVal) : Except PrismaError (Option String) :=
  if notes.truthy then
    match notes with
    | .str n => .ok (some n)
    | _ => .error .validation
  else .ok none

/-- The call `prisma.unknownFaces.update({ where: { Unknown_ID: id }, data: { Status: status,
...(notes && { Notes: notes }) } })`: truthy `notes` that are no string are refused by the
client; `P2025` when no row has the id. -/
def updateUnknownFace (store : UnknownStore) (id : Int) (status : String) (notes : JsVal) :
    Except PrismaError (UnknownStore × UnknownFaces) :=
  match notesUpdate notes with
  | .error e => .error e
  | .ok n =>
    match store.unknownFaces.find? (fun r => r.Unknown_ID == id) with
    | none => .error .P2025
    | some r =>
      let rows := store.unknownFaces.map
        (fun x => if x.Unknown_ID = id then x.withStatus status n else x)
      .ok ({ store with unknownFaces := rows }, r.withStatus status n)

/-- The handler `updateUnknownFaceStatus` (`PUT /api/zones/1/unknown/:unknownId`) of
`zone1.controller.js`. The route parameter is a string; a `NaN` id is refused by the database
client. -/
def updateUnknownFaceStatus (store : UnknownStore) (unknownId : String) (body : ReqBody) :
    UnknownStore × Reply UpdatedUnknown :=
  let status := body.get "status"
  let notes := body.get "notes"
  if !status.truthy then
    (store, { status := 400, success := false, message := some "Status is required",
              count := none, data := none, error := none })
  else if !(validStatuses.map JsVal.str).contains status then
    (store, { status := 400, success := false,
              message := some "Invalid status. Must be PENDING, IDENTIFIED, or IGNORED",
              count := none, data := none, error := none })
  else
    match status, parseIntStr unknownId with
    | .str st, some id =>
      match updateUnknownFace store id st notes with
      | .ok (store1, updated) =>
        (store1, { status := 200, success := true,
                   message := some "Status updated successfully", count := none,
                   data := some { Unknown_ID := updated.Unknown_ID, Status := updated.Status,
                                  Notes := updated.Notes },
                   error := none })
      | .error e => (store, unknownFailed "Failed to update status" (.prisma e))
    | _, _ => (store, unknownFailed "Failed to update status" (.prisma .validation))

/-- The handler `deleteUnknownFace` (`DELETE /api/zones/1/unknown/:unknownId`) of
`zone1.controller.js`: `prisma.unknownFaces.delete` removes the row with the id and throws
`P2025` when there is none; a `NaN` id is refused by the database client. -/
def deleteUnknownFace (store : UnknownStore) (unknownId : String) :
    UnknownStore × Reply Unit :=
  match parseIntStr unknownId with
  | none => (store, unknownFailed "Failed to delete unknown face entry" (.prisma .validation))
  | some id =>
    match store.unknownFaces.find? (fun r => r.Unknown_ID == id) with
    | none => (store, unknownFailed "Failed to delete unknown face entry" (.prisma .P2025))
    | some _ =>
      ({ store with unknownFaces := store.unknownFaces.filter (fun r => r.Unknown_ID != id) },
       { status := 200, success := true,
         message := some "Unknown face entry deleted successfully", count := none,
         data := none, error := none })

/-- The order `orderBy: { DetectedTime: 'desc' }`: `a` may come before `b`. -/
def detectedNotBefore (a b : UnknownFaces) : Prop :=
  b.DetectedTime ≤ a.DetectedTime

instance : DecidableRel detectedNotBefore :=
  fun a b => inferInstanceAs (Decidable (b.DetectedTime ≤ a.DetectedTime))

instance : IsTotal UnknownFaces detectedNotBefore :=
  ⟨fun a b => le_total b.DetectedTime a.DetectedTime⟩

instance : IsTrans UnknownFaces detectedNotBefore :=
  ⟨fun _ _ _ hab hbc => le_trans hbc hab⟩

/-- The filter `where: { Zone_id: 1, Status: status }`, the `Status` part only when a status
was passed. -/
def unknownWhere (status : Option String) (r : UnknownFaces) : Bool :=
  r.Zone_id == 1 &&
  (match status with
   | some st => r.Status == st
   | none => true)

/-- All rows that match the filter, most recent first (rows with equal `DetectedTime` stay in
the order of the table; the database may order them differently). -/
def unknownMatching (store : UnknownStore) (status : Option String) : List UnknownFaces :=
  (store.unknownFaces.filter (unknownWhere status)).insertionSort detectedNotBefore

/-- The argument `take` of `findMany`: the first `n` rows, or for a negative `n` the last
`-n` rows. -/
def takeRows (n : Int) (rows : List UnknownFaces) : List UnknownFaces :=
  if 0 ≤ n then rows.take n.toNat else rows.drop (rows.length - (-n).toNat)

/-- One item of the `data` of `getUnknownFaces`: `CapturedImage` is the stored buffer as a
JPEG data URL. -/
structure UnknownFaceView where
  Unknown_ID : Int
  CapturedImage : Option String
  DetectedTime : Int
  Confidence : JsVal
  Status : String
  Notes : Option String
  deriving DecidableEq, Repr

/-- The mapping `face => ({ Unknown_ID, CapturedImage, DetectedTime, Confidence, Status,
Notes })` of `getUnknownFaces`. -/
def UnknownFaces.view (face : UnknownFaces) : UnknownFaceView :=
  { Unknown_ID := face.Unknown_ID
    CapturedImage := face.Captured_Image.map (fun b => "data:image/jpeg;base64," ++ b)
    DetectedTime := face.DetectedTime
    Confidence := face.Confidence
    Status := face.Status
    Notes := face.Notes }

/-- The statement `if (status) { whereClause.Status = status; }`: an absent or empty `status`
adds no filter. -/
def statusFilter (status : Option String) : Option String :=
  match status with
  | some st => if st != "" then some st else none
  | none => none

/-- The argument `take: parseInt(limit)` after `const { limit = 20, status } = req.query`:
20 when the query has no `limit`; `none` is `NaN`. -/
def takeArg (limit : Option String) : Option Int :=
  match limit with
  | none => some 20
  | some l => parseIntStr l

/-- The handler `getUnknownFaces` (`GET /api/zones/1/unknown-list`) of `zone1.controller.js`.
`limit` and `status` are the query parameters (strings, `none` when absent); a `take` that
is `NaN` is refused by the database client. -/
def getUnknownFaces (store : UnknownStore) (limit status : Option String) :
    Reply (List UnknownFaceView) :=
  match takeArg limit with
  | none => unknownFailed "Failed to fetch unknown faces" (.prisma .validation)
  | some n =>
    let formatted := (takeRows n (unknownMatching store (statusFilter status))).map UnknownFaces.view
    { status := 200, success := true, message := none, count := some formatted.length,
      data := some formatted, error := none }

/-! ## The crop of an unknown face (`faceRecognition.js`) -/

/-- A rectangle: `detection.detection.box`, or the source rectangle of `drawImage`.
Coordinates are exact numbers of any ordered ring (pixels or fractions of pixels). -/
structure Box (α : Type) where
  x : α
  y : α
  width : α
  height : α
  deriving DecidableEq, Repr

/-- The rectangle `x, y, width, height` that `extractFaceImage` computes from the box of a
detection, cuts out of the video frame with `drawImage` and gives the canvas as size. -/
def extractFaceImageRegion {α : Type} [LinearOrderedCommRing α] (box : Box α) : Box α :=
  let padding : α := 20
  { x := max 0 (box.x - padding)
    y := max 0 (box.y - padding)
    width := box.width + (padding * 2)
    height := box.height + (padding * 2) }

/-- Follows the specification's words: the box expanded by 20 pixels on each side and
intersected with the frame rectangle `[0, W] x [0, H]`. -/
def paddedBoxInFrame {α : Type} [LinearOrderedCommRing α] (W H : α) (box : Box α) : Box α :=
  { x := max 0 (box.x - 20)
    y := max 0 (box.y - 20)
    width := min W (box.x + box.width + 20) - max 0 (box.x - 20)
    height := min H (box.y + box.height + 20) - max 0 (box.y - 20) }

/-- The box lies inside the frame of size `W x H`. -/
def Box.insideFrame {α : Type} [LinearOrderedCommRing α] (W H : α) (box : Box α) : Prop :=
  0 ≤ box.x ∧ 0 ≤ box.y ∧ 0 ≤ box.width ∧ 0 ≤ box.height ∧
    box.x + box.width ≤ W ∧ box.y + box.height ≤ H

/-! ## Bookkeeping for the unknown cooldown -/

/-- The decision times of the admitted unknown detections: the times of the image
extractions among the calls made. -/
def unknownAdmissions (s : TrackingState) : List Int :=
  s.calls.filterMap (fun c =>
    match c with
    | .extractFaceImage startedAt => some startedAt
    | _ => none)

/-- The decision times of the unmatched detections of a stream. -/
def unknownTimes : List Detection → List Int
  | [] => []
  | .recognized _ _ _ _ :: ds => unknownTimes ds
  | .unknown now _ _ :: ds => now :: unknownTimes ds

/-- The shape of the cooldown state: admissions lie more than 10 s apart, none is later than
the timestamp, and the timestamp is unset only before the first admission. -/
structure CooldownInv (s : TrackingState) : Prop where
  apart : (unknownAdmissions s).Pairwise (fun a b => a + 10000 < b)
  bounded : ∀ a ∈ unknownAdmissions s, a ≤ s.lastUnknownDetection
  unset : s.lastUnknownDetection = 0 → unknownAdmissions s = []

/-! ## The error classes (`src/utils/errors.js`) -/

/-- The class `AppError`: `new AppError(message, statusCode)`, the status defaulting to
`HTTP_STATUS.INTERNAL_SERVER_ERROR`. It sets no `code` and keeps the name `Error`. -/
def AppError (message : String) (statusCode : Option Nat) : ErrorInfo :=
  { zodIssues := none, code := none,
    appStatusCode := some (statusCode.getD HTTP_STATUS_INTERNAL_SERVER_ERROR),
    name := "Error", message := message }

/-- The class `ValidationError`: `new ValidationError(message)`. -/
def ValidationError (message : String) : ErrorInfo :=
  AppError message (some HTTP_STATUS_UNPROCESSABLE_ENTITY)

/-- The class `NotFoundError`: `new NotFoundError(message)`, the message defaulting to
'Resource not found'. -/
def NotFoundError (message : Option String) : ErrorInfo :=
  AppError (message.getD "Resource not found") (some HTTP_STATUS_NOT_FOUND)

/-- The class `ConflictError`: `new ConflictError(message)`, the message defaulting to
'Resource already exists'. -/
def ConflictError (message : Option String) : ErrorInfo :=
  AppError (message.getD "Resource already exists") (some HTTP_STATUS_CONFLICT)

/-! ## More fixtures -/

/-- A store with one unknown face, already identified. -/
def storeIdentified : UnknownStore :=
  { unknownFaces := [{ Unknown_ID := 1, Captured_Image := some "AAAA", Zone_id := 1,
                       Confidence := .num 0, DetectedTime := 50, Status := "IDENTIFIED",
                       Notes := some "Detected by live camera" }]
    nextUnknownId := 2 }

/-- An empty unknown-face store. -/
def storeEmpty : UnknownStore :=
  { unknownFaces := [], nextUnknownId := 1 }

/-- A store with three zone-1 faces and one of zone 2. -/
def storeFour : UnknownStore :=
  { unknownFaces :=
      [{ Unknown_ID := 1, Captured_Image := some "AAAA", Zone_id := 1, Confidence := .num 0,
         DetectedTime := 50, Status := "PENDING", Notes := none },
       { Unknown_ID := 2, Captured_Image := none, Zone_id := 1, Confidence := .num 0,
         DetectedTime := 70, Status := "IGNORED", Notes := none },
       { Unknown_ID := 3, Captured_Image := some "BBBB", Zone_id := 2, Confidence := .num 0,
         DetectedTime := 80, Status := "PENDING", Notes := none },
       { Unknown_ID := 4, Captured_Image := some "CCCC", Zone_id := 1, Confidence := .num 0,
         DetectedTime := 60, Status := "PENDING", Notes := none }]
    nextUnknownId := 5 }

/-- The body of a capture request as the tracking page sends it. -/
def bodyCapture : ReqBody :=
  .object [("capturedImage", .str "data:image/jpeg;base64,AAAA"), ("confidence", .num 0),
           ("notes", .str "Detected by live camera")]

/-- The request body with `status: 'PENDING'`. -/
def bodyStatusPending : ReqBody :=
  .object [("status", .str "PENDING")]

/-- A face box near the left edge of a 400 x 400 frame. -/
def boxNearLeftEdge : Box Int :=
  { x := 10, y := 50, width := 100, height := 100 }

/-- A face box at the right edge of a 400 x 400 frame. -/
def boxAtRightEdge : Box Int :=
  { x := 300, y := 50, width := 100, height := 100 }

/-- The face box of the specification's example. -/
def boxExample : Box Int :=
  { x := 50, y := 50, width := 100, height := 100 }

/-- A request value is falsy or a string: what the optional text field `notes` holds. -/
def JsVal.falsyOrString (v : JsVal) : Prop :=
  v.truthy = false ∨ ∃ s, v = .str s

/-- A request value is falsy or a number: what the optional field `confidence` holds. -/
def JsVal.falsyOrNumber (v : JsVal) : Prop :=
  v.truthy = false ∨ v.isNumber = true

/-! ## The persons in the zone (`getCurrentPersons`) -/

/-- The order `orderBy: { EntryTime: 'desc' }` on the column values: the later time first,
and `NULL` before every time (as PostgreSQL sorts a descending column). -/
def entryTimeNotBefore : Option Int → Option Int → Bool
  | none, _ => true
  | some _, none => false
  | some x, some y => decide (y ≤ x)

/-- The order `orderBy: { EntryTime: 'desc' }` on rows: `a` may come before `b`. -/
def entryNotBefore (a b : TimeTable) : Prop :=
  entryTimeNotBefore a.EntryTime b.EntryTime = true

instance : DecidableRel entryNotBefore :=
  fun a b => inferInstanceAs (Decidable (entryTimeNotBefore a.EntryTime b.EntryTime = true))

instance : IsTotal TimeTable entryNotBefore :=
  ⟨fun a b => by
    unfold entryNotBefore entryTimeNotBefore
    cases a.EntryTime <;> cases b.EntryTime <;> simp
    omega⟩

instance : IsTrans TimeTable entryNotBefore :=
  ⟨fun a b c => by
    unfold entryNotBefore entryTimeNotBefore
    cases a.EntryTime <;> cases b.EntryTime <;> cases c.EntryTime <;> simp
    omega⟩

/-- The filter `where: { Zone_id: 1, ExitTime: null }` of `getCurrentPersons`. -/
def inZone1Now (r : TimeTable) : Bool :=
  r.Zone_id == 1 && r.ExitTime == none

/-- The rows `findMany({ where: { Zone_id: 1, ExitTime: null }, orderBy: { EntryTime: 'desc' } })`
returns (rows with equal `EntryTime` stay in the order of the table; the database may order
them differently). -/
def currentRows (db : Db) : List TimeTable :=
  (db.timeTable.filter inZone1Now).insertionSort entryNotBefore

/-- One item of the `data` of `getCurrentPersons`. The fields joined from the person and zone
tables for display (`Name`, `Email`, `Face_Pictures`, `Zone`) are left out. -/
structure CurrentPerson where
  TimeTable_ID : Int
  PersonType : String
  PersonID : Option Int
  EntryTime : Option Int
  deriving DecidableEq, Repr

/-- The mapping `entry => ({ TimeTable_ID, PersonType, PersonID: entry.PersonType === 'TEACHER'
? entry.Teacher_ID : entry.Student_ID, …, EntryTime })` of `getCurrentPersons`. -/
def TimeTable.currentPerson (entry : TimeTable) : CurrentPerson :=
  { TimeTable_ID := entry.TimeTable_ID
    PersonType := entry.PersonType
    PersonID := if entry.PersonType = "TEACHER" then entry.Teacher_ID else entry.Student_ID
    EntryTime := entry.EntryTime }

/-- The handler `getCurrentPersons` (`GET /api/zones/1/current`) of `zone1.controller.js`. -/
def getCurrentPersons (db : Db) : Reply (List CurrentPerson) :=
  let formatted := (currentRows db).map TimeTable.currentPerson
  { status := 200, success := true, message := none, count := some formatted.length,
    data := some formatted, error := none }

/-! ## Sequences of ledger operations -/

/-- A call of one of the two handlers that write the ledger. -/
inductive LedgerOp where
  | recognize (nanIsNull : Bool) (now : Int) (body : ReqBody)
  | exit (now : Int) (timetableId : String)
  deriving DecidableEq, Repr

/-- The ledger after a call. -/
def applyOp (db : Db) : LedgerOp → Db
  | .recognize nanIsNull now body => (logRecognizedPerson nanIsNull now db body).1
  | .exit now timetableId => (markExit now db timetableId).1

/-- The ledger after a sequence of calls, one after the other. -/
def applyOps (db : Db) (ops : List LedgerOp) : Db :=
  ops.foldl applyOp db

/-! ## The storage steps of `logRecognizedPerson`

The handler reaches the database twice, each time behind an `await`: the duplicate check
`findFirst` and the insert `create`. Between the two, another request can be served. -/

/-- How far a call of `logRecognizedPerson` has come: not started, past a duplicate check that
found nothing (holding `personType` and the parsed id), or answered. -/
inductive EntryCall where
  | start
  | checked (personType : JsVal) (v : Option Int)
  | finished (r : Response)
  deriving DecidableEq, Repr

/-- The first storage step: the `400` guard and the duplicate check `findFirst`. -/
def entryCheck (nanIsNull : Bool) (db : Db) (body : ReqBody) : EntryCall :=
  let personId := body.get "personId"
  let personType := body.get "personType"
  if !personId.truthy || !personType.truthy then
    .finished { status := 400, success := false,
                message := "Person ID and Person Type are required", data := none,
                error := none }
  else
    match prismaIntArg nanIsNull (parseInt personId) with
    | .error e => .finished (entryFailed e)
    | .ok v =>
      match findFirstOpenInZone1 db (personColumn personType) v with
      | some existingEntry =>
        .finished { status := 200, success := true, message := "Person already in zone",
                    data := some existingEntry, error := none }
      | none => .checked personType v

/-- The second storage step: the insert `create` and the answer. -/
def entryInsert (now : Int) (db : Db) (personType : JsVal) (v : Option Int) : Db × Response :=
  match personType with
  | .str pt =>
    match createEntry db now pt (personColumn personType) v with
    | .ok (db1, entry) =>
      (db1, { status := 201, success := true, message := "Person entry logged successfully",
              data := some entry, error := none })
    | .error e => (db, entryFailed e)
  | _ => (db, entryFailed .validation)

/-- The next storage step of a call; a call that has answered does nothing more. -/
def entryStep (nanIsNull : Bool) (now : Int) (body : ReqBody) (db : Db) :
    EntryCall → Db × EntryCall
  | .start => (db, entryCheck nanIsNull db body)
  | .checked personType v =>
    ((entryInsert now db personType v).1, .finished (entryInsert now db personType v).2)
  | .finished r => (db, .finished r)

/-- Two calls in flight on one ledger. -/
structure TwoCalls where
  db : Db
  first : EntryCall
  second : EntryCall
  deriving DecidableEq, Repr

/-- An interleaving of the storage steps of two calls: at each place of the schedule the
first (`false`) or the second (`true`) call takes its next storage step. -/
def runSchedule (nanIsNull : Bool) (now1 : Int) (body1 : ReqBody) (now2 : Int)
    (body2 : ReqBody) : List Bool → TwoCalls → TwoCalls
  | [], c => c
  | false :: rest, c =>
    runSchedule nanIsNull now1 body1 now2 body2 rest
      { c with db := (entryStep nanIsNull now1 body1 c.db c.first).1,
               first := (entryStep nanIsNull now1 body1 c.db c.first).2 }
  | true :: rest, c =>
    runSchedule nanIsNull now1 body1 now2 body2 rest
      { c with db := (entryStep nanIsNull now2 body2 c.db c.second).1,
               second := (entryStep nanIsNull now2 body2 c.db c.second).2 }

/-- The call has answered `201`: it inserted a record. -/
def EntryCall.inserted : EntryCall → Bool
  | .finished r => r.status == 201
  | _ => false

/-! ## The exit operation (`exitSchema`, `recordExit`) -/

/-- The keys of the `body` shape of `exitSchema`, in the order of the source. -/
def exitSchemaKeys : List String :=
  ["personType", "personId", "zoneId", "timestamp"]

/-- The issues the `body` shape of `exitSchema` raises on the properties of an object, in the
order of the shape. -/
def exitSchemaIssues (isDatetime : String → Bool) (body : ReqBody) : List ZodIssue :=
  let under (k : String) : List PathSeg := [.key "body", .key k]
  personTypeIssues (under "personType") (body.get "personType") ++
  positiveIntIssues (under "personId") (some "personId must be a positive integer") false
    (body.get "personId") ++
  positiveIntIssues (under "zoneId") (some "zoneId must be a positive integer") true
    (body.get "zoneId") ++
  datetimeIssues isDatetime (under "timestamp") (body.get "timestamp")

/-- The schema `exitSchema`, applied as `validateRequest` applies it: the validated body, with
unknown keys stripped, or the issues of the thrown `ZodError`. -/
def exitSchema (isDatetime : String → Bool) (body : ReqBody) : Except (List ZodIssue) ReqBody :=
  match body with
  | .array => .error [{ path := [.key "body"], message := "Expected object, received array" }]
  | .object props =>
    if (exitSchemaIssues isDatetime body).isEmpty then
      .ok (.object (exitSchemaKeys.filterMap (fun k => (props.lookup k).map (fun v => (k, v)))))
    else .error (exitSchemaIssues isDatetime body)

/-- Modelled from the spec: the kind of a person reference (section 3, "a tagged union
`{Kind: STUDENT|TEACHER, ID: integer}`"). The handler of `POST /api/timetable/exit` and its
service are not among the sources; only its validator and its tests are. -/
inductive PersonKind where
  | STUDENT
  | TEACHER
  deriving DecidableEq, Repr

/-- Modelled from the spec: the person reference of section 3, identity only. -/
structure PersonRef where
  kind : PersonKind
  id : Int
  deriving DecidableEq, Repr

/-- Modelled from the spec: the `PresenceRecord` of section 3, one stay of a person in a zone.
`zoneId` is absent for an exit-only record of a request that named no zone. -/
structure PresenceRecord where
  id : Int
  person : PersonRef
  zoneId : Option Int
  entryTime : Option Int
  exitTime : Option Int
  cameraId : Option Int
  deriving DecidableEq, Repr

/-- Modelled from the spec: the presence ledger of section 2, with the next id it assigns. -/
structure PresenceLedger where
  records : List PresenceRecord
  nextId : Int
  deriving DecidableEq, Repr

/-- Modelled from the spec: the input of `recordExit` (section 4.2): "person reference,
optional zoneId, optional timestamp". -/
structure ExitRequest where
  person : PersonRef
  zoneId : Option Int
  timestamp : Option Int
  deriving DecidableEq, Repr

/-- Modelled from the spec: the open records of the person of an exit request, "optionally
filtered by zoneId if provided" (section 4.2). -/
def openRecordsFor (ledger : PresenceLedger) (req : ExitRequest) : List PresenceRecord :=
  ledger.records.filter (fun r =>
    decide (r.person = req.person) && r.exitTime == none &&
    (match req.zoneId with
     | some z => r.zoneId == some z
     | none => true))

/-- Modelled from the spec: "the most recent" of a list of records (section 4.2), the one
that entered last. -/
def mostRecent : List PresenceRecord → Option PresenceRecord
  | [] => none
  | r :: rs =>
    match mostRecent rs with
    | none => some r
    | some best =>
      if entryTimeNotBefore r.entryTime best.entryTime then some r else some best

/-- Modelled from the spec: `recordExit` (section 4.2). "Find the most recent open record for
the person (optionally filtered by zoneId if provided); if found, set `exitTime = timestamp`,
closing it. If no open record is found, the operation still succeeds by inserting an
exit-only record (`entryTime = null`, `exitTime = timestamp`)"; the timestamp "defaults to
now", and the answer is "`200 {record}` (never conflicts)" (section 6). -/
def recordExit (now : Int) (ledger : PresenceLedger) (req : ExitRequest) :
    PresenceLedger × Reply PresenceRecord :=
  let timestamp := req.timestamp.getD now
  match mostRecent (openRecordsFor ledger req) with
  | some r =>
    ({ ledger with records := (ledger.records.map
         (fun x => if x.id = r.id then { x with exitTime := some timestamp } else x)) },
     { status := 200, success := true, message := none, count := none,
       data := some { r with exitTime := some timestamp }, error := none })
  | none =>
    let record : PresenceRecord :=
      { id := ledger.nextId, person := req.person, zoneId := req.zoneId, entryTime := none,
        exitTime := some timestamp, cameraId := none }
    ({ records := ledger.records ++ [record], nextId := ledger.nextId + 1 },
     { status := 200, success := true, message := none, count := none,
       data := some record, error := none })

/-- Modelled from the spec: the answers of a sequence of `recordExit` calls made one after
the other, each on the ledger the one before left. -/
def recordExits (now : Int) : PresenceLedger → List ExitRequest → List (Reply PresenceRecord)
  | _, [] => []
  | ledger, req :: rest =>
    (recordExit now ledger req).2 :: recordExits now (recordExit now ledger req).1 rest

/-! ## The mount of the `Zone1` component -/

/-- The React state of the component that the loop reads: `const [modelsLoaded,
setModelsLoaded] = useState(false)`. Every render sees the value the state had when the
render ran, and so do the functions the render defines. -/
structure ComponentState where
  modelsLoaded : Bool
  deriving DecidableEq, Repr

/-- The state of the first render: `useState(false)`. -/
def initialComponent : ComponentState :=
  { modelsLoaded := false }

/-- What a firing of the interval finds outside the component: the video element, its
readiness and the detections of the frame. -/
structure Frame where
  webcam : Bool
  videoReady : Bool
  detections : List Detection
  deriving DecidableEq, Repr

/-- The function `startFaceDetection` of a render, as the interval callback it creates: the
callback reads `modelsLoaded` of the render that defined it. -/
def startFaceDetection (render : ComponentState) (s : TrackingState) (frame : Frame) :
    TrackingState :=
  detectionTick s
    { webcam := frame.webcam, modelsLoaded := render.modelsLoaded,
      videoReady := frame.videoReady, detections := frame.detections }

/-- The function `initializeFaceRecognition` of a render: when `loadModels` fails or the
face database request throws, the `catch` block sets an error and no interval is started;
otherwise `setModelsLoaded(true)` changes the state for the renders to come and
`startFaceDetection()` of this render starts the interval. Returns the state after the call
and the interval callback, if one was started. -/
def initializeFaceRecognition (render : ComponentState) (modelsOk databaseThrows : Bool) :
    ComponentState × Option (TrackingState → Frame → TrackingState) :=
  if !modelsOk then (render, none)
  else if databaseThrows then ({ modelsLoaded := true }, none)
  else ({ modelsLoaded := true }, some (startFaceDetection render))

/-- The effect `useEffect(() => { initializeFaceRecognition(); }, [])`: it runs once, after
the first render, with the functions of the first render. -/
def mountEffect (modelsOk databaseThrows : Bool) :
    ComponentState × Option (TrackingState → Frame → TrackingState) :=
  initializeFaceRecognition initialComponent modelsOk databaseThrows

/-! ## Fixtures for the exit operation and the interleavings -/

/-- A presence ledger in which student 2 has one closed record. -/
def presenceClosed : PresenceLedger :=
  { records := [{ id := 1, person := { kind := .STUDENT, id := 2 }, zoneId := some 1,
                  entryTime := some 10, exitTime := some 20, cameraId := none }]
    nextId := 2 }

/-- The exit request of the test 'should handle exit without entry': student 2, zone 1. -/
def exitStudent2 : ExitRequest :=
  { person := { kind := .STUDENT, id := 2 }, zoneId := some 1, timestamp := none }

/-- The request body of that exit request. -/
def bodyExitStudent2 : ReqBody :=
  .object [("personType", .str "STUDENT"), ("personId", .num 2), ("zoneId", .num 1)]

/-- The request body with `personId: 5` and the unknown kind `'VISITOR'`. -/
def bodyVisitor5 : ReqBody :=
  .object [("personId", .num 5), ("personType", .str "VISITOR")]

/-- Two calls that have not started, on the empty ledger. -/
def twoCallsStart : TwoCalls :=
  { db := ledgerEmpty, first := .start, second := .start }

/-! ## Facts about the ledger operations -/

theorem createEntry_ok {db : Db} {now : Int} {pt : String} {col : PersonColumn}
    {v : Option Int} {db1 : Db} {row : TimeTable}
    (h : createEntry db now pt col v = .ok (db1, row)) :
    db1.timeTable = db.timeTable ++ [row] ∧ row.Zone_id = 1 ∧ row.ExitTime = none ∧
      row.TimeTable_ID = db.nextTimeTableId ∧ row.column col = v ∧
      (∀ c, c ≠ col → row.column c = none) ∧ foreignKeysOk db row = true := by
  unfold createEntry at h
  simp only at h
  cases col <;>
  · simp only [reduceIte, reduceCtorEq] at h
    split at h
    · rename_i hfk
      injection h with h
      injection h with h1 h2
      subst h1 h2
      refine ⟨rfl, rfl, rfl, rfl, rfl, ?_, hfk⟩
      intro c hc
      cases c <;> simp_all [TimeTable.column]
    · cases h

/-- The four ways `logRecognizedPerson` ends: the `400` guard, a failed call to the database,
the open record that was found, or a created row. -/
theorem logRecognizedPerson_cases (nanIsNull : Bool) (now : Int) (db : Db) (body : ReqBody) :
    (((body.get "personId").truthy = false ∨ (body.get "personType").truthy = false) ∧
        (logRecognizedPerson nanIsNull now db body).1 = db ∧
        (logRecognizedPerson nanIsNull now db body).2.status = 400) ∨
    ((body.get "personId").truthy = true ∧ (body.get "personType").truthy = true ∧
      ((∃ e, logRecognizedPerson nanIsNull now db body = (db, entryFailed e)) ∨
       (∃ v e, prismaIntArg nanIsNull (parseInt (body.get "personId")) = .ok v ∧
          findFirstOpenInZone1 db (personColumn (body.get "personType")) v = some e ∧
          logRecognizedPerson nanIsNull now db body =
            (db, { status := 200, success := true, message := "Person already in zone",
                   data := some e, error := none })) ∨
       (∃ v pt db1 row, prismaIntArg nanIsNull (parseInt (body.get "personId")) = .ok v ∧
          findFirstOpenInZone1 db (personColumn (body.get "personType")) v = none ∧
          body.get "personType" = .str pt ∧
          createEntry db now pt (personColumn (body.get "personType")) v = .ok (db1, row) ∧
          logRecognizedPerson nanIsNull now db body =
            (db1, { status := 201, success := true,
                    message := "Person entry logged successfully",
                    data := some row, error := none })))) := by
  unfold logRecognizedPerson
  simp only
  split
  · rename_i h
    left
    refine ⟨?_, rfl, rfl⟩
    simpa using h
  · rename_i h
    right
    simp only [Bool.or_eq_true, Bool.not_eq_true', not_or, Bool.not_eq_false] at h
    refine ⟨h.1, h.2, ?_⟩
    split
    · rename_i e _
      exact Or.inl ⟨e, rfl⟩
    · rename_i v hv
      split
      · rename_i e hfind
        exact Or.inr (Or.inl ⟨v, e, hv, hfind, rfl⟩)
      · rename_i hfind
        split
        · rename_i pt hpt
          split
          · rename_i db1 entry hc
            refine Or.inr (Or.inr ⟨v, pt, db1, entry, hv, ?_, hpt, ?_, rfl⟩)
            · simpa [hpt] using hfind
            · simpa [hpt] using hc
          · rename_i e _
            exact Or.inl ⟨e, rfl⟩
        · exact Or.inl ⟨.validation, rfl⟩


theorem foreignKeysOk_registry {db : Db} {row : TimeTable} {col : PersonColumn} {n : Int}
    (h : foreignKeysOk db row = true) (hc : row.column col = some n) : n ∈ registry db col := by
  unfold foreignKeysOk at h
  cases col <;> simp only [TimeTable.column] at hc <;> simp [hc] at h <;>
    simp [registry, h]

theorem find?_unique_id {l : List TimeTable} {r : TimeTable}
    (hr : r ∈ l) (huniq : (l.map (fun x => x.TimeTable_ID)).Nodup) :
    l.find? (fun x => x.TimeTable_ID == r.TimeTable_ID) = some r := by
  induction l with
  | nil => cases hr
  | cons a t ih =>
    simp only [List.map_cons, List.nodup_cons] at huniq
    rcases List.mem_cons.mp hr with rfl | hmem
    · simp
    · have hne : a.TimeTable_ID ≠ r.TimeTable_ID := by
        intro heq
        exact huniq.1 (heq ▸ List.mem_map_of_mem _ hmem)
      simp [List.find?_cons, hne, ih hmem huniq.2]

theorem map_update_unique_id {l : List TimeTable} {r : TimeTable} (f : TimeTable → TimeTable)
    (hr : r ∈ l) (huniq : (l.map (fun x => x.TimeTable_ID)).Nodup) :
    l.map (fun x => if x.TimeTable_ID = r.TimeTable_ID then f x else x) =
      l.map (fun x => if x = r then f r else x) := by
  apply List.map_congr_left
  intro x hx
  by_cases hxr : x = r
  · subst hxr; simp
  · have hne : x.TimeTable_ID ≠ r.TimeTable_ID := by
      intro heq
      exact hxr (List.inj_on_of_nodup_map huniq hx hr heq)
    simp [hxr, hne]

/-! ## C1: the single-open-record invariant and the entry operation -/

/-- C1 (counterexample): the invariant counted across all zones is not preserved. Student 5
has one open record, in zone 2; `logRecognizedPerson` answers `201` and opens a second record
for the student, in zone 1. -/
theorem logRecognizedPerson_breaks_global_invariant :
    singleOpenRecord ledgerOpenInZone2 ∧
      (logRecognizedPerson false 100 ledgerOpenInZone2 bodyStudent5).2.status = 201 ∧
      ¬ singleOpenRecord (logRecognizedPerson false 100 ledgerOpenInZone2 bodyStudent5).1 := by
  refine ⟨?_, by decide, ?_⟩
  · intro col id
    exact (List.length_filter_le _ _).trans (by decide)
  · intro h
    have h5 := h .Student_ID 5
    revert h5
    decide

/-- C1 (amended): the invariant scoped to zone 1 is preserved by the entry operation: if every
person has at most one open record in zone 1, then after any call of `logRecognizedPerson`
every person still has at most one open record in zone 1. -/
theorem logRecognizedPerson_preserves_zone1_invariant (nanIsNull : Bool) (now : Int) (db : Db)
    (body : ReqBody) (h : singleOpenRecordZone1 db) :
    singleOpenRecordZone1 (logRecognizedPerson nanIsNull now db body).1 := by
  rcases logRecognizedPerson_cases nanIsNull now db body with
    ⟨_, hdb, _⟩ | ⟨_, _, ⟨e, he⟩ | ⟨v, e, _, _, he⟩ | ⟨v, pt, db1, row, hv, hfind, hpt, hc, he⟩⟩
  · rw [hdb]; exact h
  · rw [he]; exact h
  · rw [he]; exact h
  · rw [he]
    obtain ⟨htt, _, _, _, hcol, hother, _⟩ := createEntry_ok hc
    intro col id
    show (db1.timeTable.filter (openInZone1Filter col (some id))).length ≤ 1
    rw [htt, List.filter_append, List.length_append]
    by_cases hm : openInZone1Filter col (some id) row = true
    · have hcv : row.column col = some id := by
        simp only [openInZone1Filter, Bool.and_eq_true, beq_iff_eq] at hm
        exact hm.2
      have hceq : col = personColumn (body.get "personType") := by
        by_contra hne
        rw [hother col hne] at hcv
        cases hcv
      have hv1 : v = some id := by rw [← hcol, ← hceq]; exact hcv
      have hnil : db.timeTable.filter (openInZone1Filter col (some id)) = [] := by
        rw [List.filter_eq_nil_iff]
        intro r hr
        have hnone := List.find?_eq_none.mp hfind r hr
        rw [← hceq, hv1] at hnone
        exact hnone
      simp [hnil]
      exact List.length_filter_le _ _
    · have hold := h col id
      have hrow : [row].filter (openInZone1Filter col (some id)) = [] := by
        simp [List.filter, hm]
      rw [hrow]
      simpa using hold

/-- C1 (witness): the amended invariant at the ledger of the counterexample. -/
theorem logRecognizedPerson_preserves_zone1_invariant_witness :
    singleOpenRecordZone1 ledgerOpenInZone2 ∧
      singleOpenRecordZone1 (logRecognizedPerson false 100 ledgerOpenInZone2 bodyStudent5).1 :=
  have h0 : singleOpenRecordZone1 ledgerOpenInZone2 := fun _ _ =>
    (List.length_filter_le _ _).trans (by decide)
  ⟨h0, logRecognizedPerson_preserves_zone1_invariant false 100 ledgerOpenInZone2 bodyStudent5 h0⟩


/-! ## C2, C3: a second entry for a person with an open record -/

/-- C2 (counterexample): student 5 has an open record (in zone 1) and the entry call answers
`200` with `success = true`, not `409` with `success = false`. -/
theorem duplicate_entry_is_not_a_conflict :
    openRecords ledgerOpenInZone1 .Student_ID 5 ≠ [] ∧
      (logRecognizedPerson false 100 ledgerOpenInZone1 bodyStudent5).2.status = 200 ∧
      (logRecognizedPerson false 100 ledgerOpenInZone1 bodyStudent5).2.success = true ∧
      ¬ ((logRecognizedPerson false 100 ledgerOpenInZone1 bodyStudent5).2.status = 409 ∧
          (logRecognizedPerson false 100 ledgerOpenInZone1 bodyStudent5).2.success = false) := by
  decide

/-- C2 (amended): a second entry for a person who has an open record in zone 1 is answered
with status `200`, `success = true` and the message 'Person already in zone', and the ledger
is left as it was: for every ledger in which the person named by a request (truthy `personId`
that parses to `n`, truthy `personType`) has a zone-1 record with `ExitTime = null`. -/
theorem duplicate_entry_answers_already_in_zone (nanIsNull : Bool) (now : Int) (db : Db)
    (body : ReqBody) (n : Int)
    (hid : (body.get "personId").truthy = true) (hty : (body.get "personType").truthy = true)
    (hp : parseInt (body.get "personId") = some n)
    (hopen : openRecordsZone1 db (personColumn (body.get "personType")) n ≠ []) :
    (logRecognizedPerson nanIsNull now db body).2.status = 200 ∧
      (logRecognizedPerson nanIsNull now db body).2.success = true ∧
      (logRecognizedPerson nanIsNull now db body).2.message = "Person already in zone" ∧
      (logRecognizedPerson nanIsNull now db body).1 = db := by
  have hfind : ∃ e, findFirstOpenInZone1 db (personColumn (body.get "personType")) (some n) =
      some e := by
    cases hf : findFirstOpenInZone1 db (personColumn (body.get "personType")) (some n) with
    | some e => exact ⟨e, rfl⟩
    | none =>
      exfalso
      apply hopen
      unfold openRecordsZone1
      rw [List.filter_eq_nil_iff]
      intro r hr
      exact List.find?_eq_none.mp hf r hr
  obtain ⟨e, he⟩ := hfind
  unfold logRecognizedPerson
  simp [hid, hty, hp, prismaIntArg, he]

/-- C2 (witness): the amended claim at the ledger of the counterexample. -/
theorem duplicate_entry_answers_already_in_zone_witness :
    (logRecognizedPerson false 100 ledgerOpenInZone1 bodyStudent5).2.status = 200 ∧
      (logRecognizedPerson false 100 ledgerOpenInZone1 bodyStudent5).2.success = true ∧
      (logRecognizedPerson false 100 ledgerOpenInZone1 bodyStudent5).2.message =
        "Person already in zone" ∧
      (logRecognizedPerson false 100 ledgerOpenInZone1 bodyStudent5).1 = ledgerOpenInZone1 :=
  duplicate_entry_answers_already_in_zone false 100 ledgerOpenInZone1 bodyStudent5 5
    (by decide) (by decide) (by decide) (by decide)

/-- C3: when `logRecognizedPerson` finds an open record (it answers `200`), the record in its
response is a record of the ledger that is open, in zone 1 and carries the requested id, and
the ledger is unchanged; and when a call created a record (it answers `201`), a second call
for the same request answers `200` with that same record, so with the id the first call
returned, and leaves the ledger as the first call left it. -/
theorem existing_open_record_is_returned (nanIsNull : Bool) (now now2 : Int) (db : Db)
    (body : ReqBody) :
    ((logRecognizedPerson nanIsNull now db body).2.status = 200 →
      ∃ e, e ∈ db.timeTable ∧ e.ExitTime = none ∧ e.Zone_id = 1 ∧
        (∀ n, parseInt (body.get "personId") = some n →
          e.column (personColumn (body.get "personType")) = some n) ∧
        (logRecognizedPerson nanIsNull now db body).2.data = some e ∧
        (logRecognizedPerson nanIsNull now db body).1 = db) ∧
    ((logRecognizedPerson nanIsNull now db body).2.status = 201 →
      ∃ r, (logRecognizedPerson nanIsNull now db body).2.data = some r ∧
        r.TimeTable_ID = db.nextTimeTableId ∧
        (logRecognizedPerson nanIsNull now2
          (logRecognizedPerson nanIsNull now db body).1 body).2.status = 200 ∧
        (logRecognizedPerson nanIsNull now2
          (logRecognizedPerson nanIsNull now db body).1 body).2.data = some r ∧
        (logRecognizedPerson nanIsNull now2
          (logRecognizedPerson nanIsNull now db body).1 body).1 =
            (logRecognizedPerson nanIsNull now db body).1) := by
  rcases logRecognizedPerson_cases nanIsNull now db body with
    ⟨_, hdb, hst⟩ | ⟨hid, hty, ⟨e, he⟩ | ⟨v, e, hv, hfind, he⟩ |
      ⟨v, pt, db1, row, hv, hfind, hpt, hc, he⟩⟩
  · constructor <;> intro h <;> rw [hst] at h <;> cases h
  · constructor <;> intro h <;> rw [he] at h <;> cases h
  · constructor
    · intro _
      have hmem := List.mem_of_find?_eq_some hfind
      have hp := List.find?_some hfind
      simp only [openInZone1Filter, Bool.and_eq_true, beq_iff_eq] at hp
      refine ⟨e, hmem, hp.1.2, hp.1.1, ?_, by rw [he], by rw [he]⟩
      intro n hn
      rw [hn] at hv
      simp only [prismaIntArg] at hv
      injection hv with hv
      rw [hp.2, hv]
    · intro h; rw [he] at h; cases h
  · constructor
    · intro h; rw [he] at h; cases h
    · intro _
      obtain ⟨htt, hz, hx, hrid, hcol, _, _⟩ := createEntry_ok hc
      have hfind2 : findFirstOpenInZone1 db1 (personColumn (body.get "personType")) v =
          some row := by
        unfold findFirstOpenInZone1 at hfind ⊢
        rw [htt, List.find?_append, hfind]
        simp [List.find?_cons, openInZone1Filter, hz, hx, hcol]
      have h2 : logRecognizedPerson nanIsNull now2 db1 body =
          (db1, { status := 200, success := true, message := "Person already in zone",
                  data := some row, error := none }) := by
        unfold logRecognizedPerson
        simp [hid, hty, hv, hfind2]
      rw [he]
      exact ⟨row, rfl, hrid, by rw [h2], by rw [h2], by rw [h2]⟩

/-- C3 (witness): with student 5 open in zone 1 the call returns that record, record 1; and on
the empty ledger the first call for student 5 creates record 1 and the second call returns
record 1 and changes nothing. -/
theorem existing_open_record_is_returned_witness :
    (∃ e, e ∈ ledgerOpenInZone1.timeTable ∧ e.ExitTime = none ∧ e.Zone_id = 1 ∧
        (∀ n, parseInt (bodyStudent5.get "personId") = some n →
          e.column (personColumn (bodyStudent5.get "personType")) = some n) ∧
        (logRecognizedPerson false 100 ledgerOpenInZone1 bodyStudent5).2.data = some e ∧
        (logRecognizedPerson false 100 ledgerOpenInZone1 bodyStudent5).1 = ledgerOpenInZone1) ∧
    (∃ r, (logRecognizedPerson false 100 ledgerEmpty bodyStudent5).2.data = some r ∧
      r.TimeTable_ID = ledgerEmpty.nextTimeTableId ∧
      (logRecognizedPerson false 200
        (logRecognizedPerson false 100 ledgerEmpty bodyStudent5).1 bodyStudent5).2.status = 200 ∧
      (logRecognizedPerson false 200
        (logRecognizedPerson false 100 ledgerEmpty bodyStudent5).1 bodyStudent5).2.data = some r ∧
      (logRecognizedPerson false 200
        (logRecognizedPerson false 100 ledgerEmpty bodyStudent5).1 bodyStudent5).1 =
          (logRecognizedPerson false 100 ledgerEmpty bodyStudent5).1) :=
  ⟨(existing_open_record_is_returned false 100 200 ledgerOpenInZone1 bodyStudent5).1 (by decide),
   (existing_open_record_is_returned false 100 200 ledgerEmpty bodyStudent5).2 (by decide)⟩

/-! ## C5: an entry for a person who is not in the registry -/

/-- C5 (counterexample): no student has id 999999; the entry call answers `500`, not `404`
(the insert is refused by the foreign key and the `catch` block answers). -/
theorem unregistered_person_answers_500 :
    999999 ∉ ledgerEmpty.students ∧
      (logRecognizedPerson false 100 ledgerEmpty bodyStudent999999).2.status = 500 ∧
      (logRecognizedPerson false 100 ledgerEmpty bodyStudent999999).2.status ≠ 404 := by
  decide

/-- C5 (amended): for every `personId` that parses to an integer matching no student (no
teacher, for kind TEACHER), `logRecognizedPerson` inserts no presence record and never answers
`404`: it answers `400` when `personId` or `personType` is falsy, `200` when the ledger holds
an open zone-1 record with that id, and `500` with `success = false` otherwise. -/
theorem unregistered_person_is_not_inserted (nanIsNull : Bool) (now : Int) (db : Db)
    (body : ReqBody) (n : Int) (hp : parseInt (body.get "personId") = some n)
    (hreg : n ∉ registry db (personColumn (body.get "personType"))) :
    (logRecognizedPerson nanIsNull now db body).1 = db ∧
      (logRecognizedPerson nanIsNull now db body).2.status ≠ 404 ∧
      ((logRecognizedPerson nanIsNull now db body).2.status = 400 ↔
        ((body.get "personId").truthy = false ∨ (body.get "personType").truthy = false)) ∧
      ((logRecognizedPerson nanIsNull now db body).2.status = 200 →
        openRecordsZone1 db (personColumn (body.get "personType")) n ≠ []) ∧
      ((body.get "personId").truthy = true → (body.get "personType").truthy = true →
        openRecordsZone1 db (personColumn (body.get "personType")) n = [] →
        (logRecognizedPerson nanIsNull now db body).2.status = 500 ∧
          (logRecognizedPerson nanIsNull now db body).2.success = false) := by
  rcases logRecognizedPerson_cases nanIsNull now db body with
    ⟨hf, hdb, hst⟩ | ⟨hid, hty, ⟨e, he⟩ | ⟨v, e, hv, hfind, he⟩ |
      ⟨v, pt, db1, row, hv, hfind, hpt, hc, he⟩⟩
  · refine ⟨hdb, by rw [hst]; decide, ⟨fun _ => hf, fun _ => hst⟩, ?_, ?_⟩
    · intro h; rw [hst] at h; cases h
    · intro h1 h2
      rcases hf with hf | hf
      · rw [h1] at hf; cases hf
      · rw [h2] at hf; cases hf
  · rw [he]
    refine ⟨rfl, by simp [entryFailed], ⟨?_, ?_⟩, ?_, ?_⟩
    · intro h; simp [entryFailed] at h
    · intro h
      rcases h with h | h
      · rw [hid] at h; cases h
      · rw [hty] at h; cases h
    · intro h; simp [entryFailed] at h
    · intro _ _ _; simp [entryFailed]
  · rw [he]
    have hvn : v = some n := by
      rw [hp] at hv
      simp only [prismaIntArg] at hv
      injection hv with hv
      exact hv.symm
    have hne : openRecordsZone1 db (personColumn (body.get "personType")) n ≠ [] := by
      intro hnil
      have hmem := List.mem_of_find?_eq_some hfind
      have hpred := List.find?_some hfind
      rw [hvn] at hpred
      have : e ∈ openRecordsZone1 db (personColumn (body.get "personType")) n :=
        List.mem_filter.mpr ⟨hmem, hpred⟩
      rw [hnil] at this
      cases this
    refine ⟨rfl, by simp, ⟨?_, ?_⟩, fun _ => hne, ?_⟩
    · intro h; simp at h
    · intro h
      rcases h with h | h
      · rw [hid] at h; cases h
      · rw [hty] at h; cases h
    · intro _ _ hnil; exact absurd hnil hne
  · exfalso
    obtain ⟨_, _, _, _, hcol, _, hfk⟩ := createEntry_ok hc
    have hvn : v = some n := by
      rw [hp] at hv
      simp only [prismaIntArg] at hv
      injection hv with hv
      exact hv.symm
    rw [hvn] at hcol
    exact hreg (foreignKeysOk_registry hfk hcol)

/-- C5 (witness): the amended claim at the request of the counterexample. -/
theorem unregistered_person_is_not_inserted_witness :
    (logRecognizedPerson false 100 ledgerEmpty bodyStudent999999).1 = ledgerEmpty ∧
      (logRecognizedPerson false 100 ledgerEmpty bodyStudent999999).2.status = 500 ∧
      (logRecognizedPerson false 100 ledgerEmpty bodyStudent999999).2.success = false :=
  have h := unregistered_person_is_not_inserted false 100 ledgerEmpty bodyStudent999999 999999
    (by decide) (by decide)
  ⟨h.1, h.2.2.2.2 (by decide) (by decide) (by decide)⟩

/-! ## C6, C7: the manual exit `markExit` -/

/-- C6 (counterexample): no record has id 42; `markExit` answers `500`, not `404`. -/
theorem markExit_missing_id_answers_500 :
    (∀ r ∈ ledgerOpenInZone1.timeTable, r.TimeTable_ID ≠ 42) ∧
      (markExit 100 ledgerOpenInZone1 "42").2.status = 500 ∧
      (markExit 100 ledgerOpenInZone1 "42").2.status ≠ 404 := by
  decide

/-- C6 (amended): when the record id does not exist, `markExit` fails with the generic server
error: for every `timetableId` that matches no record in the ledger, `markExit` answers with
status `500` and `success = false` and changes no record. -/
theorem markExit_missing_id_changes_nothing (now : Int) (db : Db) (timetableId : String)
    (h : ∀ r ∈ db.timeTable, parseIntStr timetableId ≠ some r.TimeTable_ID) :
    (markExit now db timetableId).2.status = 500 ∧
      (markExit now db timetableId).2.success = false ∧
      (markExit now db timetableId).1 = db := by
  unfold markExit
  cases hp : parseIntStr timetableId with
  | none => simp [exitFailed]
  | some id =>
    have hnone : db.timeTable.find? (fun r => r.TimeTable_ID == id) = none := by
      rw [List.find?_eq_none]
      intro r hr hid
      apply h r hr
      rw [hp]
      simp only [beq_iff_eq] at hid
      rw [hid]
    simp [updateExitTime, hnone, exitFailed]

/-- C6 (witness): the amended claim at the input of the counterexample. -/
theorem markExit_missing_id_changes_nothing_witness :
    (markExit 100 ledgerOpenInZone1 "42").2.status = 500 ∧
      (markExit 100 ledgerOpenInZone1 "42").2.success = false ∧
      (markExit 100 ledgerOpenInZone1 "42").1 = ledgerOpenInZone1 :=
  markExit_missing_id_changes_nothing 100 ledgerOpenInZone1 "42" (by decide)

/-- C7: for every existing record id (in a ledger whose ids are unique), `markExit` sets
`ExitTime` of exactly that record to the current time, whatever the record held before,
leaves its other fields, every other record and the rest of the database unchanged, and
answers `200` with the updated record. -/
theorem markExit_sets_exit_time_of_that_record (now : Int) (db : Db) (timetableId : String)
    (r : TimeTable) (hr : r ∈ db.timeTable)
    (hp : parseIntStr timetableId = some r.TimeTable_ID)
    (huniq : (db.timeTable.map (fun x => x.TimeTable_ID)).Nodup) :
    (markExit now db timetableId).2.status = 200 ∧
      (markExit now db timetableId).2.success = true ∧
      (markExit now db timetableId).2.data = some { r with ExitTime := some now } ∧
      (markExit now db timetableId).1 =
        { db with timeTable := (db.timeTable.map
            (fun x => if x = r then { r with ExitTime := some now } else x)) } := by
  unfold markExit
  rw [hp]
  simp only [updateExitTime, find?_unique_id hr huniq]
  rw [map_update_unique_id (fun x => { x with ExitTime := some now }) hr huniq]
  simp

/-- C7 (witness): record 1 of the zone-2 ledger gets exit time 100. -/
theorem markExit_sets_exit_time_of_that_record_witness :
    (markExit 100 ledgerOpenInZone2 "1").2.status = 200 ∧
      (markExit 100 ledgerOpenInZone2 "1").2.data =
        some { TimeTable_ID := 1, PersonType := "STUDENT", Teacher_ID := none,
               Student_ID := some 5, Admin_ID := none, Zone_id := 2,
               EntryTime := some 0, ExitTime := some 100 } :=
  have h := markExit_sets_exit_time_of_that_record 100 ledgerOpenInZone2 "1"
    { TimeTable_ID := 1, PersonType := "STUDENT", Teacher_ID := none,
      Student_ID := some 5, Admin_ID := none, Zone_id := 2,
      EntryTime := some 0, ExitTime := none }
    (by decide) (by decide) (by decide)
  ⟨h.1, h.2.2.1⟩


/-! ## C4: validation of the person kind -/

/-- C4: an entry request with a bad person kind is rejected with 422. For every request body
whose `personType` is not exactly 'TEACHER' or 'STUDENT', `entrySchema` fails with a non-empty
list of issues (for a body that is an object, the issue at `body.personType` with the message
of the schema is among them), and `errorHandler` answers the resulting Zod error with status
`422`, `success = false` and one `{field, message}` item per issue, in order, whose `field` is
the issue path joined with '.'. -/
theorem bad_person_kind_is_rejected_with_422 (isDatetime : String → Bool) (nodeEnv : String)
    (body : ReqBody)
    (hkind : body.get "personType" ≠ .str "TEACHER" ∧ body.get "personType" ≠ .str "STUDENT") :
    ∃ issues, entrySchema isDatetime body = .error issues ∧ issues ≠ [] ∧
      ((∃ props, body = .object props) →
        { path := [.key "body", .key "personType"],
          message := "personType must be TEACHER or STUDENT" } ∈ issues) ∧
      joinPath [.key "body", .key "personType"] = "body.personType" ∧
      (∀ err : ErrorInfo, err.zodIssues = some issues →
        errorHandler nodeEnv err =
          { status := 422, success := false, message := "Validation failed",
            errors := some (issues.map
              (fun e => { field := joinPath e.path, message := e.message })) }) := by
  have hpt : personTypeIssues [.key "body", .key "personType"] (body.get "personType") =
      [{ path := [.key "body", .key "personType"],
         message := "personType must be TEACHER or STUDENT" }] := by
    simp [personTypeIssues, PERSON_TYPES_TEACHER, PERSON_TYPES_STUDENT, hkind.1, hkind.2]
  have hjoin : joinPath [.key "body", .key "personType"] = "body.personType" := by decide
  have hhandler : ∀ (issues : List ZodIssue) (err : ErrorInfo), err.zodIssues = some issues →
      errorHandler nodeEnv err =
        { status := 422, success := false, message := "Validation failed",
          errors := some (issues.map
            (fun e => { field := joinPath e.path, message := e.message })) } := by
    intro issues err herr
    simp [errorHandler, herr, errorResponse, HTTP_STATUS_UNPROCESSABLE_ENTITY]
  cases body with
  | array =>
    refine ⟨_, rfl, by simp, ?_, hjoin, hhandler _⟩
    rintro ⟨props, hprops⟩
    cases hprops
  | object props =>
    have hissues : entrySchemaIssues isDatetime (.object props) =
        { path := [.key "body", .key "personType"],
          message := "personType must be TEACHER or STUDENT" } ::
        (positiveIntIssues [.key "body", .key "personId"]
            (some "personId must be a positive integer") false
            ((ReqBody.object props).get "personId") ++
          positiveIntIssues [.key "body", .key "zoneId"]
            (some "zoneId must be a positive integer") false
            ((ReqBody.object props).get "zoneId") ++
          positiveIntIssues [.key "body", .key "cameraId"] none true
            ((ReqBody.object props).get "cameraId") ++
          datetimeIssues isDatetime [.key "body", .key "timestamp"]
            ((ReqBody.object props).get "timestamp")) := by
      simp only [entrySchemaIssues, hpt]
      simp
    refine ⟨entrySchemaIssues isDatetime (.object props), ?_, ?_, ?_, hjoin, hhandler _⟩
    · simp [entrySchema, hissues]
    · rw [hissues]
      exact List.cons_ne_nil _ _
    · intro _
      rw [hissues]
      exact List.mem_cons_self _ _

/-- C4 (witness): the body of the test 'should reject invalid person type'. -/
theorem bad_person_kind_is_rejected_with_422_witness :
    ∃ issues, entrySchema (fun _ => true) bodyInvalidKind = .error issues ∧ issues ≠ [] ∧
      ((∃ props, bodyInvalidKind = .object props) →
        { path := [.key "body", .key "personType"],
          message := "personType must be TEACHER or STUDENT" } ∈ issues) ∧
      joinPath [.key "body", .key "personType"] = "body.personType" ∧
      (∀ err : ErrorInfo, err.zodIssues = some issues →
        errorHandler "test" err =
          { status := 422, success := false, message := "Validation failed",
            errors := some (issues.map
              (fun e => { field := joinPath e.path, message := e.message })) }) :=
  bad_person_kind_is_rejected_with_422 (fun _ => true) "test" bodyInvalidKind
    (by decide)


/-! ## Facts about the dedup set -/

theorem mem_setAdd {set : List String} {key k : String} :
    k ∈ setAdd set key ↔ k ∈ set ∨ k = key := by
  unfold setAdd
  split
  · rename_i h
    have hmem : key ∈ set := by simpa using h
    constructor
    · exact Or.inl
    · rintro (h1 | h1)
      · exact h1
      · rw [h1]; exact hmem
  · simp

theorem mem_foldl_setDelete (l : List (Int × String)) (set : List String) (k : String) :
    k ∈ l.foldl (fun acc t => setDelete acc t.2) set ↔ k ∈ set ∧ ∀ p ∈ l, p.2 ≠ k := by
  induction l generalizing set with
  | nil => simp
  | cons a t ih =>
    rw [List.foldl_cons, ih]
    simp only [setDelete, List.mem_filter, bne_iff_ne, ne_eq, List.mem_cons, forall_eq_or_imp]
    constructor
    · rintro ⟨⟨h1, h2⟩, h3⟩
      exact ⟨h1, fun h => h2 h.symm, h3⟩
    · rintro ⟨h1, h2, h3⟩
      exact ⟨⟨h1, fun h => h2 h.symm⟩, h3⟩

theorem mem_runTimers_set (now : Int) (s : TrackingState) (k : String) :
    k ∈ (runTimers now s).recognizedPersons ↔
      k ∈ s.recognizedPersons ∧ ∀ p ∈ s.timers, p.1 ≤ now → p.2 ≠ k := by
  unfold runTimers
  simp only [mem_foldl_setDelete, List.mem_filter, decide_eq_true_eq, and_imp]

theorem mem_runTimers_timers (now : Int) (s : TrackingState) (p : Int × String) :
    p ∈ (runTimers now s).timers ↔ p ∈ s.timers ∧ now < p.1 := by
  simp [runTimers]

theorem entryCalls_runTimers (now : Int) (s : TrackingState) :
    entryCalls (runTimers now s) = entryCalls s := rfl

theorem DedupInv.mono {s : TrackingState} {t t1 : Int} (h : DedupInv s t) (hle : t ≤ t1) :
    DedupInv s t1 :=
  { timerKey := h.timerKey
    keyTimer := h.keyTimer
    timerCall := h.timerCall
    callTimer := fun c hc => (h.callTimer c hc).imp id (fun h1 => le_trans h1 hle)
    oneDue := h.oneDue }

theorem DedupInv.initial (t : Int) : DedupInv initialTracking t :=
  { timerKey := fun p hp => by cases hp
    keyTimer := fun k hk => by cases hk
    timerCall := fun p hp => by cases hp
    callTimer := fun c hc => by cases hc
    oneDue := fun p hp => by cases hp }

theorem DedupInv.advance {s : TrackingState} {t t1 : Int} (h : DedupInv s t) (hle : t ≤ t1) :
    DedupInv (runTimers t1 s) t1 := by
  constructor
  · intro p hp
    rw [mem_runTimers_timers] at hp
    rw [mem_runTimers_set]
    refine ⟨h.timerKey p hp.1, ?_⟩
    intro q hq hqle hkey
    have := h.oneDue q hq p hp.1 hkey
    omega
  · intro k hk
    rw [mem_runTimers_set] at hk
    obtain ⟨p, hp, hpk⟩ := h.keyTimer k hk.1
    refine ⟨p, ?_, hpk⟩
    rw [mem_runTimers_timers]
    refine ⟨hp, ?_⟩
    by_contra hnot
    exact hk.2 p hp (by omega) hpk
  · intro p hp
    rw [mem_runTimers_timers] at hp
    exact h.timerCall p hp.1
  · intro c hc
    rw [entryCalls_runTimers] at hc
    rcases h.callTimer c hc with h1 | h1
    · by_cases hlt : t1 < c.2.2 + 300000
      · left
        rw [mem_runTimers_timers]
        exact ⟨h1, hlt⟩
      · right; omega
    · right; omega
  · intro p hp q hq hkey
    rw [mem_runTimers_timers] at hp hq
    exact h.oneDue p hp.1 q hq.1 hkey

/-- At clock time `t` a key is in the set exactly when an entry call for it returned less than
`5 * 60 * 1000` ms ago. -/
theorem DedupInv.mem_iff {s : TrackingState} {t0 t : Int} (h : DedupInv s t0) (hle : t0 ≤ t)
    (k : String) :
    k ∈ (runTimers t s).recognizedPersons ↔
      ∃ c ∈ entryCalls s, c.1 = k ∧ t < c.2.2 + 300000 := by
  have h1 := h.advance hle
  constructor
  · intro hk
    obtain ⟨p, hp, hpk⟩ := h1.keyTimer k hk
    obtain ⟨c, hc, hck, hdue⟩ := h1.timerCall p hp
    rw [mem_runTimers_timers] at hp
    exact ⟨c, hc, hck.trans hpk, by omega⟩
  · rintro ⟨c, hc, hck, hlt⟩
    rcases h1.callTimer c hc with h2 | h2
    · have := h1.timerKey _ h2
      rw [← hck]
      exact this
    · omega


theorem recognizedStep_present {s : TrackingState} {m : FaceMatch} (checkedAt : Int)
    (entryOk : Bool) (resumedAt : Int) (h : personKey m ∈ s.recognizedPersons) :
    recognizedStep s m checkedAt entryOk resumedAt = s := by
  unfold recognizedStep
  have hc : s.recognizedPersons.contains (personKey m) = true := by simpa using h
  rw [if_pos hc]

theorem recognizedStep_absent {s : TrackingState} {m : FaceMatch} (checkedAt : Int)
    (entryOk : Bool) (resumedAt : Int) (h : personKey m ∉ s.recognizedPersons) :
    recognizedStep s m checkedAt entryOk resumedAt =
      { runTimers resumedAt s with
        calls := s.calls ++ handleRecognizedPerson m checkedAt resumedAt entryOk
        recognizedPersons := setAdd (runTimers resumedAt s).recognizedPersons (personKey m)
        timers := (runTimers resumedAt s).timers ++ [(resumedAt + 5 * 60 * 1000, personKey m)] } := by
  unfold recognizedStep
  have hc : ¬ s.recognizedPersons.contains (personKey m) = true := by simpa using h
  rw [if_neg hc]
  rfl

theorem entryCalls_append_handleRecognizedPerson (s s1 : TrackingState) (m : FaceMatch)
    (checkedAt resumedAt : Int) (entryOk : Bool)
    (h : s1.calls = s.calls ++ handleRecognizedPerson m checkedAt resumedAt entryOk) :
    entryCalls s1 = entryCalls s ++ [(personKey m, checkedAt, resumedAt)] := by
  unfold entryCalls
  rw [h, List.filterMap_append]
  cases entryOk <;> simp [handleRecognizedPerson, personKey]

theorem entryCalls_recognizedStep_absent {s : TrackingState} {m : FaceMatch} (checkedAt : Int)
    (entryOk : Bool) (resumedAt : Int) (h : personKey m ∉ s.recognizedPersons) :
    entryCalls (recognizedStep s m checkedAt entryOk resumedAt) =
      entryCalls s ++ [(personKey m, checkedAt, resumedAt)] := by
  apply entryCalls_append_handleRecognizedPerson s _ m checkedAt resumedAt entryOk
  rw [recognizedStep_absent checkedAt entryOk resumedAt h]

theorem DedupInv.recognizedStep {s : TrackingState} {t : Int} (h : DedupInv s t)
    (m : FaceMatch) (entryOk : Bool) {resumedAt : Int} (hle : t ≤ resumedAt) :
    DedupInv (Intellisight.recognizedStep s m t entryOk resumedAt) resumedAt := by
  by_cases hk : personKey m ∈ s.recognizedPersons
  · rw [recognizedStep_present t entryOk resumedAt hk]
    exact h.mono hle
  · have h1 := h.advance hle
    have hk1 : personKey m ∉ (runTimers resumedAt s).recognizedPersons := by
      intro hmem
      exact hk ((mem_runTimers_set resumedAt s _).mp hmem).1
    have hcalls := entryCalls_recognizedStep_absent t entryOk resumedAt hk
    rw [← entryCalls_runTimers resumedAt s] at hcalls
    rw [recognizedStep_absent t entryOk resumedAt hk] at hcalls ⊢
    constructor
    · intro p hp
      simp only [List.mem_append, List.mem_singleton] at hp
      rw [mem_setAdd]
      rcases hp with hp | hp
      · exact Or.inl (h1.timerKey p hp)
      · right; rw [hp]
    · intro k hk2
      simp only at hk2
      rw [mem_setAdd] at hk2
      rcases hk2 with hk2 | hk2
      · obtain ⟨p, hp, hpk⟩ := h1.keyTimer k hk2
        exact ⟨p, List.mem_append_left _ hp, hpk⟩
      · exact ⟨(resumedAt + 5 * 60 * 1000, personKey m), by simp, hk2.symm⟩
    · intro p hp
      simp only [List.mem_append, List.mem_singleton] at hp
      rw [hcalls]
      rcases hp with hp | hp
      · obtain ⟨c, hc, hck, hdue⟩ := h1.timerCall p hp
        exact ⟨c, List.mem_append_left _ hc, hck, hdue⟩
      · refine ⟨(personKey m, t, resumedAt), by simp, ?_, ?_⟩
        · rw [hp]
        · rw [hp]; norm_num
    · intro c hc
      rw [hcalls] at hc
      simp only [List.mem_append, List.mem_singleton] at hc
      rcases hc with hc | hc
      · rcases h1.callTimer c hc with h2 | h2
        · exact Or.inl (List.mem_append_left _ h2)
        · exact Or.inr h2
      · left
        rw [hc]
        simp
    · intro p hp q hq hkey
      simp only [List.mem_append, List.mem_singleton] at hp hq
      rcases hp with hp | hp <;> rcases hq with hq | hq
      · exact h1.oneDue p hp q hq hkey
      · exfalso
        apply hk1
        have := h1.timerKey p hp
        rw [hkey, hq] at this
        exact this
      · exfalso
        apply hk1
        have := h1.timerKey q hq
        rw [← hkey, hp] at this
        exact this
      · rw [hp, hq]

theorem DedupInv.unknownStep {s : TrackingState} {t : Int} (h : DedupInv s t) (now : Int)
    (faceImage : Option String) (saved : Bool) :
    DedupInv (Intellisight.unknownStep s now faceImage saved) t := by
  unfold Intellisight.unknownStep
  split
  · have hcalls : entryCalls
        { s with calls := s.calls ++ handleUnknownPerson now faceImage saved,
                 lastUnknownDetection := now } = entryCalls s := by
      unfold entryCalls
      simp only [List.filterMap_append]
      cases faceImage <;> cases saved <;> simp [handleUnknownPerson]
    constructor
    · exact h.timerKey
    · exact h.keyTimer
    · intro p hp
      rw [hcalls]
      exact h.timerCall p hp
    · intro c hc
      rw [hcalls] at hc
      exact h.callTimer c hc
    · exact h.oneDue
  · exact h

theorem timeOrdered_append (t0 : Int) (ds es : List Detection) :
    timeOrdered t0 (ds ++ es) ↔ timeOrdered t0 ds ∧ timeOrdered (endTime t0 ds) es := by
  induction ds generalizing t0 with
  | nil => simp [timeOrdered, endTime]
  | cons d ds ih =>
    cases d with
    | recognized m checkedAt entryOk resumedAt =>
      simp only [List.cons_append, timeOrdered, endTime, List.append_eq, ih, and_assoc]
    | unknown now faceImage saved =>
      simp only [List.cons_append, timeOrdered, endTime, List.append_eq, ih, and_assoc]

theorem DedupInv.runDetections {s : TrackingState} {t0 : Int} (h : DedupInv s t0)
    (ds : List Detection) (hord : timeOrdered t0 ds) :
    DedupInv (Intellisight.runDetections s ds) (endTime t0 ds) := by
  induction ds generalizing s t0 with
  | nil => exact h
  | cons d ds ih =>
    cases d with
    | recognized m checkedAt entryOk resumedAt =>
      obtain ⟨h1, h2, h3⟩ := hord
      exact ih ((h.advance h1).recognizedStep m entryOk h2) h3
    | unknown now faceImage saved =>
      obtain ⟨h1, h2⟩ := hord
      exact ih ((h.advance h1).unknownStep now faceImage saved) h2


/-- The two ways a recognition at time `t` ends, on the state a stream of detections in time
order leaves behind: no entry call for the key returned in the last `5 * 60 * 1000` ms and one
is made now, or one did and the pass only moves the clock. -/
theorem detectionStep_recognized_cases (t0 : Int) (ds : List Detection) (m : FaceMatch)
    (t : Int) (entryOk : Bool) (r : Int)
    (hord : timeOrdered t0 (ds ++ [.recognized m t entryOk r])) :
    ((∀ c ∈ entryCalls (runDetections initialTracking ds),
          c.1 = personKey m → c.2.2 + 300000 ≤ t) ∧
        entryCalls (detectionStep (runDetections initialTracking ds)
            (.recognized m t entryOk r)) =
          entryCalls (runDetections initialTracking ds) ++ [(personKey m, t, r)]) ∨
      ((∃ c ∈ entryCalls (runDetections initialTracking ds),
          c.1 = personKey m ∧ t < c.2.2 + 300000) ∧
        detectionStep (runDetections initialTracking ds) (.recognized m t entryOk r) =
          runTimers t (runDetections initialTracking ds)) := by
  rw [timeOrdered_append] at hord
  obtain ⟨hds, hle, _, _⟩ := hord
  have hinv := (DedupInv.initial t0).runDetections ds hds
  have hiff := hinv.mem_iff hle (personKey m)
  by_cases hk : personKey m ∈
      (runTimers t (runDetections initialTracking ds)).recognizedPersons
  · right
    exact ⟨hiff.mp hk, recognizedStep_present t entryOk r hk⟩
  · left
    constructor
    · intro c hc hkey
      by_contra hlt
      exact hk (hiff.mpr ⟨c, hc, hkey, by omega⟩)
    · have := entryCalls_recognizedStep_absent t entryOk r hk
      rw [entryCalls_runTimers] at this
      exact this

/-! ## C8, C9: the recognition dedup set -/

/-- C8: a recognition whose key is in the recognized-persons set is suppressed entirely. For
every state and every match whose key is already in the set, the pass of the loop leaves the
state as it is: no call is made (`handleRecognizedPerson` is not invoked), the set is not
changed and no removal is scheduled. E.g. recognitions of one person at t = 0 (the entry call
returning within the second) and at t = 1 s make exactly one entry call. -/
theorem recognition_with_key_present_is_suppressed (s : TrackingState) (m : FaceMatch)
    (checkedAt : Int) (entryOk : Bool) (resumedAt : Int)
    (h : personKey m ∈ s.recognizedPersons) :
    recognizedStep s m checkedAt entryOk resumedAt = s ∧
      (recognizedStep s m checkedAt entryOk resumedAt).calls = s.calls ∧
      (recognizedStep s m checkedAt entryOk resumedAt).recognizedPersons = s.recognizedPersons ∧
      (recognizedStep s m checkedAt entryOk resumedAt).timers = s.timers ∧
      (∀ (ok1 ok2 : Bool) (r0 r1 : Int), 0 ≤ r0 → r0 ≤ 1000 →
        entryCalls (runDetections initialTracking
            [.recognized m 0 ok1 r0, .recognized m 1000 ok2 r1]) = [(personKey m, 0, r0)]) := by
  have hs := recognizedStep_present checkedAt entryOk resumedAt h
  refine ⟨hs, by rw [hs], by rw [hs], by rw [hs], ?_⟩
  intro ok1 ok2 r0 r1 h0 h1
  have hfirst : personKey m ∉ (runTimers 0 initialTracking).recognizedPersons := by
    simp [runTimers, initialTracking]
  have hinv : DedupInv (runDetections initialTracking [.recognized m 0 ok1 r0]) r0 :=
    (DedupInv.initial 0).runDetections [.recognized m 0 ok1 r0] ⟨le_refl 0, h0, trivial⟩
  have hcalls : entryCalls (runDetections initialTracking [.recognized m 0 ok1 r0]) =
      [(personKey m, 0, r0)] := by
    have := entryCalls_recognizedStep_absent 0 ok1 r0 hfirst
    simpa [runDetections, detectionStep] using this
  have hsecond : personKey m ∈
      (runTimers 1000 (runDetections initialTracking [.recognized m 0 ok1 r0])).recognizedPersons := by
    rw [hinv.mem_iff h1, hcalls]
    exact ⟨_, List.mem_singleton.mpr rfl, rfl, by simp; omega⟩
  have hstep : runDetections initialTracking
      [.recognized m 0 ok1 r0, .recognized m 1000 ok2 r1] =
      runTimers 1000 (runDetections initialTracking [.recognized m 0 ok1 r0]) := by
    show recognizedStep (runTimers 1000 (runDetections initialTracking [.recognized m 0 ok1 r0]))
      m 1000 ok2 r1 = _
    exact recognizedStep_present 1000 ok2 r1 hsecond
  rw [hstep, entryCalls_runTimers, hcalls]

/-- C8 (witness): student 7 at t = 0 and t = 1 s. -/
theorem recognition_with_key_present_is_suppressed_witness :
    entryCalls (runDetections initialTracking
        [.recognized matchStudent7 0 true 500, .recognized matchStudent7 1000 true 1500]) =
      [(personKey matchStudent7, 0, 500)] :=
  (recognition_with_key_present_is_suppressed
    (runDetections initialTracking [.recognized matchStudent7 0 true 500]) matchStudent7
    1000 true 1500 (by decide)).2.2.2.2 true true 500 1500 (by decide) (by decide)

/-- C9 (counterexample): the window is not measured from the start of the entry call. Student
7 is recognized at t = 0 and the entry call returns at t = 4 s; at t = 303 s no entry call for
the student was triggered in the preceding 5 minutes, yet the recognition triggers none (the
key stays in the set until t = 304 s). -/
theorem dedup_window_is_not_measured_from_call_start :
    timeOrdered 0 [.recognized matchStudent7 0 true 4000,
        .recognized matchStudent7 303000 true 303000] ∧
      (∀ c ∈ entryCalls (runDetections initialTracking [.recognized matchStudent7 0 true 4000]),
        c.1 = personKey matchStudent7 → c.2.1 + 5 * 60 * 1000 < 303000) ∧
      entryCalls (detectionStep
          (runDetections initialTracking [.recognized matchStudent7 0 true 4000])
          (.recognized matchStudent7 303000 true 303000)) =
        entryCalls (runDetections initialTracking [.recognized matchStudent7 0 true 4000]) := by
  refine ⟨?_, by decide, by decide⟩
  simp [timeOrdered]

/-- C9 (amended): the dedup TTL is fixed at exactly 5 minutes from the insertion of the key,
which happens when the entry call returns, and does not slide. For every stream of detections
in time order from mount on, a recognition at time `t` triggers an entry call if and only if
no entry call for that key returned in the 5 minutes before `t`, whatever was recognized in
between; a recognition that triggers none changes nothing. E.g. for recognitions at t = 0,
t = 1 s and t = 301 s whose entry calls return at once, exactly those at t = 0 and t = 301 s
trigger an entry call. -/
theorem dedup_ttl_counts_from_key_insertion (t0 : Int) (ds : List Detection) (m : FaceMatch)
    (t : Int) (entryOk : Bool) (r : Int)
    (hord : timeOrdered t0 (ds ++ [.recognized m t entryOk r])) :
    (entryCalls (detectionStep (runDetections initialTracking ds) (.recognized m t entryOk r)) =
        entryCalls (runDetections initialTracking ds) ++ [(personKey m, t, r)] ↔
      ∀ c ∈ entryCalls (runDetections initialTracking ds),
        c.1 = personKey m → c.2.2 + 5 * 60 * 1000 ≤ t) ∧
    (entryCalls (detectionStep (runDetections initialTracking ds) (.recognized m t entryOk r)) =
        entryCalls (runDetections initialTracking ds) ++ [(personKey m, t, r)] ∨
      detectionStep (runDetections initialTracking ds) (.recognized m t entryOk r) =
        runTimers t (runDetections initialTracking ds)) ∧
    (∀ ok1 ok2 ok3 : Bool,
      entryCalls (runDetections initialTracking
          [.recognized m 0 ok1 0, .recognized m 1000 ok2 1000,
           .recognized m 301000 ok3 301000]) =
        [(personKey m, 0, 0), (personKey m, 301000, 301000)]) := by
  have hne : ∀ (l : List (String × Int × Int)) (x : String × Int × Int), l ≠ l ++ [x] := by
    intro l x h
    have := congrArg List.length h
    simp at this
  refine ⟨?_, ?_, ?_⟩
  · rcases detectionStep_recognized_cases t0 ds m t entryOk r hord with ⟨h1, h2⟩ | ⟨h1, h2⟩
    · constructor
      · intro _ c hc hkey
        have := h1 c hc hkey
        omega
      · intro _
        exact h2
    · obtain ⟨c, hc, hkey, hlt⟩ := h1
      constructor
      · intro h
        rw [h2, entryCalls_runTimers] at h
        exact absurd h (hne _ _)
      · intro h
        have := h c hc hkey
        omega
  · rcases detectionStep_recognized_cases t0 ds m t entryOk r hord with ⟨_, h2⟩ | ⟨_, h2⟩
    · exact Or.inl h2
    · exact Or.inr h2
  · intro ok1 ok2 ok3
    have e1 : entryCalls (runDetections initialTracking [.recognized m 0 ok1 0]) =
        [(personKey m, 0, 0)] := by
      rcases detectionStep_recognized_cases 0 [] m 0 ok1 0 (by simp [timeOrdered])
        with ⟨_, h2⟩ | ⟨⟨c, hc, _⟩, _⟩
      · exact h2
      · cases hc
    have e2 : entryCalls (runDetections initialTracking
        [.recognized m 0 ok1 0, .recognized m 1000 ok2 1000]) = [(personKey m, 0, 0)] := by
      rcases detectionStep_recognized_cases 0 [.recognized m 0 ok1 0] m 1000 ok2 1000
        (by simp [timeOrdered]) with ⟨h1, _⟩ | ⟨_, h2⟩
      · rw [e1] at h1
        have := h1 _ (List.mem_singleton.mpr rfl) rfl
        simp at this
      · show entryCalls (detectionStep (runDetections initialTracking [.recognized m 0 ok1 0])
          (.recognized m 1000 ok2 1000)) = _
        rw [h2, entryCalls_runTimers, e1]
    rcases detectionStep_recognized_cases 0
        [.recognized m 0 ok1 0, .recognized m 1000 ok2 1000] m 301000 ok3 301000
        (by simp [timeOrdered]) with ⟨_, h2⟩ | ⟨⟨c, hc, _, hlt⟩, _⟩
    · rw [e2] at h2
      exact h2
    · rw [e2, List.mem_singleton] at hc
      rw [hc] at hlt
      simp at hlt

/-- C9 (witness): student 7 at t = 0 (the call returns at t = 4 s), then at t = 304 s, when
the removal has just run: the second recognition triggers an entry call. -/
theorem dedup_ttl_counts_from_key_insertion_witness :
    entryCalls (detectionStep
        (runDetections initialTracking [.recognized matchStudent7 0 true 4000])
        (.recognized matchStudent7 304000 true 304500)) =
      entryCalls (runDetections initialTracking [.recognized matchStudent7 0 true 4000]) ++
        [(personKey matchStudent7, 304000, 304500)] :=
  ((dedup_ttl_counts_from_key_insertion 0 [.recognized matchStudent7 0 true 4000]
      matchStudent7 304000 true 304500 (by simp [timeOrdered])).1).mpr (by decide)

/-! ## C10: the admission of unknown detections -/

/-- C10: an unmatched detection evaluated at time `now` is admitted if and only if
`lastUnknownDetectionRef` is unset (`0`) or `now - lastUnknownDetectionRef` is strictly
greater than 10 s; a detection exactly 10 s after the last admission is suppressed. An
admitted detection runs `handleUnknownPerson` (which starts with the image extraction) and
sets the timestamp to `now`; a suppressed one leaves the state as it is: no image extraction,
no persistence call, no change of the timestamp. -/
theorem unknown_admission_decision (s : TrackingState) (now : Int) (faceImage : Option String)
    (saved : Bool) :
    (unknownAdmitted s now = true ↔
        (s.lastUnknownDetection = 0 ∨ now - s.lastUnknownDetection > 10000)) ∧
      (unknownAdmitted s now = true →
        unknownStep s now faceImage saved =
          { s with calls := s.calls ++ handleUnknownPerson now faceImage saved,
                   lastUnknownDetection := now } ∧
        ∃ rest, handleUnknownPerson now faceImage saved = .extractFaceImage now :: rest) ∧
      (unknownAdmitted s now = false →
        unknownStep s now faceImage saved = s ∧
        (unknownStep s now faceImage saved).calls = s.calls ∧
        (unknownStep s now faceImage saved).lastUnknownDetection = s.lastUnknownDetection) ∧
      (s.lastUnknownDetection ≠ 0 →
        unknownAdmitted s (s.lastUnknownDetection + 10000) = false ∧
        unknownAdmitted s (s.lastUnknownDetection + 10001) = true) := by
  refine ⟨?_, ?_, ?_, ?_⟩
  · simp [unknownAdmitted]
  · intro h
    refine ⟨?_, _, rfl⟩
    unfold unknownStep
    rw [if_pos h]
  · intro h
    have hs : unknownStep s now faceImage saved = s := by
      unfold unknownStep
      rw [if_neg (by rw [h]; simp)]
    exact ⟨hs, by rw [hs], by rw [hs]⟩
  · intro h
    simp [unknownAdmitted, h]

/-- C10 (witness): after an admission at t = 5 ms a detection at t = 10005 ms is suppressed and
changes nothing, and one at t = 10006 ms is admitted. -/
theorem unknown_admission_decision_witness :
    unknownStep (runDetections initialTracking [.unknown 5 (some "face") true]) 10005
        (some "face") true =
      runDetections initialTracking [.unknown 5 (some "face") true] ∧
    unknownAdmitted (runDetections initialTracking [.unknown 5 (some "face") true]) 10006 =
      true :=
  ⟨((unknown_admission_decision (runDetections initialTracking [.unknown 5 (some "face") true])
      10005 (some "face") true).2.2.1 (by decide)).1,
   ((unknown_admission_decision (runDetections initialTracking [.unknown 5 (some "face") true])
      10006 (some "face") true).2.2.2 (by decide)).2⟩


/-! ## C19: a tick that fires while the previous one is processing -/

/-- C19: a tick that fires while the previous tick is still processing is dropped entirely.
For every firing of the interval at which `processingRef` is true the callback leaves the
state as it is: `detectFaces` is not called, no entry or unknown-capture call is made, and
the dedup set, the cooldown timestamp and the processing flag are unchanged; nothing of the
dropped tick is kept, so every later tick runs as if it had never fired. -/
theorem tick_while_processing_is_dropped (s : TrackingState) (i j : TickInput)
    (h : s.processing = true) :
    detectionTick s i = s ∧
      (detectionTick s i).calls = s.calls ∧
      (detectionTick s i).recognizedPersons = s.recognizedPersons ∧
      (detectionTick s i).timers = s.timers ∧
      (detectionTick s i).lastUnknownDetection = s.lastUnknownDetection ∧
      (detectionTick s i).processing = true ∧
      detectionTick (detectionTick s i) j = detectionTick s j := by
  have hs : detectionTick s i = s := by
    unfold detectionTick
    rw [if_pos h]
  refine ⟨hs, ?_, ?_, ?_, ?_, ?_, ?_⟩ <;> rw [hs]
  exact h

/-- C19 (witness): a tick with one unmatched face that fires during processing. -/
theorem tick_while_processing_is_dropped_witness :
    detectionTick { initialTracking with processing := true }
        { webcam := true, modelsLoaded := true, videoReady := true,
          detections := [.unknown 1000 (some "face") true] } =
      { initialTracking with processing := true } :=
  (tick_while_processing_is_dropped { initialTracking with processing := true }
    { webcam := true, modelsLoaded := true, videoReady := true,
      detections := [.unknown 1000 (some "face") true] }
    { webcam := true, modelsLoaded := true, videoReady := true, detections := [] }
    rfl).1

/-! ## C20: the error taxonomy of `errorHandler` -/

/-- C20: the error taxonomy maps to fixed statuses. A `ValidationError` gives status 422, a
`NotFoundError` 404 and a `ConflictError` 409, each with the error's own message and
`success = false`; and every error that is no `ZodError`, carries none of the Prisma codes
the handler knows, is no `AppError` and no JWT error gives status 500 with `success = false`,
and its message is the fixed text 'Internal server error' whenever `NODE_ENV` is not
'development'. -/
theorem error_taxonomy_has_fixed_statuses (nodeEnv : String) (message : String)
    (optMessage : Option String) (err : ErrorInfo)
    (hzod : err.zodIssues = none)
    (hcode : err.code ≠ some "P2002" ∧ err.code ≠ some "P2025" ∧ err.code ≠ some "P2003")
    (happ : err.appStatusCode = none)
    (hjwt : err.name ≠ "JsonWebTokenError" ∧ err.name ≠ "TokenExpiredError") :
    errorHandler nodeEnv (ValidationError message) =
        { status := 422, success := false, message := message, errors := none } ∧
      errorHandler nodeEnv (NotFoundError optMessage) =
        { status := 404, success := false, message := (NotFoundError optMessage).message,
          errors := none } ∧
      errorHandler nodeEnv (ConflictError optMessage) =
        { status := 409, success := false, message := (ConflictError optMessage).message,
          errors := none } ∧
      (errorHandler nodeEnv err).status = 500 ∧
      (errorHandler nodeEnv err).success = false ∧
      (nodeEnv ≠ "development" → (errorHandler nodeEnv err).message = "Internal server error") ∧
      (nodeEnv = "development" → (errorHandler nodeEnv err).message = err.message) := by
  refine ⟨?_, ?_, ?_, ?_, ?_, ?_, ?_⟩
  · simp [errorHandler, ValidationError, AppError, errorResponse, HTTP_STATUS_UNPROCESSABLE_ENTITY]
  · simp [errorHandler, NotFoundError, AppError, errorResponse, HTTP_STATUS_NOT_FOUND]
  · simp [errorHandler, ConflictError, AppError, errorResponse, HTTP_STATUS_CONFLICT]
  · simp [errorHandler, hzod, hcode.1, hcode.2.1, hcode.2.2, happ, hjwt.1, hjwt.2, errorResponse,
      HTTP_STATUS_INTERNAL_SERVER_ERROR]
  · simp [errorHandler, hzod, hcode.1, hcode.2.1, hcode.2.2, happ, hjwt.1, hjwt.2, errorResponse]
  · intro hdev
    simp [errorHandler, hzod, hcode.1, hcode.2.1, hcode.2.2, happ, hjwt.1, hjwt.2, errorResponse,
      hdev]
  · intro hdev
    simp [errorHandler, hzod, hcode.1, hcode.2.1, hcode.2.2, happ, hjwt.1, hjwt.2, errorResponse,
      hdev]

/-- C20 (witness): a plain `Error('boom')` in production. -/
theorem error_taxonomy_has_fixed_statuses_witness :
    (errorHandler "production"
        { zodIssues := none, code := none, appStatusCode := none, name := "Error",
          message := "boom" }).status = 500 ∧
      (errorHandler "production"
        { zodIssues := none, code := none, appStatusCode := none, name := "Error",
          message := "boom" }).message = "Internal server error" ∧
      errorHandler "production" (ValidationError "bad kind") =
        { status := 422, success := false, message := "bad kind", errors := none } :=
  have h := error_taxonomy_has_fixed_statuses "production" "bad kind" none
    { zodIssues := none, code := none, appStatusCode := none, name := "Error",
      message := "boom" } rfl (by decide) rfl (by decide)
  ⟨h.2.2.2.1, h.2.2.2.2.2.1 (by decide), h.1⟩

/-! ## C12, C13: the crop region of `extractFaceImage` -/

/-- C12: crop padding away from the frame origin. For every bounding box with `x ≥ 20` and
`y ≥ 20` the crop region computed by `extractFaceImage` is `x - 20, y - 20, w + 40, h + 40`;
e.g. the box `50, 50, 100, 100` gives `30, 30, 140, 140`. -/
theorem crop_away_from_origin {α : Type} [LinearOrderedCommRing α] (box : Box α)
    (hx : 20 ≤ box.x) (hy : 20 ≤ box.y) :
    extractFaceImageRegion box =
        { x := box.x - 20, y := box.y - 20, width := box.width + 40,
          height := box.height + 40 } ∧
      extractFaceImageRegion boxExample =
        { x := 30, y := 30, width := 140, height := 140 } := by
  refine ⟨?_, by decide⟩
  have h40 : (20 : α) * 2 = 40 := by norm_num
  simp only [extractFaceImageRegion, h40]
  rw [max_eq_right (sub_nonneg.mpr hx), max_eq_right (sub_nonneg.mpr hy)]

/-- C12 (witness): the box of the example. -/
theorem crop_away_from_origin_witness :
    extractFaceImageRegion boxExample =
      { x := boxExample.x - 20, y := boxExample.y - 20, width := boxExample.width + 40,
        height := boxExample.height + 40 } :=
  (crop_away_from_origin boxExample (by decide) (by decide)).1

/-- C13 (counterexample): on a 400 x 400 frame the box `10, 50, 100, 100` lies inside the
frame, but its crop `0, 30, 140, 140` is not the padded box cut to the frame
(`0, 30, 130, 140`): its right edge is 140, not `x + w + 20 = 130`. And the crop of the box
`300, 50, 100, 100` ends at 420, past the right frame edge. -/
theorem crop_is_not_clamped_to_the_frame :
    boxNearLeftEdge.insideFrame 400 400 ∧
      extractFaceImageRegion boxNearLeftEdge ≠ paddedBoxInFrame 400 400 boxNearLeftEdge ∧
      (extractFaceImageRegion boxNearLeftEdge).x + (extractFaceImageRegion boxNearLeftEdge).width
        ≠ boxNearLeftEdge.x + boxNearLeftEdge.width + 20 ∧
      boxAtRightEdge.insideFrame 400 400 ∧
      400 < (extractFaceImageRegion boxAtRightEdge).x +
        (extractFaceImageRegion boxAtRightEdge).width := by
  refine ⟨?_, by decide, by decide, ?_, by decide⟩ <;>
    simp [Box.insideFrame, boxNearLeftEdge, boxAtRightEdge]

/-- C13 (amended): the crop is the padded box with only its origin clamped. For every frame
`W x H` and every bounding box (lying inside the frame or not), the crop region has its origin at the
box origin moved by 20 pixels and clamped to 0 on each axis and the size `(w + 40) x (h + 40)`;
it equals the box expanded by 20 pixels on each side and intersected with the frame exactly
when `x ≥ 20`, `y ≥ 20`, `x + w + 20 ≤ W` and `y + h + 20 ≤ H`; and for a box with `x < 20`
the crop's right edge is `w + 40`. -/
theorem crop_clamps_only_its_origin {α : Type} [LinearOrderedCommRing α] (W H : α)
    (box : Box α) :
    extractFaceImageRegion box =
        { x := max 0 (box.x - 20), y := max 0 (box.y - 20), width := box.width + 40,
          height := box.height + 40 } ∧
      (extractFaceImageRegion box = paddedBoxInFrame W H box ↔
        (20 ≤ box.x ∧ box.x + box.width + 20 ≤ W) ∧
          (20 ≤ box.y ∧ box.y + box.height + 20 ≤ H)) ∧
      (box.x < 20 →
        (extractFaceImageRegion box).x + (extractFaceImageRegion box).width =
          box.width + 40) := by
  have h40 : (20 : α) * 2 = 40 := by norm_num
  have hreg : extractFaceImageRegion box =
      { x := max 0 (box.x - 20), y := max 0 (box.y - 20), width := box.width + 40,
        height := box.height + 40 } := by
    simp only [extractFaceImageRegion, h40]
  have hdim : ∀ (a w L : α),
      (w + 40 = min L (a + w + 20) - max 0 (a - 20) ↔ 20 ≤ a ∧ a + w + 20 ≤ L) := by
    intro a w L
    constructor
    · intro h
      rcases le_total 0 (a - 20) with h1 | h1 <;> rcases le_total L (a + w + 20) with h2 | h2
      · rw [max_eq_right h1, min_eq_left h2] at h
        exact ⟨by linarith, by linarith⟩
      · rw [max_eq_right h1, min_eq_right h2] at h
        exact ⟨by linarith, h2⟩
      · rw [max_eq_left h1, min_eq_left h2] at h
        exact ⟨by linarith, by linarith⟩
      · rw [max_eq_left h1, min_eq_right h2] at h
        exact ⟨by linarith, h2⟩
    · rintro ⟨h1, h2⟩
      rw [max_eq_right (by linarith), min_eq_right h2]
      ring
  refine ⟨hreg, ?_, ?_⟩
  · rw [hreg]
    simp only [paddedBoxInFrame, Box.mk.injEq, true_and]
    rw [hdim, hdim]
  · intro hx
    rw [hreg]
    simp only
    rw [max_eq_left (by linarith)]
    ring

/-- C13 (witness): the box of the specification's example on a 400 x 400 frame. -/
theorem crop_clamps_only_its_origin_witness :
    extractFaceImageRegion boxExample = paddedBoxInFrame 400 400 boxExample ↔
      (20 ≤ boxExample.x ∧ boxExample.x + boxExample.width + 20 ≤ 400) ∧
        (20 ≤ boxExample.y ∧ boxExample.y + boxExample.height + 20 ≤ 400) :=
  (crop_clamps_only_its_origin 400 400 boxExample).2.1


/-! ## Facts about the unknown-face handlers -/

theorem find?_unique_unknown {l : List UnknownFaces} {r : UnknownFaces}
    (hr : r ∈ l) (huniq : (l.map (fun x => x.Unknown_ID)).Nodup) :
    l.find? (fun x => x.Unknown_ID == r.Unknown_ID) = some r := by
  induction l with
  | nil => cases hr
  | cons a t ih =>
    simp only [List.map_cons, List.nodup_cons] at huniq
    rcases List.mem_cons.mp hr with rfl | hmem
    · simp
    · have hne : a.Unknown_ID ≠ r.Unknown_ID := by
        intro heq
        exact huniq.1 (heq ▸ List.mem_map_of_mem _ hmem)
      simp [List.find?_cons, hne, ih hmem huniq.2]

theorem unknown_id_eq_iff {l : List UnknownFaces} {r x : UnknownFaces}
    (hr : r ∈ l) (hx : x ∈ l) (huniq : (l.map (fun x => x.Unknown_ID)).Nodup) :
    x.Unknown_ID = r.Unknown_ID ↔ x = r :=
  ⟨fun h => List.inj_on_of_nodup_map huniq hx hr h, fun h => by rw [h]⟩

theorem notesUpdate_ok {notes : JsVal} (h : notes.falsyOrString) :
    ∃ n, notesUpdate notes = .ok n := by
  unfold notesUpdate
  rcases h with h | ⟨s, rfl⟩
  · exact ⟨none, by simp [h]⟩
  · by_cases hs : (JsVal.str s).truthy = true
    · exact ⟨some s, by simp [hs]⟩
    · exact ⟨none, by simp [hs]⟩

/-- The successful run of `updateUnknownFaceStatus`: a valid status, an id that parses to the
id of a stored row, and `notes` the client accepts. -/
theorem updateUnknownFaceStatus_ok {store : UnknownStore} {unknownId : String} {body : ReqBody}
    {st : String} {r : UnknownFaces} {n : Option String}
    (hs : body.get "status" = .str st) (hv : st ∈ validStatuses)
    (hn : notesUpdate (body.get "notes") = .ok n)
    (hr : r ∈ store.unknownFaces) (hp : parseIntStr unknownId = some r.Unknown_ID)
    (huniq : (store.unknownFaces.map (fun x => x.Unknown_ID)).Nodup) :
    updateUnknownFaceStatus store unknownId body =
      ({ store with unknownFaces := (store.unknownFaces.map
            (fun x => if x = r then r.withStatus st n else x)) },
       { status := 200, success := true, message := some "Status updated successfully",
         count := none,
         data := some { Unknown_ID := r.Unknown_ID, Status := st,
                        Notes := (r.withStatus st n).Notes },
         error := none }) := by
  have htruthy : (JsVal.str st).truthy = true := by
    simp only [validStatuses, List.mem_cons, List.mem_singleton, List.not_mem_nil, or_false] at hv
    rcases hv with rfl | rfl | rfl <;> decide
  have hcontains : (validStatuses.map JsVal.str).contains (JsVal.str st) = true := by
    simp only [validStatuses, List.mem_cons, List.mem_singleton, List.not_mem_nil, or_false] at hv
    rcases hv with rfl | rfl | rfl <;> decide
  have hmap : store.unknownFaces.map
      (fun x => if x.Unknown_ID = r.Unknown_ID then x.withStatus st n else x) =
      store.unknownFaces.map (fun x => if x = r then r.withStatus st n else x) := by
    apply List.map_congr_left
    intro x hx
    by_cases hxr : x = r
    · subst hxr; simp
    · have hne : x.Unknown_ID ≠ r.Unknown_ID := fun h =>
        hxr ((unknown_id_eq_iff hr hx huniq).mp h)
      simp [hxr, hne]
  unfold updateUnknownFaceStatus
  simp only [hs, htruthy, hcontains, hp, updateUnknownFace, hn, find?_unique_unknown hr huniq,
    hmap]
  simp [UnknownFaces.withStatus]

theorem validStatuses_contains_iff (v : JsVal) :
    (validStatuses.map JsVal.str).contains v = true ↔ ∃ st ∈ validStatuses, v = .str st := by
  simp only [List.contains_iff_exists_mem_beq, List.mem_map, beq_iff_eq]
  constructor
  · rintro ⟨w, ⟨st, hst, rfl⟩, hv⟩
    exact ⟨st, hst, hv⟩
  · rintro ⟨st, hst, hv⟩
    exact ⟨_, ⟨st, hst, rfl⟩, hv⟩

/-- A status that is none of the three is answered with `400` and nothing is written. -/
theorem updateUnknownFaceStatus_invalid (store : UnknownStore) (unknownId : String)
    (body : ReqBody) (h : ¬ ∃ st ∈ validStatuses, body.get "status" = .str st) :
    (updateUnknownFaceStatus store unknownId body).1 = store ∧
      (updateUnknownFaceStatus store unknownId body).2.status = 400 := by
  unfold updateUnknownFaceStatus
  simp only
  split
  · exact ⟨rfl, rfl⟩
  · split
    · exact ⟨rfl, rfl⟩
    · rename_i hin
      exfalso
      apply h
      rw [← validStatuses_contains_iff]
      simpa using hin

/-- A status that is one of the three is never answered with `400`. -/
theorem updateUnknownFaceStatus_valid (store : UnknownStore) (unknownId : String)
    (body : ReqBody) (h : ∃ st ∈ validStatuses, body.get "status" = .str st) :
    (updateUnknownFaceStatus store unknownId body).2.status = 200 ∨
      (updateUnknownFaceStatus store unknownId body).2.status = 500 := by
  obtain ⟨st, hst, hs⟩ := h
  have htruthy : (JsVal.str st).truthy = true := by
    simp only [validStatuses, List.mem_cons, List.mem_singleton, List.not_mem_nil, or_false] at hst
    rcases hst with rfl | rfl | rfl <;> decide
  have hcontains : (validStatuses.map JsVal.str).contains (JsVal.str st) = true :=
    (validStatuses_contains_iff _).mpr ⟨st, hst, rfl⟩
  unfold updateUnknownFaceStatus
  simp only [hs, htruthy, hcontains]
  cases parseIntStr unknownId with
  | none => right; simp [unknownFailed]
  | some id =>
    cases hu : updateUnknownFace store id st (body.get "notes") with
    | error e => right; simp [unknownFailed, hu]
    | ok p => left; simp [hu]


theorem createUnknownFace_ok {store : UnknownStore} {image : String} {confidence : JsVal}
    {now : Int} {notes : JsVal} {store1 : UnknownStore} {row : UnknownFaces}
    (h : createUnknownFace store image confidence now notes = .ok (store1, row)) :
    store1 = { unknownFaces := store.unknownFaces ++ [row],
               nextUnknownId := store.nextUnknownId + 1 } ∧
      row.Unknown_ID = store.nextUnknownId ∧ row.Captured_Image = some image ∧
      row.Zone_id = 1 ∧ row.Confidence = confidence ∧ row.DetectedTime = now ∧
      row.Status = "PENDING" ∧ notes = .str (row.Notes.getD "") := by
  unfold createUnknownFace at h
  split at h
  · injection h with h
    injection h with h1 h2
    subst h1 h2
    exact ⟨rfl, rfl, rfl, rfl, rfl, rfl, rfl, rfl⟩
  · cases h

/-- The ways `logUnknownPerson` ends: without a write and not with `201`, or with one new
row and `201`. -/
theorem logUnknownPerson_cases (now : Int) (store : UnknownStore) (body : ReqBody) :
    ((logUnknownPerson now store body).1 = store ∧
        (logUnknownPerson now store body).2.status ≠ 201) ∨
      ∃ image row, body.get "capturedImage" = .str image ∧
        createUnknownFace store (stripDataUrlHeader image)
            (if (body.get "confidence").truthy then body.get "confidence" else .num 0) now
            (if (body.get "notes").truthy then body.get "notes"
              else .str "Unknown person detected") =
          .ok ((logUnknownPerson now store body).1, row) ∧
        (logUnknownPerson now store body).2 =
          { status := 201, success := true,
            message := some "Unknown person logged successfully", count := none,
            data := some { Unknown_ID := row.Unknown_ID, DetectedTime := row.DetectedTime,
                           Status := row.Status },
            error := none } := by
  unfold logUnknownPerson
  simp only
  split
  · left; exact ⟨rfl, by simp⟩
  · split
    · rename_i image himage
      split
      · rename_i store1 row hc
        right
        exact ⟨image, row, himage, hc, rfl⟩
      · left; exact ⟨rfl, by simp [unknownFailed]⟩
    · left; exact ⟨rfl, by simp [unknownFailed]⟩

/-! ## C14, C15: the status of an unknown detection -/

/-- C14 (counterexample): record 1 is stored with status IDENTIFIED; the call of
`updateUnknownFaceStatus` with status 'PENDING' answers `200` and the record is PENDING
afterwards. -/
theorem identified_status_is_reset_to_pending :
    storeIdentified.unknownFaces.map (fun r => (r.Unknown_ID, r.Status)) =
        [(1, "IDENTIFIED")] ∧
      (updateUnknownFaceStatus storeIdentified "1" bodyStatusPending).2.status = 200 ∧
      (updateUnknownFaceStatus storeIdentified "1" bodyStatusPending).1.unknownFaces.map
          (fun r => (r.Unknown_ID, r.Status)) = [(1, "PENDING")] := by
  decide

/-- C14 (amended): PENDING is the status `logUnknownPerson` gives every detection it stores,
and no status is terminal: for every stored unknown detection, whatever its current status
(also IDENTIFIED or IGNORED), a call of `updateUnknownFaceStatus` for its id with status
'PENDING', 'IDENTIFIED' or 'IGNORED' (and `notes` absent or a string) answers `200`, sets its
status to the requested one and leaves every other record as it is. -/
theorem status_can_be_set_from_any_status (now : Int) (store : UnknownStore)
    (unknownId : String) (body captureBody : ReqBody) (st : String) (r : UnknownFaces)
    (hs : body.get "status" = .str st) (hv : st ∈ validStatuses)
    (hn : (body.get "notes").falsyOrString)
    (hr : r ∈ store.unknownFaces) (hp : parseIntStr unknownId = some r.Unknown_ID)
    (huniq : (store.unknownFaces.map (fun x => x.Unknown_ID)).Nodup) :
    (updateUnknownFaceStatus store unknownId body).2.status = 200 ∧
      (∃ r1, r1.Status = st ∧ r1.Unknown_ID = r.Unknown_ID ∧
        (updateUnknownFaceStatus store unknownId body).1.unknownFaces =
          store.unknownFaces.map (fun x => if x = r then r1 else x)) ∧
      (∀ x ∈ (logUnknownPerson now store captureBody).1.unknownFaces,
        x ∈ store.unknownFaces ∨ x.Status = "PENDING") := by
  obtain ⟨n, hnotes⟩ := notesUpdate_ok hn
  have hok := updateUnknownFaceStatus_ok hs hv hnotes hr hp huniq
  refine ⟨by rw [hok], ⟨r.withStatus st n, rfl, rfl, by rw [hok]⟩, ?_⟩
  intro x hx
  rcases logUnknownPerson_cases now store captureBody with ⟨h1, _⟩ | ⟨image, row, _, hc, _⟩
  · rw [h1] at hx
    exact Or.inl hx
  · obtain ⟨hstore, _, _, _, _, _, hstatus, _⟩ := createUnknownFace_ok hc
    rw [hstore] at hx
    simp only [List.mem_append, List.mem_singleton] at hx
    rcases hx with hx | hx
    · exact Or.inl hx
    · right; rw [hx]; exact hstatus

/-- C14 (witness): the amended claim at the record of the counterexample. -/
theorem status_can_be_set_from_any_status_witness :
    (updateUnknownFaceStatus storeIdentified "1" bodyStatusPending).2.status = 200 :=
  (status_can_be_set_from_any_status 100 storeIdentified "1" bodyStatusPending bodyCapture
    "PENDING"
    { Unknown_ID := 1, Captured_Image := some "AAAA", Zone_id := 1, Confidence := .num 0,
      DetectedTime := 50, Status := "IDENTIFIED", Notes := some "Detected by live camera" }
    (by decide) (by decide) (Or.inl (by decide)) (by decide) (by decide) (by decide)).1

/-- C15: `updateUnknownFaceStatus` validates the status before any write. For every request
it answers `400` and leaves the store unchanged if and only if `status` is missing or is not
one of 'PENDING', 'IDENTIFIED', 'IGNORED'; otherwise, for an existing id (and `notes` absent
or a string), it answers `200` with the id, status and notes of the updated record, whose
status equals the requested one. -/
theorem updateUnknownFaceStatus_validates_status (store : UnknownStore) (unknownId : String)
    (body : ReqBody) :
    (((updateUnknownFaceStatus store unknownId body).2.status = 400 ∧
        (updateUnknownFaceStatus store unknownId body).1 = store) ↔
      ¬ ∃ st ∈ validStatuses, body.get "status" = .str st) ∧
    (∀ (st : String) (r : UnknownFaces), body.get "status" = .str st → st ∈ validStatuses →
      (body.get "notes").falsyOrString → r ∈ store.unknownFaces →
      parseIntStr unknownId = some r.Unknown_ID →
      (store.unknownFaces.map (fun x => x.Unknown_ID)).Nodup →
      ∃ updated, updated ∈ (updateUnknownFaceStatus store unknownId body).1.unknownFaces ∧
        updated.Unknown_ID = r.Unknown_ID ∧ updated.Status = st ∧
        (updateUnknownFaceStatus store unknownId body).2.status = 200 ∧
        (updateUnknownFaceStatus store unknownId body).2.data =
          some { Unknown_ID := updated.Unknown_ID, Status := updated.Status,
                 Notes := updated.Notes }) := by
  constructor
  · constructor
    · rintro ⟨h400, _⟩ hvalid
      rcases updateUnknownFaceStatus_valid store unknownId body hvalid with h | h <;>
        rw [h400] at h <;> cases h
    · intro hinvalid
      have h := updateUnknownFaceStatus_invalid store unknownId body hinvalid
      exact ⟨h.2, h.1⟩
  · intro st r hs hv hn hr hp huniq
    obtain ⟨n, hnotes⟩ := notesUpdate_ok hn
    have hok := updateUnknownFaceStatus_ok hs hv hnotes hr hp huniq
    refine ⟨r.withStatus st n, ?_, rfl, rfl, by rw [hok], by rw [hok]; rfl⟩
    rw [hok]
    simp only [List.mem_map]
    exact ⟨r, hr, by simp⟩

/-- C15 (witness): an unknown status is refused, and 'PENDING' for record 1 is written. -/
theorem updateUnknownFaceStatus_validates_status_witness :
    ((updateUnknownFaceStatus storeIdentified "1"
          (.object [("status", .str "DONE")])).2.status = 400 ∧
        (updateUnknownFaceStatus storeIdentified "1"
          (.object [("status", .str "DONE")])).1 = storeIdentified) ∧
      ∃ updated, updated ∈
          (updateUnknownFaceStatus storeIdentified "1" bodyStatusPending).1.unknownFaces ∧
        updated.Unknown_ID = 1 ∧ updated.Status = "PENDING" ∧
        (updateUnknownFaceStatus storeIdentified "1" bodyStatusPending).2.status = 200 ∧
        (updateUnknownFaceStatus storeIdentified "1" bodyStatusPending).2.data =
          some { Unknown_ID := updated.Unknown_ID, Status := updated.Status,
                 Notes := updated.Notes } :=
  ⟨(updateUnknownFaceStatus_validates_status storeIdentified "1"
      (.object [("status", .str "DONE")])).1.mpr (by decide),
   (updateUnknownFaceStatus_validates_status storeIdentified "1" bodyStatusPending).2 "PENDING"
      { Unknown_ID := 1, Captured_Image := some "AAAA", Zone_id := 1, Confidence := .num 0,
        DetectedTime := 50, Status := "IDENTIFIED", Notes := some "Detected by live camera" }
      (by decide) (by decide) (Or.inl (by decide)) (by decide) (by decide) (by decide)⟩


/-! ## C16: an admitted unknown detection is stored as PENDING -/

/-- C16: an admitted unknown detection is persisted as PENDING. For every request with a
non-empty `capturedImage` (a string; `confidence` absent or a number, `notes` absent or a
string), `logUnknownPerson` inserts exactly one row, with `Status = 'PENDING'`, `Zone_id = 1`
and `Confidence` defaulting to 0 when absent, and answers `201` with that row's id,
`DetectedTime` and status 'PENDING'; for a request without `capturedImage` it answers `400`
and inserts nothing. -/
theorem logUnknownPerson_persists_pending (now : Int) (store : UnknownStore) (body : ReqBody) :
    (∀ image : String, body.get "capturedImage" = .str image → image ≠ "" →
      (body.get "confidence").falsyOrNumber → (body.get "notes").falsyOrString →
      ∃ row : UnknownFaces,
        (logUnknownPerson now store body).1 =
          { unknownFaces := store.unknownFaces ++ [row],
            nextUnknownId := store.nextUnknownId + 1 } ∧
        row.Unknown_ID = store.nextUnknownId ∧ row.Status = "PENDING" ∧ row.Zone_id = 1 ∧
        row.DetectedTime = now ∧
        ((body.get "confidence").truthy = false → row.Confidence = .num 0) ∧
        ((body.get "confidence").truthy = true → row.Confidence = body.get "confidence") ∧
        (logUnknownPerson now store body).2.status = 201 ∧
        (logUnknownPerson now store body).2.success = true ∧
        (logUnknownPerson now store body).2.data =
          some { Unknown_ID := row.Unknown_ID, DetectedTime := row.DetectedTime,
                 Status := "PENDING" }) ∧
    ((body.get "capturedImage").truthy = false →
      (logUnknownPerson now store body).2.status = 400 ∧
        (logUnknownPerson now store body).1 = store) := by
  constructor
  · intro image himage hne hconf hnotes
    have htruthy : (body.get "capturedImage").truthy = true := by
      rw [himage]
      simpa [JsVal.truthy] using hne
    have hnum : (if (body.get "confidence").truthy then body.get "confidence"
        else JsVal.num 0).isNumber = true := by
      rcases hconf with h | h
      · simp [h, JsVal.isNumber]
      · by_cases ht : (body.get "confidence").truthy = true
        · simp [ht, h]
        · simp [ht, JsVal.isNumber]
    have hstr : ∃ n, (if (body.get "notes").truthy then body.get "notes"
        else JsVal.str "Unknown person detected") = .str n := by
      rcases hnotes with h | ⟨s, h⟩
      · exact ⟨"Unknown person detected", by rw [if_neg (by rw [h]; simp)]⟩
      · by_cases ht : (body.get "notes").truthy = true
        · exact ⟨s, by rw [if_pos ht, h]⟩
        · exact ⟨"Unknown person detected", by rw [if_neg ht]⟩
    obtain ⟨n, hn⟩ := hstr
    have hfalse : ¬ (!(body.get "capturedImage").truthy) = true := by simp [htruthy]
    have hout : logUnknownPerson now store body =
        ({ unknownFaces := store.unknownFaces ++
              [{ Unknown_ID := store.nextUnknownId
                 Captured_Image := some (stripDataUrlHeader image)
                 Zone_id := 1
                 Confidence := if (body.get "confidence").truthy then body.get "confidence"
                   else .num 0
                 DetectedTime := now
                 Status := "PENDING"
                 Notes := some n }],
            nextUnknownId := store.nextUnknownId + 1 },
         { status := 201, success := true,
           message := some "Unknown person logged successfully", count := none,
           data := some { Unknown_ID := store.nextUnknownId, DetectedTime := now,
                          Status := "PENDING" },
           error := none }) := by
      unfold logUnknownPerson
      simp only
      rw [if_neg hfalse]
      simp only [himage, createUnknownFace, hnum, hn]
    refine ⟨{ Unknown_ID := store.nextUnknownId
              Captured_Image := some (stripDataUrlHeader image)
              Zone_id := 1
              Confidence := if (body.get "confidence").truthy then body.get "confidence"
                else .num 0
              DetectedTime := now
              Status := "PENDING"
              Notes := some n }, ?_, rfl, rfl, rfl, rfl, ?_, ?_, ?_, ?_, ?_⟩
    · rw [hout]
    · intro h; simp [h]
    · intro h; simp [h]
    · rw [hout]
    · rw [hout]
    · rw [hout]
  · intro h
    unfold logUnknownPerson
    simp [h]

/-- C16 (witness): the capture request of the tracking page on an empty store, and a request
with no body properties. -/
theorem logUnknownPerson_persists_pending_witness :
    (∃ row : UnknownFaces,
        (logUnknownPerson 100 storeEmpty bodyCapture).1 =
          { unknownFaces := storeEmpty.unknownFaces ++ [row],
            nextUnknownId := storeEmpty.nextUnknownId + 1 } ∧
        row.Unknown_ID = storeEmpty.nextUnknownId ∧ row.Status = "PENDING" ∧ row.Zone_id = 1 ∧
        row.DetectedTime = 100 ∧
        ((bodyCapture.get "confidence").truthy = false → row.Confidence = .num 0) ∧
        ((bodyCapture.get "confidence").truthy = true →
          row.Confidence = bodyCapture.get "confidence") ∧
        (logUnknownPerson 100 storeEmpty bodyCapture).2.status = 201 ∧
        (logUnknownPerson 100 storeEmpty bodyCapture).2.success = true ∧
        (logUnknownPerson 100 storeEmpty bodyCapture).2.data =
          some { Unknown_ID := row.Unknown_ID, DetectedTime := row.DetectedTime,
                 Status := "PENDING" }) ∧
      ((logUnknownPerson 100 storeEmpty (.object [])).2.status = 400 ∧
        (logUnknownPerson 100 storeEmpty (.object [])).1 = storeEmpty) :=
  ⟨(logUnknownPerson_persists_pending 100 storeEmpty bodyCapture).1
      "data:image/jpeg;base64,AAAA" (by decide) (by decide) (Or.inl (by decide))
      (Or.inr ⟨"Detected by live camera", by decide⟩),
   (logUnknownPerson_persists_pending 100 storeEmpty (.object [])).2 (by decide)⟩

/-! ## C17: deleting an unknown detection -/

/-- C17 (counterexample): no stored detection has id 42; `deleteUnknownFace` answers `500`,
not `404`. -/
theorem deleteUnknownFace_missing_id_answers_500 :
    (∀ r ∈ storeIdentified.unknownFaces, r.Unknown_ID ≠ 42) ∧
      (deleteUnknownFace storeIdentified "42").2.status = 500 ∧
      (deleteUnknownFace storeIdentified "42").2.status ≠ 404 := by
  decide

/-- C17 (amended): `deleteUnknownFace` answers `200` when the id exists (and removes exactly
that record) and fails with the generic server error when it does not: for every `unknownId`
that matches no stored unknown detection, the response status is `500` with
`success = false` and the store is unchanged. -/
theorem deleteUnknownFace_outcomes (store : UnknownStore) (unknownId : String) :
    (∀ r ∈ store.unknownFaces, parseIntStr unknownId = some r.Unknown_ID →
      (store.unknownFaces.map (fun x => x.Unknown_ID)).Nodup →
      (deleteUnknownFace store unknownId).2.status = 200 ∧
        (deleteUnknownFace store unknownId).2.success = true ∧
        (deleteUnknownFace store unknownId).1 =
          { store with unknownFaces := (store.unknownFaces.filter (fun x => decide (x ≠ r))) }) ∧
    ((∀ r ∈ store.unknownFaces, parseIntStr unknownId ≠ some r.Unknown_ID) →
      (deleteUnknownFace store unknownId).2.status = 500 ∧
        (deleteUnknownFace store unknownId).2.success = false ∧
        (deleteUnknownFace store unknownId).1 = store) := by
  constructor
  · intro r hr hp huniq
    have hfilter : store.unknownFaces.filter (fun x => x.Unknown_ID != r.Unknown_ID) =
        store.unknownFaces.filter (fun x => decide (x ≠ r)) := by
      apply List.filter_congr
      intro x hx
      have := unknown_id_eq_iff hr hx huniq
      by_cases hxr : x = r
      · subst hxr; simp
      · have hne : x.Unknown_ID ≠ r.Unknown_ID := fun h => hxr (this.mp h)
        simp [hxr, hne]
    unfold deleteUnknownFace
    simp only [hp, find?_unique_unknown hr huniq, hfilter]
    simp
  · intro h
    unfold deleteUnknownFace
    cases hp : parseIntStr unknownId with
    | none => simp [unknownFailed]
    | some id =>
      have hnone : store.unknownFaces.find? (fun r => r.Unknown_ID == id) = none := by
        rw [List.find?_eq_none]
        intro r hr hid
        apply h r hr
        rw [hp]
        simp only [beq_iff_eq] at hid
        rw [hid]
      simp [hnone, unknownFailed]

/-- C17 (witness): record 1 is removed, and id 42 is answered with `500`. -/
theorem deleteUnknownFace_outcomes_witness :
    ((deleteUnknownFace storeIdentified "1").2.status = 200 ∧
        (deleteUnknownFace storeIdentified "1").1.unknownFaces = []) ∧
      ((deleteUnknownFace storeIdentified "42").2.status = 500 ∧
        (deleteUnknownFace storeIdentified "42").2.success = false ∧
        (deleteUnknownFace storeIdentified "42").1 = storeIdentified) :=
  have h1 := (deleteUnknownFace_outcomes storeIdentified "1").1
    { Unknown_ID := 1, Captured_Image := some "AAAA", Zone_id := 1, Confidence := .num 0,
      DetectedTime := 50, Status := "IDENTIFIED", Notes := some "Detected by live camera" }
    (by decide) (by decide) (by decide)
  ⟨⟨h1.1, by rw [h1.2.2]; decide⟩,
   (deleteUnknownFace_outcomes storeIdentified "42").2 (by decide)⟩

/-! ## C18: the list of unknown detections -/

theorem takeRows_natCast (n : Nat) (rows : List UnknownFaces) :
    takeRows (n : Int) rows = rows.take n := by
  unfold takeRows
  simp

theorem unknownMatching_sorted (store : UnknownStore) (status : Option String) :
    (unknownMatching store status).Pairwise (fun a b => b.DetectedTime ≤ a.DetectedTime) :=
  List.sorted_insertionSort detectedNotBefore _

theorem unknownMatching_perm (store : UnknownStore) (status : Option String) :
    (unknownMatching store status).Perm (store.unknownFaces.filter (unknownWhere status)) :=
  List.perm_insertionSort detectedNotBefore _

theorem takeRows_neg_natCast (n : Nat) (rows : List UnknownFaces) :
    takeRows (-(n : Int)) rows = rows.drop (rows.length - n) := by
  unfold takeRows
  cases n with
  | zero => simp
  | succ k =>
    have hneg : ¬ (0 : Int) ≤ -((k + 1 : Nat) : Int) := by omega
    rw [if_neg hneg]
    simp

theorem unknownWhere_statusFilter (status : Option String) :
    unknownWhere (statusFilter status) =
      fun r => r.Zone_id == 1 &&
        (match status with
         | some st => st == "" || r.Status == st
         | none => true) := by
  funext r
  cases status with
  | none => rfl
  | some st =>
    by_cases hst : st = ""
    · simp [statusFilter, unknownWhere, hst]
    · have hne : (st == "") = false := by simpa using hst
      simp [statusFilter, unknownWhere, hst, hne]

/-- C18 (counterexample): with `limit=-2` the handler does not return a prefix of the list
sorted most recent first. The store has three zone-1 records, detected at 70, 60 and 50 (and
one of zone 2); without a limit they are returned in that order, and with `limit=-2` the
answer is `200` with the two oldest, 60 and 50: two items, which is not at most -2, and no
prefix of the full list. With a limit that is no number the answer is `500`. -/
theorem negative_limit_returns_the_oldest_rows :
    ((getUnknownFaces storeFour none none).data.getD []).map (fun v => v.DetectedTime) =
        [70, 60, 50] ∧
      (getUnknownFaces storeFour (some "-2") none).status = 200 ∧
      ((getUnknownFaces storeFour (some "-2") none).data.getD []).map
          (fun v => v.DetectedTime) = [60, 50] ∧
      ¬ ((getUnknownFaces storeFour (some "-2") none).data.getD []) <+:
          ((getUnknownFaces storeFour none none).data.getD []) ∧
      (getUnknownFaces storeFour (some "abc") none).status = 500 := by
  decide

/-- C18 (amended): `getUnknownFaces` returns the unknown detections most recent first when
`limit` is absent or a non-negative integer. For every store and status filter, let `full` be
the records of the store with `Zone_id = 1` (and with the given `Status`, when a non-empty
status is passed), each as often as the store holds it, sorted by `DetectedTime` in
non-increasing order. When `limit` is absent (then `n = 20`) or parses to the non-negative
integer `n`, the answer is `200` with the views (`Unknown_ID`, the image as a JPEG data URL,
`DetectedTime`, `Confidence`, `Status`, `Notes`) of the first `n` records of `full`: sorted,
at most `n` items, a prefix of `full`. When `limit` parses to the negative integer `-n`, the
answer is `200` with the views of the last `n` records of `full`. When `limit` does not
parse to an integer, the answer is `500` with no list. -/
theorem getUnknownFaces_most_recent_first (store : UnknownStore) (limit status : Option String) :
    ∃ full : List UnknownFaces,
      full.Perm (store.unknownFaces.filter (fun r =>
        r.Zone_id == 1 &&
          (match status with
           | some st => st == "" || r.Status == st
           | none => true))) ∧
      full.Pairwise (fun a b => b.DetectedTime ≤ a.DetectedTime) ∧
      (∀ r, r ∈ full ↔ r ∈ store.unknownFaces ∧ r.Zone_id = 1 ∧
        ∀ st, status = some st → st ≠ "" → r.Status = st) ∧
      (∀ n : Nat,
        (limit = none ∧ n = 20) ∨ (∃ l, limit = some l ∧ parseIntStr l = some (n : Int)) →
        getUnknownFaces store limit status =
            { status := 200, success := true, message := none,
              count := some (full.take n).length,
              data := some ((full.take n).map (fun face =>
                { Unknown_ID := face.Unknown_ID
                  CapturedImage :=
                    face.Captured_Image.map (fun b => "data:image/jpeg;base64," ++ b)
                  DetectedTime := face.DetectedTime
                  Confidence := face.Confidence
                  Status := face.Status
                  Notes := face.Notes })),
              error := none } ∧
          (full.take n).length ≤ n ∧ full.take n <+: full ∧
          (full.take n).Pairwise (fun a b => b.DetectedTime ≤ a.DetectedTime) ∧
          (∀ r ∈ full.take n, r ∈ store.unknownFaces ∧ r.Zone_id = 1 ∧
            ∀ st, status = some st → st ≠ "" → r.Status = st)) ∧
      (∀ n : Nat, (∃ l, limit = some l ∧ parseIntStr l = some (-(n : Int))) →
        getUnknownFaces store limit status =
            { status := 200, success := true, message := none,
              count := some (full.drop (full.length - n)).length,
              data := some ((full.drop (full.length - n)).map (fun face =>
                { Unknown_ID := face.Unknown_ID
                  CapturedImage :=
                    face.Captured_Image.map (fun b => "data:image/jpeg;base64," ++ b)
                  DetectedTime := face.DetectedTime
                  Confidence := face.Confidence
                  Status := face.Status
                  Notes := face.Notes })),
              error := none } ∧
          full.drop (full.length - n) <:+ full) ∧
      ((∃ l, limit = some l ∧ parseIntStr l = none) →
        (getUnknownFaces store limit status).status = 500 ∧
          (getUnknownFaces store limit status).success = false ∧
          (getUnknownFaces store limit status).data = none) := by
  have hperm : (unknownMatching store (statusFilter status)).Perm
      (store.unknownFaces.filter (fun r =>
        r.Zone_id == 1 &&
          (match status with
           | some st => st == "" || r.Status == st
           | none => true))) := by
    have h := unknownMatching_perm store (statusFilter status)
    rw [unknownWhere_statusFilter] at h
    exact h
  have hsorted := unknownMatching_sorted store (statusFilter status)
  have hmem : ∀ r, r ∈ unknownMatching store (statusFilter status) ↔
      r ∈ store.unknownFaces ∧ r.Zone_id = 1 ∧
        ∀ st, status = some st → st ≠ "" → r.Status = st := by
    intro r
    rw [hperm.mem_iff, List.mem_filter]
    cases status with
    | none => simp
    | some st =>
      by_cases hst : st = ""
      · simp [hst]
      · simp [hst]
  refine ⟨unknownMatching store (statusFilter status), hperm, hsorted, hmem, ?_, ?_, ?_⟩
  · intro n hlimit
    have htake : takeArg limit = some (n : Int) := by
      rcases hlimit with ⟨h1, h2⟩ | ⟨l, h1, h2⟩
      · rw [h1, h2]; rfl
      · rw [h1]; exact h2
    refine ⟨?_, List.length_take_le _ _, List.take_prefix _ _,
      hsorted.sublist (List.take_sublist _ _), ?_⟩
    · unfold getUnknownFaces
      simp only [htake, takeRows_natCast, List.length_map]
      rfl
    · intro r hr
      exact (hmem r).mp (List.mem_of_mem_take hr)
  · rintro n ⟨l, h1, h2⟩
    have htake : takeArg limit = some (-(n : Int)) := by
      rw [h1]; exact h2
    refine ⟨?_, List.drop_suffix _ _⟩
    unfold getUnknownFaces
    simp only [htake, takeRows_neg_natCast, List.length_map]
    rfl
  · rintro ⟨l, h1, h2⟩
    have htake : takeArg limit = none := by
      rw [h1]; exact h2
    unfold getUnknownFaces
    simp only [htake]
    exact ⟨rfl, rfl, rfl⟩

/-- C18 (witness): the three zone-1 records of a store of four, with `limit=2`: the answer
holds the records detected at 70 and 60, in that order. -/
theorem getUnknownFaces_most_recent_first_witness :
    getUnknownFaces storeFour (some "2") none =
        { status := 200, success := true, message := none, count := some 2,
          data := some
            [{ Unknown_ID := 2, CapturedImage := none, DetectedTime := 70,
               Confidence := .num 0, Status := "IGNORED", Notes := none },
             { Unknown_ID := 4, CapturedImage := some "data:image/jpeg;base64,CCCC",
               DetectedTime := 60, Confidence := .num 0, Status := "PENDING",
               Notes := none }],
          error := none } ∧
      ∃ full : List UnknownFaces,
        full.Perm (storeFour.unknownFaces.filter (fun r => r.Zone_id == 1)) ∧
          full.Pairwise (fun a b => b.DetectedTime ≤ a.DetectedTime) ∧
          (getUnknownFaces storeFour (some "2") none).count = some (full.take 2).length := by
  refine ⟨by decide, ?_⟩
  obtain ⟨full, hperm, hsorted, _, htake, _, _⟩ :=
    getUnknownFaces_most_recent_first storeFour (some "2") none
  refine ⟨full, ?_, hsorted, ?_⟩
  · simpa using hperm
  · rw [(htake 2 (Or.inr ⟨"2", rfl, by decide⟩)).1]


/-! ## Facts about the unknown cooldown -/

theorem unknownAdmissions_recognizedStep (s : TrackingState) (m : FaceMatch) (checkedAt : Int)
    (entryOk : Bool) (resumedAt : Int) :
    unknownAdmissions (recognizedStep s m checkedAt entryOk resumedAt) = unknownAdmissions s ∧
      (recognizedStep s m checkedAt entryOk resumedAt).lastUnknownDetection =
        s.lastUnknownDetection := by
  by_cases hk : personKey m ∈ s.recognizedPersons
  · rw [recognizedStep_present checkedAt entryOk resumedAt hk]
    exact ⟨rfl, rfl⟩
  · rw [recognizedStep_absent checkedAt entryOk resumedAt hk]
    refine ⟨?_, rfl⟩
    unfold unknownAdmissions
    simp only [List.filterMap_append]
    cases entryOk <;> simp [handleRecognizedPerson]

theorem unknownAdmissions_unknownStep (s : TrackingState) (now : Int)
    (faceImage : Option String) (saved : Bool) :
    (unknownAdmitted s now = true ∧
        unknownAdmissions (unknownStep s now faceImage saved) = unknownAdmissions s ++ [now] ∧
        (unknownStep s now faceImage saved).lastUnknownDetection = now) ∨
      (unknownAdmitted s now = false ∧ unknownStep s now faceImage saved = s) := by
  cases h : unknownAdmitted s now with
  | true =>
    left
    refine ⟨rfl, ?_, ?_⟩
    · unfold unknownStep
      rw [if_pos h]
      unfold unknownAdmissions
      simp only [List.filterMap_append]
      cases faceImage <;> cases saved <;> simp [handleUnknownPerson]
    · unfold unknownStep
      rw [if_pos h]
  | false =>
    right
    refine ⟨rfl, ?_⟩
    unfold unknownStep
    rw [if_neg (by rw [h]; simp)]

theorem unknownAdmitted_runTimers (t : Int) (s : TrackingState) (now : Int) :
    unknownAdmitted (runTimers t s) now = unknownAdmitted s now := rfl

theorem unknownAdmitted_iff (s : TrackingState) (now : Int) :
    unknownAdmitted s now = true ↔
      s.lastUnknownDetection = 0 ∨ s.lastUnknownDetection + 10000 < now := by
  simp only [unknownAdmitted, Bool.or_eq_true, beq_iff_eq, decide_eq_true_eq]
  constructor
  · rintro (h | h)
    · exact Or.inl h
    · right; omega
  · rintro (h | h)
    · exact Or.inl h
    · right; omega

theorem CooldownInv.atMount : CooldownInv initialTracking :=
  { apart := List.Pairwise.nil
    bounded := fun a ha => by cases ha
    unset := fun _ => rfl }

theorem CooldownInv.afterStep {s : TrackingState} (h : CooldownInv s) {t0 : Int}
    (h0 : 0 < t0) (d : Detection) (hord : timeOrdered t0 [d]) :
    CooldownInv (Intellisight.detectionStep s d) := by
  cases d with
  | recognized m checkedAt entryOk resumedAt =>
    obtain ⟨ha, hl⟩ := unknownAdmissions_recognizedStep (runTimers checkedAt s) m checkedAt
      entryOk resumedAt
    have ha1 : unknownAdmissions (Intellisight.detectionStep s
        (.recognized m checkedAt entryOk resumedAt)) = unknownAdmissions s := ha
    have hl1 : (Intellisight.detectionStep s
        (.recognized m checkedAt entryOk resumedAt)).lastUnknownDetection =
          s.lastUnknownDetection := hl
    exact { apart := by rw [ha1]; exact h.apart
            bounded := by rw [ha1, hl1]; exact h.bounded
            unset := by rw [ha1, hl1]; exact h.unset }
  | unknown now faceImage saved =>
    have hnow : 0 < now := lt_of_lt_of_le h0 hord.1
    rcases unknownAdmissions_unknownStep (runTimers now s) now faceImage saved with
      ⟨hadm, ha, hl⟩ | ⟨_, hsame⟩
    · have ha1 : unknownAdmissions (Intellisight.detectionStep s
          (.unknown now faceImage saved)) = unknownAdmissions s ++ [now] := ha
      have hl1 : (Intellisight.detectionStep s
          (.unknown now faceImage saved)).lastUnknownDetection = now := hl
      rw [unknownAdmitted_runTimers, unknownAdmitted_iff] at hadm
      constructor
      · rw [ha1, List.pairwise_append]
        refine ⟨h.apart, List.pairwise_singleton _ _, ?_⟩
        intro a ha2 b hb
        rw [List.mem_singleton] at hb
        rw [hb]
        rcases hadm with h1 | h1
        · rw [h.unset h1] at ha2
          cases ha2
        · have := h.bounded a ha2
          omega
      · intro a ha2
        rw [ha1, List.mem_append, List.mem_singleton] at ha2
        rw [hl1]
        rcases ha2 with ha2 | ha2
        · rcases hadm with h1 | h1
          · rw [h.unset h1] at ha2
            cases ha2
          · have := h.bounded a ha2
            omega
        · omega
      · intro hzero
        rw [hl1] at hzero
        omega
    · have hs : Intellisight.detectionStep s (.unknown now faceImage saved) = runTimers now s :=
        hsame
      rw [hs]
      exact { apart := h.apart, bounded := h.bounded, unset := h.unset }

theorem endTime_pos {t0 : Int} (h0 : 0 < t0) (ds : List Detection) (hord : timeOrdered t0 ds) :
    0 < endTime t0 ds := by
  induction ds generalizing t0 with
  | nil => exact h0
  | cons d ds ih =>
    cases d with
    | recognized m checkedAt entryOk resumedAt =>
      obtain ⟨h1, h2, h3⟩ := hord
      exact ih (by omega) h3
    | unknown now faceImage saved =>
      obtain ⟨h1, h2⟩ := hord
      exact ih (by omega) h2

theorem CooldownInv.afterStream {s : TrackingState} (h : CooldownInv s) {t0 : Int}
    (h0 : 0 < t0) (ds : List Detection) (hord : timeOrdered t0 ds) :
    CooldownInv (Intellisight.runDetections s ds) := by
  induction ds generalizing s t0 with
  | nil => exact h
  | cons d ds ih =>
    have hsplit := (timeOrdered_append t0 [d] ds).mp hord
    exact ih (h.afterStep h0 d hsplit.1) (endTime_pos h0 [d] hsplit.1) hsplit.2

/-- The admissions of a stream are appended to those made before, are among the unmatched
detections of the stream, and start with the first of them when the timestamp is unset. -/
theorem unknownAdmissions_runDetections (s : TrackingState) (ds : List Detection) :
    ∃ l, unknownAdmissions (runDetections s ds) = unknownAdmissions s ++ l ∧
      l.Sublist (unknownTimes ds) ∧
      (s.lastUnknownDetection = 0 → l.head? = (unknownTimes ds).head?) := by
  induction ds generalizing s with
  | nil => exact ⟨[], by simp [runDetections], List.Sublist.refl _, fun _ => rfl⟩
  | cons d ds ih =>
    cases d with
    | recognized m checkedAt entryOk resumedAt =>
      obtain ⟨ha, hl⟩ := unknownAdmissions_recognizedStep (runTimers checkedAt s) m checkedAt
        entryOk resumedAt
      obtain ⟨l, h1, h2, h3⟩ := ih (detectionStep s (.recognized m checkedAt entryOk resumedAt))
      refine ⟨l, ?_, h2, ?_⟩
      · show unknownAdmissions (runDetections
          (detectionStep s (.recognized m checkedAt entryOk resumedAt)) ds) = _
        rw [h1]
        congr 1
      · intro hzero
        exact h3 (by rw [← hzero]; exact hl)
    | unknown now faceImage saved =>
      obtain ⟨l, h1, h2, h3⟩ := ih (detectionStep s (.unknown now faceImage saved))
      rcases unknownAdmissions_unknownStep (runTimers now s) now faceImage saved with
        ⟨_, ha, _⟩ | ⟨hadm, hsame⟩
      · refine ⟨now :: l, ?_, List.Sublist.cons₂ _ h2, fun _ => rfl⟩
        show unknownAdmissions (runDetections
          (detectionStep s (.unknown now faceImage saved)) ds) = _
        rw [h1]
        have ha1 : unknownAdmissions (detectionStep s (.unknown now faceImage saved)) =
            unknownAdmissions s ++ [now] := ha
        rw [ha1, List.append_assoc]
        rfl
      · have hs : detectionStep s (.unknown now faceImage saved) = runTimers now s := hsame
        refine ⟨l, ?_, List.Sublist.cons _ h2, ?_⟩
        · show unknownAdmissions (runDetections
            (detectionStep s (.unknown now faceImage saved)) ds) = _
          rw [h1, hs]
          rfl
        · intro hzero
          exfalso
          rw [unknownAdmitted_runTimers] at hadm
          have : unknownAdmitted s now = true := (unknownAdmitted_iff s now).mpr (Or.inl hzero)
          rw [hadm] at this
          cases this

/-! ## C11: the rate limit of unknown captures -/

/-- C11: unknown captures are rate-limited over whole sessions. For every stream of detections
of one tracking session in time order (decision times are `Date.now()` values, so positive),
any two admitted unmatched detections have decision times more than 10 s apart, the admitted
ones are among the unmatched detections of the stream, and the first unmatched detection of
the session is admitted; e.g. for unmatched detections at `t`, `t + 4 s` and `t + 11 s`
exactly those at `t` and `t + 11 s` are admitted. -/
theorem unknown_captures_are_rate_limited (t0 : Int) (ds : List Detection) (h0 : 0 < t0)
    (hord : timeOrdered t0 ds) :
    (unknownAdmissions (runDetections initialTracking ds)).Pairwise
        (fun a b => a + 10000 < b) ∧
      (unknownAdmissions (runDetections initialTracking ds)).Sublist (unknownTimes ds) ∧
      (unknownAdmissions (runDetections initialTracking ds)).head? = (unknownTimes ds).head? ∧
      (∀ (i1 i2 i3 : Option String) (s1 s2 s3 : Bool),
        unknownAdmissions (runDetections initialTracking
            [.unknown t0 i1 s1, .unknown (t0 + 4000) i2 s2, .unknown (t0 + 11000) i3 s3]) =
          [t0, t0 + 11000]) := by
  refine ⟨(CooldownInv.atMount.afterStream h0 ds hord).apart, ?_, ?_, ?_⟩
  · obtain ⟨l, h1, h2, _⟩ := unknownAdmissions_runDetections initialTracking ds
    rw [h1]
    exact h2
  · obtain ⟨l, h1, _, h3⟩ := unknownAdmissions_runDetections initialTracking ds
    rw [h1]
    exact h3 rfl
  · intro i1 i2 i3 s1 s2 s3
    have hne : t0 ≠ 0 := by omega
    have h4 : ¬ (t0 + 4000 = 0) := by omega
    have h5 : ¬ (10000 < t0 + 4000 - t0) := by omega
    have h6 : (10000 : Int) < t0 + 11000 - t0 := by omega
    cases i1 <;> cases i2 <;> cases i3 <;> cases s1 <;> cases s2 <;> cases s3 <;>
      simp [runDetections, detectionStep, unknownStep, unknownAdmitted, runTimers,
        initialTracking, handleUnknownPerson, unknownAdmissions, hne, h5, h6]

/-- C11 (witness): unmatched detections 1 s, 5 s and 12 s into 1970. -/
theorem unknown_captures_are_rate_limited_witness :
    unknownAdmissions (runDetections initialTracking
        [.unknown 1000 (some "a") true, .unknown 5000 (some "b") true,
         .unknown 12000 none false]) = [1000, 12000] :=
  (unknown_captures_are_rate_limited 1000
    [.unknown 1000 (some "a") true, .unknown 5000 (some "b") true, .unknown 12000 none false]
    (by decide) (by simp [timeOrdered])).2.2.2 (some "a") (some "b") none true true false


/-! ## C21: what the answer to a `ConflictError` holds -/

/-- C21 (counterexample): the answer `errorHandler` gives for a `ConflictError` raised for a
duplicate open entry holds the status 409, `success: false` and the message, and no `errors`
or record: the class takes a message only and the handler passes no fourth argument to
`errorResponse`. -/
theorem conflict_answer_holds_no_record :
    errorHandler "production" (ConflictError (some "Person already has an open entry")) =
      { status := 409, success := false, message := "Person already has an open entry",
        errors := none } := by
  decide

/-- C21 (amended): a `ConflictError` is surfaced as status 409 with `success: false` and its
message ('Resource already exists' when none was given) and nothing else: in every
environment the answer of `errorHandler` has no `errors` field, and it is the answer
`errorResponse` builds from the message and 409 alone. -/
theorem conflict_answer_is_status_and_message (nodeEnv : String) (message : Option String) :
    errorHandler nodeEnv (ConflictError message) =
        errorResponse (message.getD "Resource already exists") HTTP_STATUS_CONFLICT none ∧
      (errorHandler nodeEnv (ConflictError message)).status = 409 ∧
      (errorHandler nodeEnv (ConflictError message)).success = false ∧
      (errorHandler nodeEnv (ConflictError message)).errors = none := by
  simp [errorHandler, ConflictError, AppError, errorResponse, HTTP_STATUS_CONFLICT]

/-! ## C30: the crop contains the detected box -/

/-- C30: the crop contains the detected box. For every box with `x` and `y` not negative, and
so for every box whose `width` and `height` are not negative either, the rectangle
`extractFaceImage` cuts out starts at or before the origin of the box on both axes, its right
and bottom edges lie at least 20 pixels beyond those of the box, and its size is
`(width + 40) x (height + 40)`, whether or not the origin was clamped to 0. -/
theorem crop_contains_the_box {α : Type} [LinearOrderedCommRing α] (box : Box α)
    (hx : 0 ≤ box.x) (hy : 0 ≤ box.y) :
    0 ≤ (extractFaceImageRegion box).x ∧ (extractFaceImageRegion box).x ≤ box.x ∧
      0 ≤ (extractFaceImageRegion box).y ∧ (extractFaceImageRegion box).y ≤ box.y ∧
      box.x + box.width + 20 ≤
        (extractFaceImageRegion box).x + (extractFaceImageRegion box).width ∧
      box.y + box.height + 20 ≤
        (extractFaceImageRegion box).y + (extractFaceImageRegion box).height ∧
      (extractFaceImageRegion box).width = box.width + 40 ∧
      (extractFaceImageRegion box).height = box.height + 40 ∧
      box.width ≤ (extractFaceImageRegion box).width ∧
      box.height ≤ (extractFaceImageRegion box).height := by
  have h40 : (20 : α) * 2 = 40 := by norm_num
  have hxl : box.x - 20 ≤ max 0 (box.x - 20) := le_max_right _ _
  have hyl : box.y - 20 ≤ max 0 (box.y - 20) := le_max_right _ _
  have hxu : max 0 (box.x - 20) ≤ box.x := max_le hx (by linarith)
  have hyu : max 0 (box.y - 20) ≤ box.y := max_le hy (by linarith)
  simp only [extractFaceImageRegion, h40]
  refine ⟨le_max_left _ _, hxu, le_max_left _ _, hyu, ?_, ?_, trivial, trivial, ?_, ?_⟩ <;>
    linarith

/-- C30 (witness): the box at (10, 50) of size 100 x 100, whose crop is clamped on the left. -/
theorem crop_contains_the_box_witness :
    extractFaceImageRegion boxNearLeftEdge = { x := 0, y := 30, width := 140, height := 140 } ∧
      boxNearLeftEdge.x + boxNearLeftEdge.width + 20 ≤
        (extractFaceImageRegion boxNearLeftEdge).x +
          (extractFaceImageRegion boxNearLeftEdge).width :=
  ⟨by decide,
   (crop_contains_the_box boxNearLeftEdge (by decide) (by decide)).2.2.2.2.1⟩

/-! ## C29: the value of `modelsLoaded` the interval callback reads -/

/-- C29: the models-loaded guard of the tick reads a value fixed at creation. When the
initialization at mount succeeds, the state of the component becomes `modelsLoaded = true`
and an interval is started; its callback is the one of the first render, which reads
`modelsLoaded = false`. So every tick of that interval, whatever the frames show and
whatever state the refs are in, returns at the guard: the state is unchanged and no call
(`detectFaces`, entry call, image extraction) is added. When the initialization fails no
interval is started at all. -/
theorem mount_interval_never_detects (modelsOk databaseThrows : Bool) :
    initialComponent.modelsLoaded = false ∧
      (modelsOk = true → (mountEffect modelsOk databaseThrows).1.modelsLoaded = true) ∧
      ((mountEffect modelsOk databaseThrows).2.isSome =
        (modelsOk && !databaseThrows)) ∧
      ∀ tick, (mountEffect modelsOk databaseThrows).2 = some tick →
        (∀ (s : TrackingState) (frame : Frame), tick s frame = s) ∧
        (∀ (s : TrackingState) (frames : List Frame),
          frames.foldl tick s = s ∧ (frames.foldl tick s).calls = s.calls) := by
  refine ⟨rfl, ?_, ?_, ?_⟩
  · intro h
    subst h
    cases databaseThrows <;> rfl
  · cases modelsOk <;> cases databaseThrows <;> rfl
  · intro tick htick
    have hstep : ∀ (s : TrackingState) (frame : Frame), tick s frame = s := by
      intro s frame
      cases modelsOk <;> cases databaseThrows <;>
        simp [mountEffect, initializeFaceRecognition] at htick
      subst htick
      simp [startFaceDetection, detectionTick, initialComponent]
    have hfold : ∀ (frames : List Frame) (s : TrackingState), frames.foldl tick s = s := by
      intro frames
      induction frames with
      | nil => intro s; rfl
      | cons f fs ih => intro s; rw [List.foldl_cons, hstep, ih]
    exact ⟨hstep, fun s frames => ⟨hfold frames s, by rw [hfold frames s]⟩⟩

/-- C29 (witness): the initialization succeeds and the state becomes `modelsLoaded = true`;
a tick on a ready video with an unmatched face leaves the state at mount untouched, while
the same tick with the guard reading `true` would have called `detectFaces`. -/
theorem mount_interval_never_detects_witness :
    (mountEffect true false).1.modelsLoaded = true ∧
      startFaceDetection initialComponent initialTracking
          { webcam := true, videoReady := true, detections := [.unknown 1000 none false] } =
        initialTracking ∧
      (detectionTick initialTracking
          { webcam := true, modelsLoaded := true, videoReady := true,
            detections := [.unknown 1000 none false] }).calls =
        [.detectFaces, .extractFaceImage 1000] :=
  ⟨(mount_interval_never_detects true false).2.1 rfl,
   ((mount_interval_never_detects true false).2.2.2 (startFaceDetection initialComponent)
      rfl).1 _ _,
   by decide⟩

/-! ## C28: the cooldown after a capture that stored nothing -/

/-- C28: the unknown cooldown starts even when nothing was persisted. For every admitted
unmatched detection at a time `now` after the epoch, whatever `extractFaceImage` returned and
whether or not the persistence call succeeded, `lastUnknownDetectionRef` is set to `now`, the
time read before the capture began; when no image came back the persistence call is not even
made. Every unmatched detection at a time `later` of the following 10 s is then refused: it
makes no call and changes nothing, also after callbacks of the dedup set have run. -/
theorem cooldown_starts_without_persistence (s : TrackingState) (now : Int)
    (faceImage : Option String) (saved : Bool) (hnow : 0 < now)
    (hadm : unknownAdmitted s now = true) :
    (unknownStep s now faceImage saved).lastUnknownDetection = now ∧
      (unknownStep s now none saved).calls = s.calls ++ [.extractFaceImage now] ∧
      (∀ image, (unknownStep s now (some image) false).calls =
        s.calls ++ [.extractFaceImage now, .logUnknownPerson now]) ∧
      ∀ (later : Int) (faceImage2 : Option String) (saved2 : Bool),
        now ≤ later → later ≤ now + 10000 →
        unknownAdmitted (unknownStep s now faceImage saved) later = false ∧
        unknownStep (unknownStep s now faceImage saved) later faceImage2 saved2 =
          unknownStep s now faceImage saved ∧
        detectionStep (unknownStep s now faceImage saved) (.unknown later faceImage2 saved2) =
          runTimers later (unknownStep s now faceImage saved) := by
  have hstep : ∀ (f : Option String) (b : Bool), unknownStep s now f b =
      { s with calls := s.calls ++ handleUnknownPerson now f b,
               lastUnknownDetection := now } := by
    intro f b
    unfold unknownStep
    rw [if_pos hadm]
  refine ⟨?_, ?_, ?_, ?_⟩
  · rw [hstep]
  · rw [hstep]; rfl
  · intro image
    rw [hstep]; rfl
  · intro later faceImage2 saved2 h1 h2
    have hlast : (unknownStep s now faceImage saved).lastUnknownDetection = now := by
      rw [hstep]
    have hne : now ≠ 0 := by omega
    have hrej : ∀ t : TrackingState, t.lastUnknownDetection = now →
        unknownAdmitted t later = false := by
      intro t ht
      unfold unknownAdmitted
      simp only [ht, Bool.or_eq_false_iff, beq_eq_false_iff_ne, ne_eq, decide_eq_false_iff_not,
        gt_iff_lt, not_lt]
      exact ⟨hne, by omega⟩
    have hsame : ∀ t : TrackingState, t.lastUnknownDetection = now →
        unknownStep t later faceImage2 saved2 = t := by
      intro t ht
      unfold unknownStep
      rw [hrej t ht]
      simp
    exact ⟨hrej _ hlast, hsame _ hlast, hsame _ hlast⟩

/-- C28 (witness): at mount, an unmatched face at 1000 ms whose image extraction returned
`null`; an unmatched face 5 s later is refused. -/
theorem cooldown_starts_without_persistence_witness :
    unknownAdmitted initialTracking 1000 = true ∧
      (unknownStep initialTracking 1000 none false).lastUnknownDetection = 1000 ∧
      (unknownStep initialTracking 1000 none false).calls = [.extractFaceImage 1000] ∧
      unknownAdmitted (unknownStep initialTracking 1000 none false) 6000 = false :=
  have h := cooldown_starts_without_persistence initialTracking 1000 none false (by decide)
    (by decide)
  ⟨by decide, h.1, h.2.1, (h.2.2.2 6000 none false (by decide) (by decide)).1⟩

/-! ## C27: the dedup key after a failed entry call -/

/-- C27: the dedup key is inserted whether or not the entry was recorded. In every stream of
detections in time order from mount on, when a match whose key is not in the set is met at
time `t` and its entry call fails, returning at time `r`, the pass makes the entry call and no
refresh, adds the key and schedules its removal for `r + 5 * 60 * 1000`, exactly as after a
successful call; every recognition of that person in the 5 minutes after `r` is then
suppressed (it changes nothing and makes no call). A failed call of the handler writes no
ledger record. -/
theorem failed_entry_call_still_suppresses (t0 : Int) (ds : List Detection) (m : FaceMatch)
    (t r : Int) (hord : timeOrdered t0 (ds ++ [.recognized m t false r]))
    (habs : personKey m ∉ (runTimers t (runDetections initialTracking ds)).recognizedPersons) :
    (detectionStep (runDetections initialTracking ds) (.recognized m t false r)).calls =
        (runDetections initialTracking ds).calls ++ [.logRecognizedPerson m.id m.type t r] ∧
      personKey m ∈
        (detectionStep (runDetections initialTracking ds)
          (.recognized m t false r)).recognizedPersons ∧
      (r + 5 * 60 * 1000, personKey m) ∈
        (detectionStep (runDetections initialTracking ds) (.recognized m t false r)).timers ∧
      (detectionStep (runDetections initialTracking ds)
          (.recognized m t false r)).recognizedPersons =
        (detectionStep (runDetections initialTracking ds)
          (.recognized m t true r)).recognizedPersons ∧
      (detectionStep (runDetections initialTracking ds) (.recognized m t false r)).timers =
        (detectionStep (runDetections initialTracking ds) (.recognized m t true r)).timers ∧
      (∀ (later : Int) (entryOk : Bool) (r2 : Int), r ≤ later → later < r + 5 * 60 * 1000 →
        detectionStep
            (detectionStep (runDetections initialTracking ds) (.recognized m t false r))
            (.recognized m later entryOk r2) =
          runTimers later
            (detectionStep (runDetections initialTracking ds) (.recognized m t false r)) ∧
        (detectionStep
            (detectionStep (runDetections initialTracking ds) (.recognized m t false r))
            (.recognized m later entryOk r2)).calls =
          (detectionStep (runDetections initialTracking ds) (.recognized m t false r)).calls) ∧
      (∀ (nanIsNull : Bool) (now : Int) (db : Db) (body : ReqBody),
        (logRecognizedPerson nanIsNull now db body).2.success = false →
          (logRecognizedPerson nanIsNull now db body).1 = db) := by
  rw [timeOrdered_append] at hord
  obtain ⟨hds, hle, htr, _⟩ := hord
  have hinv := (DedupInv.initial t0).runDetections ds hds
  have hinv1 : DedupInv
      (detectionStep (runDetections initialTracking ds) (.recognized m t false r)) r :=
    (hinv.advance hle).recognizedStep m false htr
  have hstep : ∀ ok : Bool,
      detectionStep (runDetections initialTracking ds) (.recognized m t ok r) =
        { runTimers r (runTimers t (runDetections initialTracking ds)) with
          calls := (runTimers t (runDetections initialTracking ds)).calls ++
            handleRecognizedPerson m t r ok
          recognizedPersons :=
            setAdd (runTimers r (runTimers t (runDetections initialTracking ds))).recognizedPersons
              (personKey m)
          timers := (runTimers r (runTimers t (runDetections initialTracking ds))).timers ++
            [(r + 5 * 60 * 1000, personKey m)] } :=
    fun ok => recognizedStep_absent t ok r habs
  have hcalls : entryCalls
      (detectionStep (runDetections initialTracking ds) (.recognized m t false r)) =
        entryCalls (runTimers t (runDetections initialTracking ds)) ++ [(personKey m, t, r)] :=
    entryCalls_recognizedStep_absent t false r habs
  refine ⟨?_, ?_, ?_, ?_, ?_, ?_, ?_⟩
  · rw [hstep]; rfl
  · rw [hstep]
    exact mem_setAdd.mpr (Or.inr rfl)
  · rw [hstep]
    exact List.mem_append_right _ (List.mem_singleton.mpr rfl)
  · rw [hstep, hstep]
  · rw [hstep, hstep]
  · intro later entryOk r2 h1 h2
    have hmem : personKey m ∈ (runTimers later
        (detectionStep (runDetections initialTracking ds)
          (.recognized m t false r))).recognizedPersons := by
      rw [hinv1.mem_iff h1, hcalls]
      exact ⟨(personKey m, t, r), List.mem_append_right _ (List.mem_singleton.mpr rfl), rfl,
        by simp only; omega⟩
    have hsame := recognizedStep_present later entryOk r2 hmem
    have hsame2 : detectionStep
        (detectionStep (runDetections initialTracking ds) (.recognized m t false r))
        (.recognized m later entryOk r2) =
          runTimers later
            (detectionStep (runDetections initialTracking ds) (.recognized m t false r)) :=
      hsame
    exact ⟨hsame2, by rw [hsame2]; rfl⟩
  · intro nanIsNull now db body hfail
    rcases logRecognizedPerson_cases nanIsNull now db body with
      ⟨_, hdb, _⟩ | ⟨_, _, ⟨e, he⟩ | ⟨v, e, _, _, he⟩ | ⟨v, pt, db1, row, _, _, _, _, he⟩⟩
    · exact hdb
    · rw [he]
    · rw [he]
    · rw [he] at hfail
      cases hfail

/-- C27 (witness): student 7 is met at mount, the entry call fails and returns after 500 ms;
the student is met again 100 s later and no call is made. -/
theorem failed_entry_call_still_suppresses_witness :
    personKey matchStudent7 ∈
        (detectionStep (runDetections initialTracking [])
          (.recognized matchStudent7 0 false 500)).recognizedPersons ∧
      (detectionStep
          (detectionStep (runDetections initialTracking [])
            (.recognized matchStudent7 0 false 500))
          (.recognized matchStudent7 100000 true 100500)).calls =
        (detectionStep (runDetections initialTracking [])
          (.recognized matchStudent7 0 false 500)).calls :=
  have h := failed_entry_call_still_suppresses 0 [] matchStudent7 0 500
    (by simp [timeOrdered]) (by decide)
  ⟨h.2.1, (h.2.2.2.2.2.1 100000 true 100500 (by decide) (by decide)).2⟩

/-! ## C26: the person kind is not validated -/

theorem createEntry_kind (db : Db) (now : Int) (pt pt2 : String) (col : PersonColumn)
    (v : Option Int) :
    (∀ db1 row, createEntry db now pt col v = .ok (db1, row) →
      createEntry db now pt2 col v =
        .ok ({ db1 with timeTable := db.timeTable ++ [{ row with PersonType := pt2 }] },
             { row with PersonType := pt2 })) ∧
    (∀ e, createEntry db now pt col v = .error e → createEntry db now pt2 col v = .error e) := by
  obtain ⟨c, hc⟩ : ∃ c : Bool, ∀ p : String, createEntry db now p col v =
      if c = true
      then .ok ({ db with
                  timeTable := db.timeTable ++
                    [{ TimeTable_ID := db.nextTimeTableId, PersonType := p,
                       Teacher_ID := if col = .Teacher_ID then v else none,
                       Student_ID := if col = .Student_ID then v else none,
                       Admin_ID := none, Zone_id := 1, EntryTime := some now,
                       ExitTime := none }],
                  nextTimeTableId := db.nextTimeTableId + 1 },
                { TimeTable_ID := db.nextTimeTableId, PersonType := p,
                  Teacher_ID := if col = .Teacher_ID then v else none,
                  Student_ID := if col = .Student_ID then v else none,
                  Admin_ID := none, Zone_id := 1, EntryTime := some now, ExitTime := none })
      else .error .P2003 :=
    ⟨foreignKeysOk db
        { TimeTable_ID := db.nextTimeTableId, PersonType := pt,
          Teacher_ID := if col = .Teacher_ID then v else none,
          Student_ID := if col = .Student_ID then v else none,
          Admin_ID := none, Zone_id := 1, EntryTime := some now, ExitTime := none },
      fun _ => rfl⟩
  rw [hc pt, hc pt2]
  cases c
  · rw [if_neg Bool.false_ne_true, if_neg Bool.false_ne_true]
    exact ⟨fun _ _ h => (by cases h), fun _ h => h⟩
  · rw [if_pos rfl, if_pos rfl]
    refine ⟨?_, fun _ h => (by cases h)⟩
    intro db1 row h
    injection h with h
    injection h with h1 h2
    subst h1 h2
    rfl

/-- C26: `logRecognizedPerson` does not validate the person kind. For every request whose
`personType` is a non-empty string other than 'TEACHER' (also one outside STUDENT and TEACHER)
and whose `personId` is truthy: the column is `Student_ID`; the answer is never `400` or
`422`, and its status is the one the same request gets with the kind 'STUDENT'; the call
ends in a failure of the database, or in `200` with the open zone-1 record found under
`Student_ID = parseInt(personId)`, or in `201` with a new row that has `Student_ID =
parseInt(personId)`, no `Teacher_ID` and the given string as `PersonType`. And for every
request, `400` is answered exactly when `personId` or `personType` is missing or falsy. -/
theorem person_kind_is_not_validated (nanIsNull : Bool) (now : Int) (db : Db) (body : ReqBody)
    (pt : String) (hpt : body.get "personType" = .str pt) (hkind : pt ≠ "TEACHER")
    (hne : pt ≠ "") (hid : (body.get "personId").truthy = true) :
    personColumn (body.get "personType") = .Student_ID ∧
      (logRecognizedPerson nanIsNull now db body).2.status ≠ 400 ∧
      (logRecognizedPerson nanIsNull now db body).2.status ≠ 422 ∧
      (logRecognizedPerson nanIsNull now db body).2.status =
        (logRecognizedPerson nanIsNull now db
          (.object [("personId", body.get "personId"),
                    ("personType", .str "STUDENT")])).2.status ∧
      ((∃ e, logRecognizedPerson nanIsNull now db body = (db, entryFailed e)) ∨
       (∃ v e, prismaIntArg nanIsNull (parseInt (body.get "personId")) = .ok v ∧
          findFirstOpenInZone1 db .Student_ID v = some e ∧
          logRecognizedPerson nanIsNull now db body =
            (db, { status := 200, success := true, message := "Person already in zone",
                   data := some e, error := none })) ∨
       (∃ v row, prismaIntArg nanIsNull (parseInt (body.get "personId")) = .ok v ∧
          findFirstOpenInZone1 db .Student_ID v = none ∧
          row = { TimeTable_ID := db.nextTimeTableId, PersonType := pt, Teacher_ID := none,
                  Student_ID := v, Admin_ID := none, Zone_id := 1, EntryTime := some now,
                  ExitTime := none } ∧
          logRecognizedPerson nanIsNull now db body =
            ({ db with timeTable := db.timeTable ++ [row],
                       nextTimeTableId := db.nextTimeTableId + 1 },
             { status := 201, success := true, message := "Person entry logged successfully",
               data := some row, error := none }))) ∧
      (∀ body2 : ReqBody, (logRecognizedPerson nanIsNull now db body2).2.status = 400 ↔
        ((body2.get "personId").truthy = false ∨ (body2.get "personType").truthy = false)) := by
  have hcol : personColumn (body.get "personType") = .Student_ID := by
    rw [hpt]
    simp [personColumn, hkind]
  have hptT : (body.get "personType").truthy = true := by
    rw [hpt]
    simp [JsVal.truthy, hne]
  have h400 : ∀ body2 : ReqBody, (logRecognizedPerson nanIsNull now db body2).2.status = 400 ↔
      ((body2.get "personId").truthy = false ∨ (body2.get "personType").truthy = false) := by
    intro body2
    rcases logRecognizedPerson_cases nanIsNull now db body2 with
      ⟨hg, _, hs⟩ | ⟨h1, h2, ⟨e, he⟩ | ⟨v, e, _, _, he⟩ | ⟨v, p, db1, row, _, _, _, _, he⟩⟩
    · exact ⟨fun _ => hg, fun _ => hs⟩
    · rw [he]; simp [entryFailed, h1, h2]
    · rw [he]; simp [h1, h2]
    · rw [he]; simp [h1, h2]
  have hnot400 : (logRecognizedPerson nanIsNull now db body).2.status ≠ 400 := by
    intro h
    rcases (h400 body).mp h with h1 | h1
    · rw [hid] at h1; cases h1
    · rw [hptT] at h1; cases h1
  have hcases := logRecognizedPerson_cases nanIsNull now db body
  rw [hcol, hpt] at hcases
  refine ⟨hcol, hnot400, ?_, ?_, ?_, h400⟩
  · rcases hcases with
      ⟨_, _, hs⟩ | ⟨_, _, ⟨e, he⟩ | ⟨v, e, _, _, he⟩ | ⟨v, p, db1, row, _, _, _, _, he⟩⟩
    · exact absurd hs hnot400
    · rw [he]; simp [entryFailed]
    · rw [he]; simp
    · rw [he]; simp
  · have hS1 : (ReqBody.object [("personId", body.get "personId"),
        ("personType", .str "STUDENT")]).get "personId" = body.get "personId" := by
      simp [ReqBody.get, List.lookup]
    have hS2 : (ReqBody.object [("personId", body.get "personId"),
        ("personType", .str "STUDENT")]).get "personType" = .str "STUDENT" := by
      simp [ReqBody.get, List.lookup]
    have hcolS : personColumn (.str "STUDENT") = .Student_ID := by decide
    have hcol1 : personColumn (.str pt) = .Student_ID := by rw [← hpt]; exact hcol
    have hTS : (JsVal.str "STUDENT").truthy = true := by decide
    have hTp : (JsVal.str pt).truthy = true := by rw [← hpt]; exact hptT
    unfold logRecognizedPerson
    simp only [hS1, hS2, hpt, hid, hTS, hTp, hcolS, hcol1, Bool.not_true, Bool.or_self,
      Bool.false_eq_true, reduceIte]
    cases prismaIntArg nanIsNull (parseInt (body.get "personId")) with
    | error e => rfl
    | ok v =>
      simp only
      cases findFirstOpenInZone1 db .Student_ID v with
      | some e => rfl
      | none =>
        simp only
        have hk := createEntry_kind db now pt "STUDENT" .Student_ID v
        cases hc : createEntry db now pt .Student_ID v with
        | error e =>
          rw [hk.2 e hc]
        | ok p =>
          obtain ⟨db1, row⟩ := p
          rw [hk.1 db1 row hc]
  · rcases hcases with
      ⟨_, _, hs⟩ | ⟨_, _, ⟨e, he⟩ | ⟨v, e, hv, hf, he⟩ | ⟨v, p, db1, row, hv, hf, hp, hc, he⟩⟩
    · exact absurd hs hnot400
    · exact Or.inl ⟨e, he⟩
    · exact Or.inr (Or.inl ⟨v, e, hv, hf, he⟩)
    · right; right
      injection hp with hp
      subst hp
      have hshape := hc
      unfold createEntry at hshape
      simp only [reduceIte, reduceCtorEq] at hshape
      split at hshape
      · injection hshape with h
        injection h with h1 h2
        subst h1 h2
        exact ⟨v, _, hv, hf, rfl, he⟩
      · cases hshape

/-- C26 (witness): the kind 'VISITOR' with `personId: 5` on the empty ledger: a row is
inserted under `Student_ID = 5` with `PersonType = 'VISITOR'`, status `201`. -/
theorem person_kind_is_not_validated_witness :
    personColumn (bodyVisitor5.get "personType") = .Student_ID ∧
      (logRecognizedPerson false 100 ledgerEmpty bodyVisitor5).2.status = 201 ∧
      (logRecognizedPerson false 100 ledgerEmpty bodyVisitor5).1.timeTable =
        [{ TimeTable_ID := 1, PersonType := "VISITOR", Teacher_ID := none,
           Student_ID := some 5, Admin_ID := none, Zone_id := 1, EntryTime := some 100,
           ExitTime := none }] ∧
      (logRecognizedPerson false 100 ledgerEmpty bodyVisitor5).2.status ≠ 400 :=
  have h := person_kind_is_not_validated false 100 ledgerEmpty bodyVisitor5 "VISITOR" rfl
    (by decide) (by decide) (by decide)
  ⟨h.1, by decide, by decide, h.2.1⟩


/-! ## C22: the persons in the zone after an exit -/

theorem mem_currentRows (db : Db) (r : TimeTable) :
    r ∈ currentRows db ↔ r ∈ db.timeTable ∧ r.Zone_id = 1 ∧ r.ExitTime = none := by
  unfold currentRows
  rw [(List.perm_insertionSort entryNotBefore _).mem_iff, List.mem_filter]
  simp [inZone1Now]

theorem markExit_rows (now : Int) {db : Db} {timetableId : String} {id : Int}
    (hid : parseIntStr timetableId = some id)
    (hrow : ∃ r ∈ db.timeTable, r.TimeTable_ID = id) :
    (markExit now db timetableId).2.status = 200 ∧
      (markExit now db timetableId).1.timeTable =
        db.timeTable.map
          (fun x => if x.TimeTable_ID = id then { x with ExitTime := some now } else x) := by
  obtain ⟨r, hr, hrid⟩ := hrow
  have hsome : (db.timeTable.find? (fun x => x.TimeTable_ID == id)).isSome = true := by
    rw [List.find?_isSome]
    exact ⟨r, hr, by simp [hrid]⟩
  obtain ⟨r0, hr0⟩ := Option.isSome_iff_exists.mp hsome
  unfold markExit
  simp only [hid, updateExitTime, hr0]
  constructor <;> first | rfl | trivial

theorem filter_inZone1Now_closed (l : List TimeTable) (id now : Int) :
    (l.map (fun x => if x.TimeTable_ID = id then { x with ExitTime := some now } else x)).filter
        inZone1Now =
      (l.filter inZone1Now).filter (fun x => x.TimeTable_ID != id) := by
  induction l with
  | nil => rfl
  | cons a t ih =>
    rw [List.map_cons, List.filter_cons, List.filter_cons]
    by_cases ha : a.TimeTable_ID = id
    · have hclosed : inZone1Now { a with ExitTime := some now } = false := by
        simp [inZone1Now]
      rw [if_pos ha, hclosed]
      by_cases hz : inZone1Now a = true
      · rw [if_pos hz, List.filter_cons]
        simp [ha, ih]
      · rw [if_neg hz]
        simp [ih]
    · rw [if_neg ha]
      by_cases hz : inZone1Now a = true
      · rw [if_pos hz, if_pos hz, List.filter_cons]
        simp [ha, ih]
      · rw [if_neg hz, if_neg hz]
        exact ih

theorem currentRows_sorted (db : Db) :
    (currentRows db).Pairwise (fun a b => ∀ ta tb : Int,
      a.EntryTime = some ta → b.EntryTime = some tb → tb ≤ ta) := by
  have hsorted : (currentRows db).Pairwise entryNotBefore :=
    List.sorted_insertionSort entryNotBefore _
  refine hsorted.imp ?_
  intro a b hab ta tb ha hb
  simpa [entryNotBefore, entryTimeNotBefore, ha, hb] using hab

theorem currentRows_perm (db : Db) :
    (currentRows db).Perm
      (db.timeTable.filter (fun x => x.Zone_id == 1 && x.ExitTime == none)) :=
  List.perm_insertionSort entryNotBefore _

/-- C22: after an exit the person is no longer active in the zone. `getCurrentPersons` answers
`200` with one item (`TimeTable_ID`, `PersonType`, `PersonID`, `EntryTime`) for each ledger
record that has `Zone_id = 1` and no `ExitTime`, and for no other, ordered by `EntryTime`,
the latest first. When the only open zone-1 record of a person is `r`, `r` is listed,
`markExit` on the id of `r` answers `200`, and the answer of `getCurrentPersons` taken right
after lists the records listed before except `r`: no item has the id of `r`, and no item
is an entry of that person. -/
theorem exited_person_is_not_current (now : Int) (db : Db) (timetableId : String)
    (r : TimeTable) (col : PersonColumn) (id : Int)
    (hid : parseIntStr timetableId = some r.TimeTable_ID)
    (honly : openRecordsZone1 db col id = [r]) :
    ∃ before after : List TimeTable,
      before.Perm (db.timeTable.filter (fun x => x.Zone_id == 1 && x.ExitTime == none)) ∧
      before.Pairwise (fun a b => ∀ ta tb : Int,
        a.EntryTime = some ta → b.EntryTime = some tb → tb ≤ ta) ∧
      getCurrentPersons db =
        { status := 200, success := true, message := none, count := some before.length,
          data := some (before.map (fun entry =>
            { TimeTable_ID := entry.TimeTable_ID
              PersonType := entry.PersonType
              PersonID :=
                if entry.PersonType = "TEACHER" then entry.Teacher_ID else entry.Student_ID
              EntryTime := entry.EntryTime })),
          error := none } ∧
      r ∈ before ∧
      (markExit now db timetableId).2.status = 200 ∧
      after.Perm (before.filter (fun x => x.TimeTable_ID != r.TimeTable_ID)) ∧
      after.Perm ((markExit now db timetableId).1.timeTable.filter
        (fun x => x.Zone_id == 1 && x.ExitTime == none)) ∧
      after.Pairwise (fun a b => ∀ ta tb : Int,
        a.EntryTime = some ta → b.EntryTime = some tb → tb ≤ ta) ∧
      getCurrentPersons (markExit now db timetableId).1 =
        { status := 200, success := true, message := none, count := some after.length,
          data := some (after.map (fun entry =>
            { TimeTable_ID := entry.TimeTable_ID
              PersonType := entry.PersonType
              PersonID :=
                if entry.PersonType = "TEACHER" then entry.Teacher_ID else entry.Student_ID
              EntryTime := entry.EntryTime })),
          error := none } ∧
      (∀ x ∈ after, x.column col ≠ some id ∧ x.TimeTable_ID ≠ r.TimeTable_ID) ∧
      (∀ items, (getCurrentPersons (markExit now db timetableId).1).data = some items →
        ∀ p ∈ items, p.TimeTable_ID ≠ r.TimeTable_ID ∧
          ((p.PersonType = "TEACHER" ↔ col = .Teacher_ID) → p.PersonID ≠ some id)) := by
  have hr : r ∈ db.timeTable.filter (openInZone1Filter col (some id)) := by
    show r ∈ openRecordsZone1 db col id
    rw [honly]
    exact List.mem_singleton.mpr rfl
  rw [List.mem_filter] at hr
  obtain ⟨hrmem, hrf⟩ := hr
  simp only [openInZone1Filter, Bool.and_eq_true, beq_iff_eq] at hrf
  obtain ⟨hstatus, hrows⟩ := markExit_rows now hid ⟨r, hrmem, rfl⟩
  have hafterPerm : (currentRows (markExit now db timetableId).1).Perm
      ((currentRows db).filter (fun x => x.TimeTable_ID != r.TimeTable_ID)) := by
    have h1 : (currentRows (markExit now db timetableId).1).Perm
        ((db.timeTable.filter inZone1Now).filter
          (fun x => x.TimeTable_ID != r.TimeTable_ID)) := by
      unfold currentRows
      rw [hrows, filter_inZone1Now_closed]
      exact List.perm_insertionSort entryNotBefore _
    exact h1.trans ((List.perm_insertionSort entryNotBefore _).symm.filter _)
  have hafter : ∀ x ∈ currentRows (markExit now db timetableId).1,
      x.column col ≠ some id ∧ x.TimeTable_ID ≠ r.TimeTable_ID := by
    intro x hx
    have hx1 := hafterPerm.subset hx
    rw [List.mem_filter] at hx1
    obtain ⟨hxb, hxid⟩ := hx1
    have hne : x.TimeTable_ID ≠ r.TimeTable_ID := by simpa using hxid
    obtain ⟨hxmem, hz, hopen⟩ := (mem_currentRows db x).mp hxb
    refine ⟨?_, hne⟩
    intro hcol
    have hxin : x ∈ openRecordsZone1 db col id := by
      show x ∈ db.timeTable.filter (openInZone1Filter col (some id))
      rw [List.mem_filter]
      refine ⟨hxmem, ?_⟩
      simp [openInZone1Filter, hz, hopen, hcol]
    rw [honly] at hxin
    exact hne (by rw [List.mem_singleton.mp hxin])
  have hreply : ∀ d : Db, getCurrentPersons d =
      { status := 200, success := true, message := none,
        count := some (currentRows d).length,
        data := some ((currentRows d).map (fun entry =>
          { TimeTable_ID := entry.TimeTable_ID
            PersonType := entry.PersonType
            PersonID :=
              if entry.PersonType = "TEACHER" then entry.Teacher_ID else entry.Student_ID
            EntryTime := entry.EntryTime })),
        error := none } := by
    intro d
    simp only [getCurrentPersons, List.length_map]
    rfl
  refine ⟨currentRows db, currentRows (markExit now db timetableId).1, currentRows_perm db,
    currentRows_sorted db, hreply db, ?_, hstatus, hafterPerm, currentRows_perm _,
    currentRows_sorted _, hreply _, hafter, ?_⟩
  · rw [mem_currentRows]
    exact ⟨hrmem, hrf.1.1, hrf.1.2⟩
  · intro items hitems p hp
    rw [hreply] at hitems
    injection hitems with hitems
    rw [← hitems, List.mem_map] at hp
    obtain ⟨x, hx, hxp⟩ := hp
    obtain ⟨hcolne, hidne⟩ := hafter x hx
    subst hxp
    refine ⟨hidne, ?_⟩
    intro hkind hpid
    apply hcolne
    cases col with
    | Teacher_ID =>
      have ht : x.PersonType = "TEACHER" := hkind.mpr rfl
      simp only [ht, reduceIte] at hpid
      exact hpid
    | Student_ID =>
      have ht : ¬ x.PersonType = "TEACHER" := fun h => by
        have := hkind.mp h
        cases this
      simp only [ht, reduceIte] at hpid
      exact hpid

/-- C22 (witness): student 5 is the one person in zone 1 and is listed; after the exit on
record 1 the list is empty. -/
theorem exited_person_is_not_current_witness :
    getCurrentPersons ledgerOpenInZone1 =
        { status := 200, success := true, message := none, count := some 1,
          data := some [{ TimeTable_ID := 1, PersonType := "STUDENT", PersonID := some 5,
                          EntryTime := some 0 }],
          error := none } ∧
      (markExit 3600000 ledgerOpenInZone1 "1").2.status = 200 ∧
      getCurrentPersons (markExit 3600000 ledgerOpenInZone1 "1").1 =
        { status := 200, success := true, message := none, count := some 0,
          data := some [], error := none } ∧
      ∀ items, (getCurrentPersons (markExit 3600000 ledgerOpenInZone1 "1").1).data =
          some items →
        ∀ p ∈ items, p.TimeTable_ID ≠ 1 ∧
          ((p.PersonType = "TEACHER" ↔ PersonColumn.Student_ID = .Teacher_ID) →
            p.PersonID ≠ some 5) := by
  obtain ⟨before, after, _, _, _, _, hstatus, _, _, _, _, _, hitems⟩ :=
    exited_person_is_not_current 3600000 ledgerOpenInZone1 "1"
      { TimeTable_ID := 1, PersonType := "STUDENT", Teacher_ID := none, Student_ID := some 5,
        Admin_ID := none, Zone_id := 1, EntryTime := some 0, ExitTime := none }
      .Student_ID 5 (by decide) (by decide)
  exact ⟨by decide, hstatus, by decide, hitems⟩


/-! ## Facts about the zone-1 invariant -/

theorem length_filter_map_le {α : Type} (f : α → α) (p : α → Bool) (l : List α)
    (h : ∀ x ∈ l, p (f x) = true → p x = true) :
    ((l.map f).filter p).length ≤ (l.filter p).length := by
  induction l with
  | nil => simp
  | cons a t ih =>
    have iht := ih (fun x hx => h x (List.mem_cons_of_mem _ hx))
    by_cases hfa : p (f a) = true
    · have ha := h a (List.mem_cons_self _ _) hfa
      simp only [List.map_cons, List.filter_cons, hfa, ha, reduceIte, List.length_cons]
      omega
    · have hfa1 : p (f a) = false := by simpa using hfa
      by_cases ha : p a = true
      · simp only [List.map_cons, List.filter_cons, hfa1, ha, Bool.false_eq_true, reduceIte,
          List.length_cons]
        omega
      · have ha1 : p a = false := by simpa using ha
        simp only [List.map_cons, List.filter_cons, hfa1, ha1, Bool.false_eq_true, reduceIte]
        exact iht

theorem singleOpenRecordZone1_createEntry {db db1 : Db} {now : Int} {pt : String}
    {col : PersonColumn} {v : Option Int} {row : TimeTable}
    (h : singleOpenRecordZone1 db) (hfind : findFirstOpenInZone1 db col v = none)
    (hc : createEntry db now pt col v = .ok (db1, row)) : singleOpenRecordZone1 db1 := by
  obtain ⟨htt, _, _, _, hcol, hother, _⟩ := createEntry_ok hc
  intro c id
  show (db1.timeTable.filter (openInZone1Filter c (some id))).length ≤ 1
  rw [htt, List.filter_append, List.length_append]
  by_cases hm : openInZone1Filter c (some id) row = true
  · have hcv : row.column c = some id := by
      simp only [openInZone1Filter, Bool.and_eq_true, beq_iff_eq] at hm
      exact hm.2
    have hceq : c = col := by
      by_contra hne
      rw [hother c hne] at hcv
      cases hcv
    have hv1 : v = some id := by rw [← hcol, ← hceq]; exact hcv
    have hnil : db.timeTable.filter (openInZone1Filter c (some id)) = [] := by
      rw [List.filter_eq_nil_iff]
      intro r hr
      have hnone := List.find?_eq_none.mp hfind r hr
      rw [← hceq, hv1] at hnone
      exact hnone
    simp [hnil]
    exact List.length_filter_le _ _
  · have hold := h c id
    have hrow : [row].filter (openInZone1Filter c (some id)) = [] := by
      simp [List.filter, hm]
    rw [hrow]
    simpa using hold

theorem singleOpenRecordZone1_entry (nanIsNull : Bool) (now : Int) (db : Db) (body : ReqBody)
    (h : singleOpenRecordZone1 db) :
    singleOpenRecordZone1 (logRecognizedPerson nanIsNull now db body).1 := by
  rcases logRecognizedPerson_cases nanIsNull now db body with
    ⟨_, hdb, _⟩ | ⟨_, _, ⟨e, he⟩ | ⟨v, e, _, _, he⟩ | ⟨v, pt, db1, row, hv, hfind, hpt, hc, he⟩⟩
  · rw [hdb]; exact h
  · rw [he]; exact h
  · rw [he]; exact h
  · rw [he]
    exact singleOpenRecordZone1_createEntry h hfind hc

theorem singleOpenRecordZone1_exit (now : Int) (db : Db) (timetableId : String)
    (h : singleOpenRecordZone1 db) : singleOpenRecordZone1 (markExit now db timetableId).1 := by
  unfold markExit
  cases parseIntStr timetableId with
  | none => exact h
  | some id =>
    simp only
    unfold updateExitTime
    cases db.timeTable.find? (fun r => r.TimeTable_ID == id) with
    | none => exact h
    | some r =>
      intro col pid
      refine le_trans ?_ (h col pid)
      apply length_filter_map_le
      intro x _ hx
      by_cases hxid : x.TimeTable_ID = id
      · simp [hxid, openInZone1Filter] at hx
      · simpa [hxid] using hx

theorem singleOpenRecordZone1_applyOp (db : Db) (op : LedgerOp)
    (h : singleOpenRecordZone1 db) : singleOpenRecordZone1 (applyOp db op) := by
  cases op with
  | recognize nanIsNull now body => exact singleOpenRecordZone1_entry nanIsNull now db body h
  | exit now timetableId => exact singleOpenRecordZone1_exit now db timetableId h

/-! ## C25: the zone-1 invariant along sequences of operations -/

/-- C25: the zone-scoped single-open-record invariant. On every ledger in which each pair of
a person column and an id has at most one record with `Zone_id = 1` and no `ExitTime`, every
call of `logRecognizedPerson` and every call of `markExit` leaves a ledger in which that
still holds, and so does every sequence of such calls made one after the other; in
particular every such sequence keeps it from an empty ledger on, whatever the registries
hold. -/
theorem zone1_invariant_is_kept (db : Db) (ops : List LedgerOp)
    (h : singleOpenRecordZone1 db) :
    (∀ (nanIsNull : Bool) (now : Int) (body : ReqBody),
        singleOpenRecordZone1 (logRecognizedPerson nanIsNull now db body).1) ∧
      (∀ (now : Int) (timetableId : String),
        singleOpenRecordZone1 (markExit now db timetableId).1) ∧
      singleOpenRecordZone1 (applyOps db ops) ∧
      (∀ (nextId : Int) (students teachers zones : List Int) (ops2 : List LedgerOp),
        singleOpenRecordZone1
          (applyOps { timeTable := [], nextTimeTableId := nextId, students := students,
                      teachers := teachers, zones := zones } ops2)) := by
  have hseq : ∀ (l : List LedgerOp) (d : Db), singleOpenRecordZone1 d →
      singleOpenRecordZone1 (applyOps d l) := by
    intro l
    induction l with
    | nil => intro d hd; exact hd
    | cons op t ih =>
      intro d hd
      exact ih (applyOp d op) (singleOpenRecordZone1_applyOp d op hd)
  refine ⟨fun nanIsNull now body => singleOpenRecordZone1_entry nanIsNull now db body h,
    fun now timetableId => singleOpenRecordZone1_exit now db timetableId h, hseq ops db h, ?_⟩
  intro nextId students teachers zones ops2
  apply hseq
  intro col id
  simp [openRecordsZone1]

/-- C25 (witness): from the empty ledger, student 5 is recognized twice, leaves, and is
recognized again: one open record in zone 1. -/
theorem zone1_invariant_is_kept_witness :
    singleOpenRecordZone1 ledgerEmpty ∧
      singleOpenRecordZone1
        (applyOps ledgerEmpty
          [.recognize false 100 bodyStudent5, .recognize false 200 bodyStudent5,
           .exit 300 "1", .recognize false 400 bodyStudent5]) ∧
      (openRecordsZone1
        (applyOps ledgerEmpty
          [.recognize false 100 bodyStudent5, .recognize false 200 bodyStudent5,
           .exit 300 "1", .recognize false 400 bodyStudent5]) .Student_ID 5).length = 1 :=
  have h0 : singleOpenRecordZone1 ledgerEmpty := fun _ _ =>
    (List.length_filter_le _ _).trans (by decide)
  ⟨h0, (zone1_invariant_is_kept ledgerEmpty
      [.recognize false 100 bodyStudent5, .recognize false 200 bodyStudent5,
       .exit 300 "1", .recognize false 400 bodyStudent5] h0).2.2.1, by decide⟩


/-! ## Facts about the storage steps of the entry operation -/

/-- The two storage steps of a call, taken one after the other, are the handler. -/
theorem entryStep_twice (nanIsNull : Bool) (now : Int) (body : ReqBody) (db : Db) :
    entryStep nanIsNull now body (entryStep nanIsNull now body db .start).1
        (entryStep nanIsNull now body db .start).2 =
      ((logRecognizedPerson nanIsNull now db body).1,
        .finished (logRecognizedPerson nanIsNull now db body).2) := by
  show entryStep nanIsNull now body db (entryCheck nanIsNull db body) = _
  unfold entryCheck logRecognizedPerson
  simp only
  split
  · rfl
  · cases prismaIntArg nanIsNull (parseInt (body.get "personId")) with
    | error e => rfl
    | ok v =>
      simp only
      cases findFirstOpenInZone1 db (personColumn (body.get "personType")) v with
      | some e => rfl
      | none =>
        simp only [entryStep, entryInsert]

theorem entryCheck_not_inserted (nanIsNull : Bool) (db : Db) (body : ReqBody) :
    (entryCheck nanIsNull db body).inserted = false := by
  unfold entryCheck
  simp only
  split
  · rfl
  · cases prismaIntArg nanIsNull (parseInt (body.get "personId")) with
    | error e => rfl
    | ok v =>
      simp only
      cases findFirstOpenInZone1 db (personColumn (body.get "personType")) v with
      | some e => rfl
      | none => rfl

/-- A call for a person made after a call that inserted a record for that person does not
insert. -/
theorem second_entry_does_not_insert (nanIsNull : Bool) (now1 now2 : Int) (db : Db)
    (body1 body2 : ReqBody)
    (hcol : personColumn (body2.get "personType") = personColumn (body1.get "personType"))
    (hid : parseInt (body2.get "personId") = parseInt (body1.get "personId"))
    (h1 : (logRecognizedPerson nanIsNull now1 db body1).2.status = 201) :
    (logRecognizedPerson nanIsNull now2 (logRecognizedPerson nanIsNull now1 db body1).1
      body2).2.status ≠ 201 := by
  rcases logRecognizedPerson_cases nanIsNull now1 db body1 with
    ⟨_, _, hs⟩ | ⟨_, _, ⟨e, he⟩ | ⟨v, e, _, _, he⟩ | ⟨v, pt, db1, row, hv, hfind, hpt, hc, he⟩⟩
  · rw [hs] at h1; cases h1
  · rw [he] at h1; cases h1
  · rw [he] at h1; cases h1
  · rw [he]
    obtain ⟨htt, hz, hopen, _, hrowcol, _, _⟩ := createEntry_ok hc
    have hfound : findFirstOpenInZone1 db1 (personColumn (body1.get "personType")) v ≠
        none := by
      intro hnone
      have hrow := List.find?_eq_none.mp hnone row (by rw [htt]; simp)
      simp [openInZone1Filter, hz, hopen, hrowcol] at hrow
    rcases logRecognizedPerson_cases nanIsNull now2 db1 body2 with
      ⟨_, _, hs⟩ | ⟨_, _, ⟨e, he2⟩ | ⟨v2, e, _, _, he2⟩ |
        ⟨v2, pt2, db2, row2, hv2, hfind2, _, _, _⟩⟩
    · rw [hs]; decide
    · rw [he2]; simp [entryFailed]
    · rw [he2]; simp
    · exfalso
      rw [hid, hv] at hv2
      injection hv2 with hv2
      subst hv2
      rw [hcol] at hfind2
      exact hfound hfind2

/-- The two calls with their roles exchanged. -/
theorem runSchedule_swap (nanIsNull : Bool) (now1 : Int) (body1 : ReqBody) (now2 : Int)
    (body2 : ReqBody) (schedule : List Bool) (c : TwoCalls) :
    runSchedule nanIsNull now1 body1 now2 body2 schedule c =
      { db := (runSchedule nanIsNull now2 body2 now1 body1 (schedule.map (fun b => !b))
                { db := c.db, first := c.second, second := c.first }).db
        first := (runSchedule nanIsNull now2 body2 now1 body1 (schedule.map (fun b => !b))
                { db := c.db, first := c.second, second := c.first }).second
        second := (runSchedule nanIsNull now2 body2 now1 body1 (schedule.map (fun b => !b))
                { db := c.db, first := c.second, second := c.first }).first } := by
  induction schedule generalizing c with
  | nil => rfl
  | cons b rest ih =>
    cases b
    · simp only [runSchedule, List.map_cons, Bool.not_false]
      rw [ih]
    · simp only [runSchedule, List.map_cons, Bool.not_true]
      rw [ih]

/-- After the first call has taken both its storage steps, the second call is somewhere on
its own way through the handler, on the ledger the first call left. -/
theorem runSchedule_after_first (nanIsNull : Bool) (now1 : Int) (body1 : ReqBody) (now2 : Int)
    (body2 : ReqBody) (dbA : Db) (rA : Response) (rest : List Bool) (c : TwoCalls)
    (hfirst : c.first = .finished rA)
    (hsecond : (c.db, c.second) = (dbA, .start) ∨
      (c.db, c.second) = (dbA, entryCheck nanIsNull dbA body2) ∨
      (c.db, c.second) = ((logRecognizedPerson nanIsNull now2 dbA body2).1,
        .finished (logRecognizedPerson nanIsNull now2 dbA body2).2)) :
    (runSchedule nanIsNull now1 body1 now2 body2 rest c).first = .finished rA ∧
      (((runSchedule nanIsNull now1 body1 now2 body2 rest c).db,
          (runSchedule nanIsNull now1 body1 now2 body2 rest c).second) = (dbA, .start) ∨
        ((runSchedule nanIsNull now1 body1 now2 body2 rest c).db,
          (runSchedule nanIsNull now1 body1 now2 body2 rest c).second) =
            (dbA, entryCheck nanIsNull dbA body2) ∨
        ((runSchedule nanIsNull now1 body1 now2 body2 rest c).db,
          (runSchedule nanIsNull now1 body1 now2 body2 rest c).second) =
            ((logRecognizedPerson nanIsNull now2 dbA body2).1,
              .finished (logRecognizedPerson nanIsNull now2 dbA body2).2)) := by
  induction rest generalizing c with
  | nil => exact ⟨hfirst, hsecond⟩
  | cons b rest ih =>
    cases b
    · simp only [runSchedule]
      apply ih
      · simp only [hfirst, entryStep]
      · simp only [hfirst, entryStep]
        exact hsecond
    · simp only [runSchedule]
      apply ih
      · exact hfirst
      · have htwice := entryStep_twice nanIsNull now2 body2 dbA
        rcases hsecond with h | h | h
        · injection h with hdb hs
          right; left
          rw [hdb, hs]
          rfl
        · injection h with hdb hs
          right; right
          rw [hdb, hs]
          exact htwice
        · injection h with hdb hs
          right; right
          rw [hdb, hs]
          rfl


theorem runSchedule_first_goes_first (nanIsNull : Bool) (now1 : Int) (body1 : ReqBody)
    (now2 : Int) (body2 : ReqBody) (db : Db) (rest : List Bool)
    (hcol : personColumn (body2.get "personType") = personColumn (body1.get "personType"))
    (hid : parseInt (body2.get "personId") = parseInt (body1.get "personId")) :
    ¬ ((runSchedule nanIsNull now1 body1 now2 body2 (false :: false :: rest)
          { db := db, first := .start, second := .start }).first.inserted = true ∧
        (runSchedule nanIsNull now1 body1 now2 body2 (false :: false :: rest)
          { db := db, first := .start, second := .start }).second.inserted = true) ∧
      (singleOpenRecordZone1 db →
        singleOpenRecordZone1
          (runSchedule nanIsNull now1 body1 now2 body2 (false :: false :: rest)
            { db := db, first := .start, second := .start }).db) := by
  have htwice := entryStep_twice nanIsNull now1 body1 db
  have hstart : runSchedule nanIsNull now1 body1 now2 body2 (false :: false :: rest)
      { db := db, first := .start, second := .start } =
      runSchedule nanIsNull now1 body1 now2 body2 rest
        { db := (logRecognizedPerson nanIsNull now1 db body1).1,
          first := .finished (logRecognizedPerson nanIsNull now1 db body1).2,
          second := .start } := by
    simp only [runSchedule]
    rw [htwice]
  rw [hstart]
  obtain ⟨hfirst, hsecond⟩ := runSchedule_after_first nanIsNull now1 body1 now2 body2
    (logRecognizedPerson nanIsNull now1 db body1).1
    (logRecognizedPerson nanIsNull now1 db body1).2 rest
    { db := (logRecognizedPerson nanIsNull now1 db body1).1,
      first := .finished (logRecognizedPerson nanIsNull now1 db body1).2,
      second := .start } rfl (Or.inl rfl)
  generalize runSchedule nanIsNull now1 body1 now2 body2 rest
    { db := (logRecognizedPerson nanIsNull now1 db body1).1,
      first := .finished (logRecognizedPerson nanIsNull now1 db body1).2,
      second := .start } = final at hfirst hsecond
  constructor
  · rintro ⟨h1, h2⟩
    rw [hfirst] at h1
    have h201 : (logRecognizedPerson nanIsNull now1 db body1).2.status = 201 := by
      simpa [EntryCall.inserted] using h1
    rcases hsecond with h | h | h
    · injection h with _ hs
      rw [hs] at h2
      cases h2
    · injection h with _ hs
      rw [hs, entryCheck_not_inserted] at h2
      cases h2
    · injection h with _ hs
      rw [hs] at h2
      have h3 : (logRecognizedPerson nanIsNull now2
          (logRecognizedPerson nanIsNull now1 db body1).1 body2).2.status = 201 := by
        simpa [EntryCall.inserted] using h2
      exact second_entry_does_not_insert nanIsNull now1 now2 db body1 body2 hcol hid h201 h3
  · intro hinv
    have hA := singleOpenRecordZone1_entry nanIsNull now1 db body1 hinv
    rcases hsecond with h | h | h
    · injection h with hdb _
      rw [hdb]; exact hA
    · injection h with hdb _
      rw [hdb]; exact hA
    · injection h with hdb _
      rw [hdb]
      exact singleOpenRecordZone1_entry nanIsNull now2 _ body2 hA

/-! ## C24: two entry calls for one person at the same time -/

/-- C24 (counterexample): student 5 has no open record and two calls of `logRecognizedPerson`
for the student are served at the same time. Both duplicate checks run before either insert;
both calls answer `201` and the ledger ends with two open zone-1 records of the student. -/
theorem interleaved_entry_calls_both_insert :
    openRecordsZone1 ledgerEmpty .Student_ID 5 = [] ∧
      (runSchedule false 100 bodyStudent5 101 bodyStudent5 [false, true, false, true]
        twoCallsStart).first.inserted = true ∧
      (runSchedule false 100 bodyStudent5 101 bodyStudent5 [false, true, false, true]
        twoCallsStart).second.inserted = true ∧
      (openRecordsZone1
        (runSchedule false 100 bodyStudent5 101 bodyStudent5 [false, true, false, true]
          twoCallsStart).db .Student_ID 5).length = 2 := by
  decide

/-- C24 (amended): two entry calls for the same person never both create an open record when
their storage steps do not interleave. For every ledger, every two calls of
`logRecognizedPerson` that name the same person (the same column and the same parsed id) and
every schedule in which the call that takes the first storage step also takes the second, so
that its duplicate check and its insert come before every storage step of the other call:
at most one of the two calls inserts a record, and a ledger with at most one open zone-1
record per person still has at most one per person at the end. The schedule in which the
first call runs and then the second is the two handlers run one after the other. -/
theorem serial_entry_calls_insert_once (nanIsNull : Bool) (now1 : Int) (body1 : ReqBody)
    (now2 : Int) (body2 : ReqBody) (db : Db) (b : Bool) (rest : List Bool)
    (hcol : personColumn (body2.get "personType") = personColumn (body1.get "personType"))
    (hid : parseInt (body2.get "personId") = parseInt (body1.get "personId")) :
    ¬ ((runSchedule nanIsNull now1 body1 now2 body2 (b :: b :: rest)
          { db := db, first := .start, second := .start }).first.inserted = true ∧
        (runSchedule nanIsNull now1 body1 now2 body2 (b :: b :: rest)
          { db := db, first := .start, second := .start }).second.inserted = true) ∧
      (singleOpenRecordZone1 db →
        singleOpenRecordZone1
          (runSchedule nanIsNull now1 body1 now2 body2 (b :: b :: rest)
            { db := db, first := .start, second := .start }).db) ∧
      runSchedule nanIsNull now1 body1 now2 body2 [false, false, true, true]
          { db := db, first := .start, second := .start } =
        { db := (logRecognizedPerson nanIsNull now2
                  (logRecognizedPerson nanIsNull now1 db body1).1 body2).1
          first := .finished (logRecognizedPerson nanIsNull now1 db body1).2
          second := .finished (logRecognizedPerson nanIsNull now2
                  (logRecognizedPerson nanIsNull now1 db body1).1 body2).2 } := by
  have hserial : runSchedule nanIsNull now1 body1 now2 body2 [false, false, true, true]
      { db := db, first := .start, second := .start } =
      { db := (logRecognizedPerson nanIsNull now2
                (logRecognizedPerson nanIsNull now1 db body1).1 body2).1
        first := .finished (logRecognizedPerson nanIsNull now1 db body1).2
        second := .finished (logRecognizedPerson nanIsNull now2
                (logRecognizedPerson nanIsNull now1 db body1).1 body2).2 } := by
    have h1 := entryStep_twice nanIsNull now1 body1 db
    have h2 := entryStep_twice nanIsNull now2 body2
      (logRecognizedPerson nanIsNull now1 db body1).1
    simp only [runSchedule]
    rw [h1]
    simp only
    rw [h2]
  cases b
  · have h := runSchedule_first_goes_first nanIsNull now1 body1 now2 body2 db rest hcol hid
    exact ⟨h.1, h.2, hserial⟩
  · have h := runSchedule_first_goes_first nanIsNull now2 body2 now1 body1 db
      (rest.map (fun b => !b)) hcol.symm hid.symm
    rw [runSchedule_swap]
    simp only [List.map_cons, Bool.not_true]
    exact ⟨fun hboth => h.1 ⟨hboth.2, hboth.1⟩, h.2, hserial⟩

/-- C24 (witness): two calls for student 5 on the empty ledger, the second served after the
first: the first answers `201`, the second `200`, and one record is open. -/
theorem serial_entry_calls_insert_once_witness :
    ¬ ((runSchedule false 100 bodyStudent5 101 bodyStudent5 [false, false, true, true]
          { db := ledgerEmpty, first := .start, second := .start }).first.inserted = true ∧
        (runSchedule false 100 bodyStudent5 101 bodyStudent5 [false, false, true, true]
          { db := ledgerEmpty, first := .start, second := .start }).second.inserted = true) ∧
      (openRecordsZone1
        (runSchedule false 100 bodyStudent5 101 bodyStudent5 [false, false, true, true]
          { db := ledgerEmpty, first := .start, second := .start }).db
        .Student_ID 5).length = 1 :=
  ⟨(serial_entry_calls_insert_once false 100 bodyStudent5 101 bodyStudent5 ledgerEmpty false
      [true, true] rfl rfl).1, by decide⟩


/-! ## C23: an exit without an open record -/

theorem recordExit_ok (now : Int) (ledger : PresenceLedger) (req : ExitRequest) :
    (recordExit now ledger req).2.status = 200 ∧
      (recordExit now ledger req).2.success = true ∧
      (recordExit now ledger req).2.error = none ∧
      ∃ record, (recordExit now ledger req).2.data = some record ∧
        record.exitTime = some (req.timestamp.getD now) := by
  unfold recordExit
  cases mostRecent (openRecordsFor ledger req) with
  | none => exact ⟨rfl, rfl, rfl, _, rfl, rfl⟩
  | some r => exact ⟨rfl, rfl, rfl, _, rfl, rfl⟩

theorem recordExits_ok (now : Int) (reqs : List ExitRequest) (ledger : PresenceLedger) :
    ∀ reply ∈ recordExits now ledger reqs,
      reply.status = 200 ∧ reply.success = true ∧ reply.error = none ∧
        ∃ record, reply.data = some record ∧ record.exitTime ≠ none := by
  induction reqs generalizing ledger with
  | nil => intro reply h; cases h
  | cons req rest ih =>
    intro reply h
    rcases List.mem_cons.mp h with h1 | h1
    · obtain ⟨hs, hok, herr, record, hdata, hexit⟩ := recordExit_ok now ledger req
      rw [h1]
      exact ⟨hs, hok, herr, record, hdata, by rw [hexit]; simp⟩
    · exact ih _ reply h1

/-- C23: `recordExit` never fails for lack of an open record. On every ledger in which the
person of the request has no record with `exitTime = null`, an exit request, with or
without `zoneId`, answers `200` (never `409`) with a record of that person whose `exitTime`
is set (to the timestamp of the request, or to now) and whose `entryTime` is absent; the
record is appended to the ledger. Every call of a sequence of exit requests answers `200`
with a record whose `exitTime` is set. The schema `exitSchema` lets a request pass with and
without `zoneId`. -/
theorem recordExit_without_open_record (now : Int) (ledger : PresenceLedger)
    (req : ExitRequest)
    (hnone : ∀ r ∈ ledger.records, r.person = req.person → r.exitTime ≠ none) :
    (recordExit now ledger req).2.status = 200 ∧
      (recordExit now ledger req).2.status ≠ 409 ∧
      (recordExit now ledger req).2.success = true ∧
      (recordExit now ledger req).2.error = none ∧
      (∃ record, (recordExit now ledger req).2.data = some record ∧
        record.person = req.person ∧ record.entryTime = none ∧
        record.exitTime = some (req.timestamp.getD now) ∧ record.exitTime ≠ none ∧
        (recordExit now ledger req).1.records = ledger.records ++ [record]) ∧
      (∀ r ∈ (recordExit now ledger req).1.records, r.person = req.person →
        r.exitTime ≠ none) ∧
      (∀ (start : PresenceLedger) (reqs : List ExitRequest),
        ∀ reply ∈ recordExits now start reqs,
          reply.status = 200 ∧ reply.success = true ∧ reply.error = none ∧
            ∃ record, reply.data = some record ∧ record.exitTime ≠ none) ∧
      (∀ (isDatetime : String → Bool) (kind : String) (n z : Int),
        kind = "STUDENT" ∨ kind = "TEACHER" → 0 < n → 0 < z →
        exitSchema isDatetime (.object [("personType", .str kind), ("personId", .num n)]) =
            .ok (.object [("personType", .str kind), ("personId", .num n)]) ∧
          exitSchema isDatetime
              (.object [("personType", .str kind), ("personId", .num n),
                        ("zoneId", .num z)]) =
            .ok (.object [("personType", .str kind), ("personId", .num n),
                          ("zoneId", .num z)])) := by
  have hopen : openRecordsFor ledger req = [] := by
    unfold openRecordsFor
    rw [List.filter_eq_nil_iff]
    intro r hr hf
    simp only [Bool.and_eq_true, decide_eq_true_eq, beq_iff_eq] at hf
    exact hnone r hr hf.1.1 hf.1.2
  have hrun : recordExit now ledger req =
      ({ records := ledger.records ++
           [{ id := ledger.nextId, person := req.person, zoneId := req.zoneId,
              entryTime := none, exitTime := some (req.timestamp.getD now),
              cameraId := none }],
         nextId := ledger.nextId + 1 },
       { status := 200, success := true, message := none, count := none,
         data := some { id := ledger.nextId, person := req.person, zoneId := req.zoneId,
                        entryTime := none, exitTime := some (req.timestamp.getD now),
                        cameraId := none },
         error := none }) := by
    unfold recordExit
    rw [hopen]
    rfl
  rw [hrun]
  refine ⟨rfl, by simp, rfl, rfl, ⟨_, rfl, rfl, rfl, rfl, by simp, rfl⟩, ?_,
    fun start reqs => recordExits_ok now reqs start, ?_⟩
  · intro r hr hp
    rcases List.mem_append.mp hr with h | h
    · exact hnone r h hp
    · rw [List.mem_singleton.mp h]
      simp
  · intro isDatetime kind n z hkind hn hz
    rcases hkind with rfl | rfl <;>
      simp [exitSchema, exitSchemaIssues, exitSchemaKeys, personTypeIssues, positiveIntIssues,
        datetimeIssues, ReqBody.get, List.lookup, PERSON_TYPES_TEACHER, PERSON_TYPES_STUDENT,
        hn, hz]

/-- C23 (witness): student 2 has one closed record; an exit request for zone 1 answers `200`
with an exit-only record, and so does the same request sent again. -/
theorem recordExit_without_open_record_witness :
    (recordExit 500 presenceClosed exitStudent2).2.status = 200 ∧
      (recordExit 500 presenceClosed exitStudent2).2.data =
        some { id := 2, person := { kind := .STUDENT, id := 2 }, zoneId := some 1,
               entryTime := none, exitTime := some 500, cameraId := none } ∧
      (recordExits 500 presenceClosed [exitStudent2, exitStudent2]).map (fun r => r.status) =
        [200, 200] ∧
      exitSchema (fun _ => true) bodyExitStudent2 = .ok bodyExitStudent2 :=
  have h := recordExit_without_open_record 500 presenceClosed exitStudent2 (by decide)
  ⟨h.1, by decide, by decide,
    (h.2.2.2.2.2.2.2 (fun _ => true) "STUDENT" 2 1 (Or.inl rfl) (by decide) (by decide)).2⟩

end Intellisight
